import Mathlib

/-!
# Bare-metal arcade shooter: time base, entity pools and game master loop

A shallow embedding of `src/kernel.c`.  The C globals and function-local
statics become the fields of one record, `Game`; every C function becomes a
function on that record.  Hardware reads (`rdtsc`, `rtcs`, `inb(0x60)`) are
arguments.  Video output (`putc`, `puts`, `clear`, the `draw` family) writes
only to the text buffer and is left out, as is the write-only local
`last_key`.

Machine integers are unbounded `Nat`/`Int` with the wrap-around written out:
`u32`/`u64` values are `Nat` reduced modulo `2^32`/`2^64`, `s8` values are
`Int` reduced into `-128..127` on every store and every `s8` parameter.
-/

namespace Kernel

/-! ## Machine integers -/

/-- Number of values of a C `u32`. -/
def U32 : Nat := 4294967296

/-- Number of values of a C `u64`. -/
def U64 : Nat := 18446744073709551616

/-- Conversion of a C `int` to `s8` (two's complement wrap-around). -/
def s8 (n : Int) : Int := (n + 128) % 256 - 128

/-- Conversion of a C `int` to `u32`. -/
def u32 (n : Int) : Nat := (n % 4294967296).toNat

/-- C subtraction `a - b` on `u32` operands. -/
def sub32 (a b : Nat) : Nat := (a % U32 + (U32 - b % U32)) % U32

/-- C subtraction `a - b` on `u64` operands. -/
def sub64 (a b : Nat) : Nat := (a % U64 + (U64 - b % U64)) % U64

/-- C multiplication `a * b` on `u64` operands. -/
def mul64 (a b : Nat) : Nat := (a * b) % U64

/-! ## Build-time configuration -/

/-- The constants of `config.h` that `kernel.c` uses.  The header is not among
the sources, so the well width, the well height and the initial update cadence
(in milliseconds) are carried as parameters. -/
structure Config where
  WELL_WIDTH : Int
  WELL_HEIGHT : Int
  INITIAL_SPEED : Nat
deriving DecidableEq, Repr

/-! ## Loops -/

/-- Outcome of a loop body or of a loop: fall through to the next iteration
(`next`) or leave the enclosing function (`ret`, for C `return`, and for a
`break` that is followed by nothing). -/
inductive Flow (σ : Type) where
  | next : σ → Flow σ
  | ret : σ → Flow σ
deriving DecidableEq, Repr

/-- The state carried by either outcome. -/
def Flow.state {σ : Type} : Flow σ → σ
  | Flow.next s => s
  | Flow.ret s => s

/-- C `for` loop over the listed index values, without early exit. -/
def forEach {ι σ : Type} (body : ι → σ → σ) : List ι → σ → σ
  | [], s => s
  | i :: rest, s => forEach body rest (body i s)

/-- C `for` loop over the listed index values whose body may leave the
function. -/
def forReturn {ι σ : Type} (body : ι → σ → Flow σ) : List ι → σ → Flow σ
  | [], s => Flow.next s
  | i :: rest, s =>
    match body i s with
    | Flow.ret r => Flow.ret r
    | Flow.next t => forReturn body rest t

/-- Index values of `for (i = 0; i < 4; i++)`. -/
def slots4 : List (Fin 4) := [0, 1, 2, 3]

/-- Index values of `for (i = 0; i < 3; i++)`. -/
def slots3 : List (Fin 3) := [0, 1, 2]

/-- Index values `lo, lo+1, ..., hi-1` of an array of `n` cells:
`for (i = lo; i < hi; i++)`. -/
def slotsFrom (n lo hi : Nat) : List (Fin n) :=
  (List.finRange n).filter (fun i => decide (lo ≤ i.val ∧ i.val < hi))

/-! ## Data model -/

/-- C `struct Nave`: colour index, position, existence flag. -/
structure Nave where
  i : Nat
  x : Int
  y : Int
  existe : Bool
deriving DecidableEq, Repr

/-- C `struct Bala`: position, existence flag. -/
structure Bala where
  x : Int
  y : Int
  existe : Bool
deriving DecidableEq, Repr

/-- C `enum timer` (`TIMER__LENGTH` is 2). -/
abbrev timer := Fin 2

/-- C `TIMER_UPDATE`. -/
def TIMER_UPDATE : timer := 0

/-- C `TIMER_CLEAR`. -/
def TIMER_CLEAR : timer := 1

/-- All globals of `kernel.c` together with the function-local statics
(`ti` and `last_sec` of `tps`, `key` of `scan`). -/
structure Game where
  tpms : Nat
  ti : Nat
  last_sec : Nat
  timers : Mathlib.Vector Nat 2
  key : Nat
  aliado : Nave
  enemigo : Mathlib.Vector Nave 4
  bala : Mathlib.Vector Bala 4
  rocas : Mathlib.Vector Bala 3
  position : Mathlib.Vector Nat 20
  score : Nat
  level : Nat
  vidas : Nat
  speed : Nat
  paused : Bool
  game_over : Bool
  level2 : Bool
  pos : Int
deriving DecidableEq

/-! ## Timing -/

/-- C `tps`: `sec` is the value returned by `rtcs()`, `tf` the value `rdtsc()`
returns when the branch is taken. -/
def tps (sec tf : Nat) (g : Game) : Game :=
  if sec ≠ g.last_sec then
    { g with
      last_sec := sec
      tpms := (sub64 tf g.ti >>> 3) % U32 / 125
      ti := tf }
  else g

/-- C `interval`: `tf` is the value returned by `rdtsc()`. -/
def interval (t : timer) (ms : Nat) (tf : Nat) (g : Game) : Bool × Game :=
  if sub64 tf (g.timers.get t) ≥ mul64 g.tpms ms then
    (true, { g with timers := g.timers.set t tf })
  else (false, g)

/-- C `wait`: `tf` is the value returned by the one `rdtsc()` call made. -/
def wait (t : timer) (ms : Nat) (tf : Nat) (g : Game) : Bool × Game :=
  if g.timers.get t ≠ 0 then
    if sub64 tf (g.timers.get t) ≥ mul64 g.tpms ms then
      (true, { g with timers := g.timers.set t 0 })
    else (false, g)
  else (false, { g with timers := g.timers.set t tf })

/-! ## Keyboard -/

def KEY_R : Nat := 0x13
def KEY_P : Nat := 0x19
def KEY_LEFT : Nat := 0x4B
def KEY_RIGHT : Nat := 0x4D
def KEY_ENTER : Nat := 0x1C
def KEY_SPACE : Nat := 0x39

/-- C `scan`: `port` is the byte read by `inb(0x60)`. -/
def scan (port : Nat) (g : Game) : Nat × Game :=
  if port ≠ g.key then (port, { g with key := port }) else (0, g)

/-! ## Boundary tests -/

/-- C `collide`; the arguments are already converted to `s8`. -/
def collide (cfg : Config) (x y : Int) : Bool :=
  if x < 1 ∨ x > cfg.WELL_WIDTH - 3 ∨ y ≤ 0 ∨ y ≥ cfg.WELL_HEIGHT then true else false

/-- C `collide2`; the arguments are already converted to `s8`.  The two column
tests compare against `u32` expressions, so `x` and `x + 1` are converted to
`u32` first. -/
def collide2 (cfg : Config) (x y : Int) (g : Game) : Bool × Game :=
  if u32 x < (g.position.get 1 + 1) % U32 ∨ u32 (x + 1) > (g.position.get 1 + 9) % U32
      ∨ y ≤ 0 ∨ y ≥ cfg.WELL_HEIGHT then
    (true, { g with aliado := { g.aliado with existe := false }, vidas := sub32 g.vidas 1 })
  else (false, g)

/-! ## Collision resolution -/

/-- First loop nest of C `check_collisions` ("bullets against enemies"):
`Flow.ret` when the `return` inside it was executed. -/
def check_collisions_balas (g : Game) : Flow Game :=
  forReturn (fun lyd g =>
    if (g.bala.get lyd).existe then
      forReturn (fun xd g =>
        if (g.bala.get lyd).y = (g.enemigo.get xd).y
            ∨ (g.bala.get lyd).y = (g.enemigo.get xd).y + 1 then
          if (g.bala.get lyd).x = (g.enemigo.get xd).x
              ∨ (g.bala.get lyd).x = (g.enemigo.get xd).x + 1
              ∨ (g.bala.get lyd).x = (g.enemigo.get xd).x + 2 then
            Flow.ret { g with
              bala := g.bala.set lyd { g.bala.get lyd with existe := false }
              enemigo := g.enemigo.set xd { g.enemigo.get xd with existe := false }
              score := (g.score + 1) % U32 }
          else Flow.next g
        else Flow.next g) slots4 g
    else Flow.next g) slots4 g

/-- Second loop nest of C `check_collisions` ("player against enemies"). -/
def check_collisions_aliado (g : Game) : Flow Game :=
  forReturn (fun xd g =>
    forReturn (fun (w : Int) g =>
      if g.aliado.y + w = (g.enemigo.get xd).y
          ∨ g.aliado.y + w = (g.enemigo.get xd).y + 1 then
        forReturn (fun (z : Int) g =>
          if g.aliado.x + z = (g.enemigo.get xd).x
              ∨ g.aliado.x + z = (g.enemigo.get xd).x + 1
              ∨ g.aliado.x + z = (g.enemigo.get xd).x + 2 then
            Flow.ret { g with
              aliado := { g.aliado with existe := false }
              enemigo := g.enemigo.set xd { g.enemigo.get xd with existe := false }
              vidas := sub32 g.vidas 1 }
          else Flow.next g) [0, 1, 2] g
      else Flow.next g) [0, 1] g) slots4 g

/-- C `check_collisions`. -/
def check_collisions (g : Game) : Game :=
  match check_collisions_balas g with
  | Flow.ret r => r
  | Flow.next g1 => (check_collisions_aliado g1).state

/-- C `check_collisions_rocas`; each `break` ends the function. -/
def check_collisions_rocas (g : Game) : Game :=
  (forReturn (fun xd g =>
    if g.aliado.y = (g.rocas.get xd).y
        ∧ (g.aliado.x = (g.rocas.get xd).x ∨ g.aliado.x + 1 = (g.rocas.get xd).x
            ∨ g.aliado.x + 2 = (g.rocas.get xd).x) then
      Flow.ret { g with aliado := { g.aliado with existe := false }, vidas := sub32 g.vidas 1 }
    else if g.aliado.y - 1 = (g.rocas.get xd).y ∧ g.aliado.x + 1 = (g.rocas.get xd).x then
      Flow.ret { g with aliado := { g.aliado with existe := false }, vidas := sub32 g.vidas 1 }
    else Flow.next g) slots3 g).state

/-- C `check_game_over`. -/
def check_game_over (g : Game) : Game :=
  if g.vidas = 0 then { g with game_over := true } else g

/-- C `check_level_change`. -/
def check_level_change (g : Game) : Game :=
  if g.score ≥ 20 then { g with level2 := true, level := 2 } else g

/-! ## Initialisation and spawning -/

/-- C `inicializar`. -/
def inicializar (cfg : Config) (g : Game) : Game :=
  let g1 : Game := { g with
    aliado := { i := 4, y := s8 (cfg.WELL_HEIGHT - 2), x := s8 (Int.tdiv cfg.WELL_WIDTH 2),
                existe := false } }
  let g2 := forEach (fun (lyd : Fin 4) (g : Game) =>
    { g with enemigo := (g.enemigo.set lyd
        { i := lyd.val, x := s8 ((lyd.val : Int) * 5 + 1), y := 4, existe := false }) }) slots4 g1
  forEach (fun (lyd : Fin 4) (g : Game) =>
    { g with bala := (g.bala.set lyd
        { x := 10, y := s8 (cfg.WELL_HEIGHT - 3), existe := false }) }) slots4 g2

/-- C `inicializar2`.  The second track loop carries the local `temp`. -/
def inicializar2 (cfg : Config) (g : Game) : Game :=
  let g1 : Game := { g with
    aliado := { i := 4, y := s8 (cfg.WELL_HEIGHT - 2),
                x := s8 (((g.position.get 1 + 4) % U32 : Nat) : Int), existe := false } }
  let g2 := forEach (fun (hola : Fin 20) (g : Game) =>
    { g with position := g.position.set hola hola.val }) (slotsFrom 20 0 11) g1
  let g3 := (forEach (fun (hola : Fin 20) (s : Game × Nat) =>
    ({ s.1 with position := s.1.position.set hola s.2 }, sub32 s.2 1))
    (slotsFrom 20 11 20) (g2, 9)).1
  let g4 : Game := { g3 with rocas := (g3.rocas.set 0
    { x := s8 (((g3.position.get 17 + 2) % U32 : Nat) : Int), y := 2, existe := true }) }
  let g5 : Game := { g4 with rocas := (g4.rocas.set 1
    { x := s8 (((g4.position.get 14 + 7) % U32 : Nat) : Int), y := 5, existe := true }) }
  { g5 with rocas := (g5.rocas.set 2
    { x := s8 (((g5.position.get 4 + 9) % U32 : Nat) : Int), y := 15, existe := true }) }

/-- C `spawn`. -/
def spawn (cfg : Config) (g : Game) : Game :=
  let g1 : Game :=
    if g.aliado.existe = false then
      { g with aliado := { g.aliado with
          y := s8 (cfg.WELL_HEIGHT - 2), x := s8 (Int.tdiv cfg.WELL_WIDTH 2 - 1), existe := true } }
    else g
  (forReturn (fun (lyd : Fin 4) (g : Game) =>
    if (g.enemigo.get lyd).existe = false then
      Flow.ret { g with enemigo := (g.enemigo.set lyd
        { g.enemigo.get lyd with x := s8 ((lyd.val : Int) * 5 + 1), y := 4, existe := true }) }
    else Flow.next g) slots4 g1).state

/-- C `spawn2`. -/
def spawn2 (cfg : Config) (g : Game) : Game :=
  let g1 : Game :=
    if g.aliado.existe = false then
      { g with aliado := { g.aliado with
          y := s8 (cfg.WELL_HEIGHT - 2), x := s8 (((g.position.get 1 + 4) % U32 : Nat) : Int),
          existe := true } }
    else g
  forEach (fun (lyd : Fin 3) (g : Game) =>
    if (g.rocas.get lyd).existe = false then
      { g with rocas := g.rocas.set lyd { g.rocas.get lyd with y := 0, existe := true } }
    else g) slots3 g1

/-! ## Movement -/

/-- C `move_bichito`; `dx`, `dy` are `s8` values. -/
def move_bichito (cfg : Config) (dx dy : Int) (g : Game) : Bool × Game :=
  if !g.aliado.existe then (false, g)
  else if collide cfg (s8 (g.aliado.x + dx)) (s8 (g.aliado.y + dy)) then (false, g)
  else (true, { g with aliado := { g.aliado with
          x := s8 (g.aliado.x + dx), y := s8 (g.aliado.y + dy) } })

/-- C `move_bichito2`; `dx`, `dy` are `s8` values. -/
def move_bichito2 (cfg : Config) (dx dy : Int) (g : Game) : Bool × Game :=
  if !g.aliado.existe then (false, g)
  else
    let r := collide2 cfg (s8 (g.aliado.x + dx)) (s8 (g.aliado.y + dy)) g
    if r.1 then (false, r.2)
    else (true, { r.2 with aliado := { r.2.aliado with
            x := s8 (r.2.aliado.x + dx), y := s8 (r.2.aliado.y + dy) } })

/-- C `move_enemigo`; `dx`, `dy` are `s8` values, `lol` the slot. -/
def move_enemigo (cfg : Config) (dx dy : Int) (lol : Fin 4) (g : Game) : Bool × Game :=
  if !(g.enemigo.get lol).existe then (false, g)
  else if collide cfg (s8 ((g.enemigo.get lol).x + dx)) (s8 ((g.enemigo.get lol).y + dy)) then
    (false, g)
  else (true, { g with enemigo := g.enemigo.set lol { g.enemigo.get lol with
          x := s8 ((g.enemigo.get lol).x + dx), y := s8 ((g.enemigo.get lol).y + dy) } })

/-- C `move_bala`; `dx`, `dy` are `s8` values, `lol` the slot. -/
def move_bala (cfg : Config) (dx dy : Int) (lol : Fin 4) (g : Game) : Bool × Game :=
  if (g.bala.get lol).existe = false then (false, g)
  else if collide cfg (s8 ((g.bala.get lol).x + dx)) (s8 ((g.bala.get lol).y + dy)) then
    (false, g)
  else (true, { g with bala := g.bala.set lol { g.bala.get lol with
          x := s8 ((g.bala.get lol).x + dx), y := s8 ((g.bala.get lol).y + dy) } })

/-- C `move_rocas`; `dx`, `dy` are `s8` values, `lol` the slot. -/
def move_rocas (cfg : Config) (dx dy : Int) (lol : Fin 3) (g : Game) : Bool × Game :=
  if (g.rocas.get lol).existe = false then (false, g)
  else if collide cfg (s8 ((g.rocas.get lol).x + dx)) (s8 ((g.rocas.get lol).y + dy)) then
    (false, g)
  else (true, { g with rocas := g.rocas.set lol { g.rocas.get lol with
          x := s8 ((g.rocas.get lol).x + dx), y := s8 ((g.rocas.get lol).y + dy) } })

/-- C `update`. -/
def update (cfg : Config) (g : Game) : Game :=
  spawn cfg (forEach (fun (lyd : Fin 4) (g : Game) =>
    let e := move_enemigo cfg 0 1 lyd g
    let g1 : Game :=
      if !e.1 then
        { e.2 with enemigo := e.2.enemigo.set lyd { e.2.enemigo.get lyd with existe := false } }
      else e.2
    let b := move_bala cfg 0 (-1) lyd g1
    if !b.1 then
      { b.2 with bala := b.2.bala.set lyd { b.2.bala.get lyd with existe := false } }
    else b.2) slots4 g)

/-- C `update2`.  The two copy loops through `temp_position` are
`position[lyd] = old[lyd+1]` for `lyd < 19` and `position[19] = old[0]`. -/
def update2 (cfg : Config) (g : Game) : Game :=
  let g1 := forEach (fun (lyd : Fin 4) (g : Game) =>
    let e := move_enemigo cfg 0 1 lyd g
    if !e.1 then
      { e.2 with enemigo := e.2.enemigo.set lyd { e.2.enemigo.get lyd with existe := false } }
    else e.2) slots4 g
  let g2 := forEach (fun (lyd : Fin 3) (g : Game) =>
    let r := move_rocas cfg 0 1 lyd g
    if !r.1 then
      { r.2 with
        score := (r.2.score + 1) % U32
        rocas := r.2.rocas.set lyd { r.2.rocas.get lyd with existe := false } }
    else r.2) slots3 g1
  let temp_position := forEach (fun (lyd : Fin 20) (t : Mathlib.Vector Nat 20) =>
    t.set lyd (g2.position.get lyd)) (slotsFrom 20 0 20) (Mathlib.Vector.replicate 20 0)
  let g3 := forEach (fun (lyd : Fin 20) (g : Game) =>
    { g with position := g.position.set lyd (temp_position.get (lyd + 1)) })
    (slotsFrom 20 0 19) g2
  let g4 : Game := { g3 with position := g3.position.set 19 (temp_position.get 0) }
  spawn2 cfg g4

/-- C `disparar`. -/
def disparar (g : Game) : Game :=
  (forReturn (fun (lyd : Fin 4) (g : Game) =>
    if (g.bala.get lyd).existe = false then
      Flow.ret { g with bala := (g.bala.set lyd
        { existe := true, x := s8 (g.aliado.x + 1), y := s8 (g.aliado.y - 1) }) }
    else Flow.next g) slots4 g).state

/-! ## The game master loop (`kernel_main`) -/

/-- Control points of `kernel_main`: its five labels, the two kinds of inner
waiting loop of the title block (`title_wait` is the `while (1)` key wait,
`calib1 itpms` and `calib2 itpms` the two `while (tpms == itpms)` loops with
the local `itpms`), and `reset` for the call of `reset()`, which never
returns. -/
inductive Label where
  | loop0
  | title_wait
  | calib1 (itpms : Nat)
  | calib2 (itpms : Nat)
  | loop
  | loop2
  | loop3
  | loop4
  | reset
deriving DecidableEq, Repr

/-- Hardware values read during one pass: `sec` by `rtcs()` and `tsc` by
`rdtsc()` inside `tps`, `port` by `inb(0x60)` inside `scan`, `tsc2` by
`rdtsc()` inside `interval`. -/
structure Inputs where
  sec : Nat
  tsc : Nat
  port : Nat
  tsc2 : Nat
deriving DecidableEq, Repr

/-- The wall-flicker phase update `if (pos < 4) pos++; if (pos == 4) pos = 0;`. -/
def advance_pos (g : Game) : Game :=
  let g1 : Game := if g.pos < 4 then { g with pos := g.pos + 1 } else g
  if g1.pos = 4 then { g1 with pos := 0 } else g1

/-- Level 1, `if ((key = scan())) { switch (key) ... }`: `none` when `reset()`
is called, otherwise the value of `updated` and the state. -/
def loop_input (cfg : Config) (key : Nat) (g : Game) : Option (Bool × Game) :=
  if key ≠ 0 then
    if key = KEY_R then none
    else if key = KEY_LEFT then some (true, (move_bichito cfg (-1) 0 g).2)
    else if key = KEY_RIGHT then some (true, (move_bichito cfg 1 0 g).2)
    else if key = KEY_SPACE then some (true, disparar g)
    else if key = KEY_P then
      if g.game_over then some (true, g)
      else some (true, { g with paused := !g.paused })
    else some (true, g)
  else some (false, g)

/-- Level 1, `if (!paused && !game_over && interval(TIMER_UPDATE, speed)) ...`. -/
def loop_cadence (cfg : Config) (tf : Nat) (updated : Bool) (g : Game) : Bool × Game :=
  if !g.paused && !g.game_over then
    let r := interval TIMER_UPDATE g.speed tf g
    if r.1 then (true, advance_pos (update cfg r.2)) else (updated, r.2)
  else (updated, g)

/-- Level 1, `if (updated) { ... }` followed by `goto loop`. -/
def loop_checks (updated : Bool) (g : Game) : Label × Game :=
  if updated then
    let g1 := check_game_over (check_level_change (check_collisions g))
    if g1.game_over then (Label.loop2, g1)
    else if g1.level2 = true then (Label.loop4, g1)
    else (Label.loop, g1)
  else (Label.loop, g)

/-- One pass through the block at label `loop` (level 1). -/
def loop_iter (cfg : Config) (inp : Inputs) (g : Game) : Label × Game :=
  let g1 := tps inp.sec inp.tsc g
  let k := scan inp.port g1
  match loop_input cfg k.1 k.2 with
  | none => (Label.reset, k.2)
  | some u =>
    let c := loop_cadence cfg inp.tsc2 u.1 u.2
    loop_checks c.1 c.2

/-- One pass through the block at label `loop2` (game over). -/
def loop2_iter (inp : Inputs) (g : Game) : Label × Game :=
  let k := scan inp.port g
  if k.1 ≠ 0 then
    if k.1 = KEY_P then
      (Label.loop0, { k.2 with
        vidas := 3, score := 0, level := 1, game_over := false, level2 := false })
    else (Label.loop2, k.2)
  else (Label.loop2, k.2)

/-- Level 2, `if ((key = scan())) { switch (key) ... }`: `none` when `reset()`
is called, otherwise the value of `updated` and the state. -/
def loop3_input (cfg : Config) (key : Nat) (g : Game) : Option (Bool × Game) :=
  if key ≠ 0 then
    if key = KEY_R then none
    else if key = KEY_LEFT then some (true, (move_bichito2 cfg (-1) 0 g).2)
    else if key = KEY_RIGHT then some (true, (move_bichito2 cfg 1 0 g).2)
    else if key = KEY_P then
      if g.game_over then some (true, g)
      else some (true, { g with paused := !g.paused })
    else some (true, g)
  else some (false, g)

/-- Level 2, `if (!paused && !game_over && interval(TIMER_UPDATE, speed)) ...`. -/
def loop3_cadence (cfg : Config) (tf : Nat) (updated : Bool) (g : Game) : Bool × Game :=
  if !g.paused && !g.game_over then
    let r := interval TIMER_UPDATE g.speed tf g
    if r.1 then (true, advance_pos (update2 cfg r.2)) else (updated, r.2)
  else (updated, g)

/-- Level 2, the collision pass at the head of `if (updated) { ... }`:
`collide2(aliado.x, aliado.y); check_collisions_rocas(); check_game_over();`. -/
def loop3_collisions (cfg : Config) (g : Game) : Game :=
  check_game_over (check_collisions_rocas (collide2 cfg g.aliado.x g.aliado.y g).2)

/-- Level 2, `if (updated) { ... }` followed by `goto loop3`. -/
def loop3_checks (cfg : Config) (updated : Bool) (g : Game) : Label × Game :=
  if updated then
    let g1 := loop3_collisions cfg g
    if g1.game_over then (Label.loop2, g1)
    else if g1.score ≥ 35 then
      (Label.loop0, { g1 with score := 0, level2 := false, level := 1, vidas := 3 })
    else (Label.loop3, g1)
  else (Label.loop3, g)

/-- One pass through the block at label `loop3` (level 2). -/
def loop3_iter (cfg : Config) (inp : Inputs) (g : Game) : Label × Game :=
  let k := scan inp.port g
  match loop3_input cfg k.1 k.2 with
  | none => (Label.reset, k.2)
  | some u =>
    let c := loop3_cadence cfg inp.tsc2 u.1 u.2
    loop3_checks cfg c.1 c.2

/-- One pass through the block at label `loop4` (level announcement). -/
def loop4_iter (cfg : Config) (inp : Inputs) (g : Game) : Label × Game :=
  let k := scan inp.port g
  if k.1 ≠ 0 then
    if k.1 = KEY_P then (Label.loop3, inicializar2 cfg k.2)
    else (Label.loop4, k.2)
  else (Label.loop4, k.2)

/-- The statements at label `loop0` up to the key wait: `inicializar()`. -/
def loop0_enter (cfg : Config) (g : Game) : Game :=
  inicializar cfg g

/-- One step of `kernel_main` from a control point to the next one. -/
def step (cfg : Config) (inp : Inputs) (l : Label) (g : Game) : Label × Game :=
  match l with
  | Label.loop0 => (Label.title_wait, loop0_enter cfg g)
  | Label.title_wait =>
    let k := scan inp.port g
    if k.1 ≠ 0 ∧ k.1 = KEY_P then
      let g1 := tps inp.sec inp.tsc k.2
      (Label.calib1 (g1.tpms % U32), g1)
    else (Label.title_wait, k.2)
  | Label.calib1 itpms =>
    if g.tpms = itpms then (Label.calib1 itpms, tps inp.sec inp.tsc g)
    else (Label.calib2 (g.tpms % U32), g)
  | Label.calib2 itpms =>
    if g.tpms = itpms then (Label.calib2 itpms, tps inp.sec inp.tsc g)
    else (Label.loop, spawn cfg g)
  | Label.loop => loop_iter cfg inp g
  | Label.loop2 => loop2_iter inp g
  | Label.loop3 => loop3_iter cfg inp g
  | Label.loop4 => loop4_iter cfg inp g
  | Label.reset => (Label.reset, g)

/-! ## Sampled runs of the calibrator -/

/-- Number of calls, in a run of `tps` over the samples `(sec, tf)`, on which
`tps` took its recomputation branch. -/
def tps_recomputations (g : Game) : List (Nat × Nat) → Nat
  | [] => 0
  | s :: rest =>
    (if s.1 ≠ g.last_sec then 1 else 0) + tps_recomputations (tps s.1 s.2 g) rest

/-- Number of samples of the second field that differ from the sample before
them, `prev` being the one before the first. -/
def second_changes (prev : Nat) : List Nat → Nat
  | [] => 0
  | s :: rest => (if s ≠ prev then 1 else 0) + second_changes s rest

/-! ## Example states -/

/-- A build configuration: well 20 wide and 22 high, cadence 1000 ms. -/
def cfg0 : Config := { WELL_WIDTH := 20, WELL_HEIGHT := 22, INITIAL_SPEED := 1000 }

/-- The state at power-on: the initialisers of the globals and statics, zero
for everything without one. -/
def boot : Game :=
  { tpms := 0, ti := 0, last_sec := 0xFF, timers := ⟨[0, 0], rfl⟩, key := 0
    aliado := { i := 0, x := 0, y := 0, existe := false }
    enemigo := Mathlib.Vector.replicate 4 { i := 0, x := 0, y := 0, existe := false }
    bala := Mathlib.Vector.replicate 4 { x := 0, y := 0, existe := false }
    rocas := Mathlib.Vector.replicate 3 { x := 0, y := 0, existe := false }
    position := Mathlib.Vector.replicate 20 0
    score := 0, level := 1, vidas := 3, speed := 1000
    paused := false, game_over := false, level2 := false, pos := 0 }

/-- A level-1 state in play: calibrated at 1000000 ticks per millisecond, the
player and two enemies active. -/
def playing1 : Game :=
  { spawn cfg0 (spawn cfg0 (inicializar cfg0 boot)) with
    tpms := 1000000, ti := 3000000000, last_sec := 0x30
    timers := ⟨[5000000000, 0], rfl⟩, key := KEY_P }

/-- The level-1 state `playing1` with the player moved to column 17, the
rightmost column the well of `cfg0` allows (`WELL_WIDTH - 3`). -/
def at_right_wall : Game :=
  { playing1 with aliado := { playing1.aliado with x := 17 } }

/-- Run `kernel_main` through the listed passes, one `step` each. -/
def run (cfg : Config) : List Inputs → Label × Game → Label × Game
  | [], s => s
  | inp :: rest, s => run cfg rest (step cfg inp s.1 s.2)

/-- Hardware readings of a session from power-on, first part: the title block
with the confirm key and two calibrations at 1 GHz. -/
def wrap_run_title : List Inputs :=
  [{ sec := 0xFF, tsc := 0, port := 0x00, tsc2 := 0 },
   { sec := 0x10, tsc := 5000000000, port := 0x19, tsc2 := 0 },
   { sec := 0x11, tsc := 5600000000, port := 0x19, tsc2 := 0 },
   { sec := 0x11, tsc := 5600000100, port := 0x19, tsc2 := 0 },
   { sec := 0x12, tsc := 6600000000, port := 0x19, tsc2 := 0 },
   { sec := 0x12, tsc := 6600000100, port := 0x19, tsc2 := 0 }]

/-- Second part: level 1.  The first update, LEFT twice (player to column 7),
and fourteen more updates, one per second, which bring enemy 1 down to row 18
above the player. -/
def wrap_run_level1 : List Inputs :=
  [{ sec := 0x12, tsc := 6600000000, port := 0x19, tsc2 := 6600000200 },
   { sec := 0x12, tsc := 6600000000, port := 0x4B, tsc2 := 6610000200 },
   { sec := 0x12, tsc := 6600000000, port := 0xCB, tsc2 := 6620000200 },
   { sec := 0x12, tsc := 6600000000, port := 0x4B, tsc2 := 6630000200 },
   { sec := 0x13, tsc := 7600000000, port := 0x4B, tsc2 := 7600000200 },
   { sec := 0x14, tsc := 8600000000, port := 0x4B, tsc2 := 8600000200 },
   { sec := 0x15, tsc := 9600000000, port := 0x4B, tsc2 := 9600000200 },
   { sec := 0x16, tsc := 10600000000, port := 0x4B, tsc2 := 10600000200 },
   { sec := 0x17, tsc := 11600000000, port := 0x4B, tsc2 := 11600000200 },
   { sec := 0x18, tsc := 12600000000, port := 0x4B, tsc2 := 12600000200 },
   { sec := 0x19, tsc := 13600000000, port := 0x4B, tsc2 := 13600000200 },
   { sec := 0x20, tsc := 14600000000, port := 0x4B, tsc2 := 14600000200 },
   { sec := 0x21, tsc := 15600000000, port := 0x4B, tsc2 := 15600000200 },
   { sec := 0x22, tsc := 16600000000, port := 0x4B, tsc2 := 16600000200 },
   { sec := 0x23, tsc := 17600000000, port := 0x4B, tsc2 := 17600000200 },
   { sec := 0x24, tsc := 18600000000, port := 0x4B, tsc2 := 18600000200 },
   { sec := 0x25, tsc := 19600000000, port := 0x4B, tsc2 := 19600000200 },
   { sec := 0x26, tsc := 20600000000, port := 0x4B, tsc2 := 20600000200 }]

/-- Third part: SPACE ten times, release codes in between, all within one
cadence.  Each projectile appears at (8, 19), inside the footprint of enemy
slot 1, and is resolved in the same pass. -/
def wrap_run_fire_a : List Inputs :=
  [{ sec := 0x26, tsc := 20600000000, port := 0x39, tsc2 := 20610000200 },
   { sec := 0x26, tsc := 20600000000, port := 0xB9, tsc2 := 20620000200 },
   { sec := 0x26, tsc := 20600000000, port := 0x39, tsc2 := 20630000200 },
   { sec := 0x26, tsc := 20600000000, port := 0xB9, tsc2 := 20640000200 },
   { sec := 0x26, tsc := 20600000000, port := 0x39, tsc2 := 20650000200 },
   { sec := 0x26, tsc := 20600000000, port := 0xB9, tsc2 := 20660000200 },
   { sec := 0x26, tsc := 20600000000, port := 0x39, tsc2 := 20670000200 },
   { sec := 0x26, tsc := 20600000000, port := 0xB9, tsc2 := 20680000200 },
   { sec := 0x26, tsc := 20600000000, port := 0x39, tsc2 := 20690000200 },
   { sec := 0x26, tsc := 20600000000, port := 0xB9, tsc2 := 20700000200 },
   { sec := 0x26, tsc := 20600000000, port := 0x39, tsc2 := 20710000200 },
   { sec := 0x26, tsc := 20600000000, port := 0xB9, tsc2 := 20720000200 },
   { sec := 0x26, tsc := 20600000000, port := 0x39, tsc2 := 20730000200 },
   { sec := 0x26, tsc := 20600000000, port := 0xB9, tsc2 := 20740000200 },
   { sec := 0x26, tsc := 20600000000, port := 0x39, tsc2 := 20750000200 },
   { sec := 0x26, tsc := 20600000000, port := 0xB9, tsc2 := 20760000200 },
   { sec := 0x26, tsc := 20600000000, port := 0x39, tsc2 := 20770000200 },
   { sec := 0x26, tsc := 20600000000, port := 0xB9, tsc2 := 20780000200 },
   { sec := 0x26, tsc := 20600000000, port := 0x39, tsc2 := 20790000200 },
   { sec := 0x26, tsc := 20600000000, port := 0xB9, tsc2 := 20800000200 }]

/-- Fourth part: SPACE ten more times, the last of which brings the score to
20 and ends level 1. -/
def wrap_run_fire_b : List Inputs :=
  [{ sec := 0x26, tsc := 20600000000, port := 0x39, tsc2 := 20810000200 },
   { sec := 0x26, tsc := 20600000000, port := 0xB9, tsc2 := 20820000200 },
   { sec := 0x26, tsc := 20600000000, port := 0x39, tsc2 := 20830000200 },
   { sec := 0x26, tsc := 20600000000, port := 0xB9, tsc2 := 20840000200 },
   { sec := 0x26, tsc := 20600000000, port := 0x39, tsc2 := 20850000200 },
   { sec := 0x26, tsc := 20600000000, port := 0xB9, tsc2 := 20860000200 },
   { sec := 0x26, tsc := 20600000000, port := 0x39, tsc2 := 20870000200 },
   { sec := 0x26, tsc := 20600000000, port := 0xB9, tsc2 := 20880000200 },
   { sec := 0x26, tsc := 20600000000, port := 0x39, tsc2 := 20890000200 },
   { sec := 0x26, tsc := 20600000000, port := 0xB9, tsc2 := 20900000200 },
   { sec := 0x26, tsc := 20600000000, port := 0x39, tsc2 := 20910000200 },
   { sec := 0x26, tsc := 20600000000, port := 0xB9, tsc2 := 20920000200 },
   { sec := 0x26, tsc := 20600000000, port := 0x39, tsc2 := 20930000200 },
   { sec := 0x26, tsc := 20600000000, port := 0xB9, tsc2 := 20940000200 },
   { sec := 0x26, tsc := 20600000000, port := 0x39, tsc2 := 20950000200 },
   { sec := 0x26, tsc := 20600000000, port := 0xB9, tsc2 := 20960000200 },
   { sec := 0x26, tsc := 20600000000, port := 0x39, tsc2 := 20970000200 },
   { sec := 0x26, tsc := 20600000000, port := 0xB9, tsc2 := 20980000200 },
   { sec := 0x26, tsc := 20600000000, port := 0x39, tsc2 := 20990000200 }]

/-- Fifth part: the confirm key at the level announcement, then level 2.  The
first update, RIGHT four times (player to column 10), five updates, RIGHT
three times (player to column 13), and nine updates; the last one moves the
lane off the player and obstacle 1 onto it. -/
def wrap_run_level2 : List Inputs :=
  [{ sec := 0x26, tsc := 20600000000, port := 0x19, tsc2 := 21000000200 },
   { sec := 0x27, tsc := 21600000000, port := 0x19, tsc2 := 21600000200 },
   { sec := 0x27, tsc := 21600000000, port := 0x4D, tsc2 := 21610000200 },
   { sec := 0x27, tsc := 21600000000, port := 0xCD, tsc2 := 21620000200 },
   { sec := 0x27, tsc := 21600000000, port := 0x4D, tsc2 := 21630000200 },
   { sec := 0x27, tsc := 21600000000, port := 0xCD, tsc2 := 21640000200 },
   { sec := 0x27, tsc := 21600000000, port := 0x4D, tsc2 := 21650000200 },
   { sec := 0x27, tsc := 21600000000, port := 0xCD, tsc2 := 21660000200 },
   { sec := 0x27, tsc := 21600000000, port := 0x4D, tsc2 := 21670000200 },
   { sec := 0x28, tsc := 22600000000, port := 0x4D, tsc2 := 22600000200 },
   { sec := 0x29, tsc := 23600000000, port := 0x4D, tsc2 := 23600000200 },
   { sec := 0x30, tsc := 24600000000, port := 0x4D, tsc2 := 24600000200 },
   { sec := 0x31, tsc := 25600000000, port := 0x4D, tsc2 := 25600000200 },
   { sec := 0x32, tsc := 26600000000, port := 0x4D, tsc2 := 26600000200 },
   { sec := 0x32, tsc := 26600000000, port := 0xCD, tsc2 := 26610000200 },
   { sec := 0x32, tsc := 26600000000, port := 0x4D, tsc2 := 26620000200 },
   { sec := 0x32, tsc := 26600000000, port := 0xCD, tsc2 := 26630000200 },
   { sec := 0x32, tsc := 26600000000, port := 0x4D, tsc2 := 26640000200 },
   { sec := 0x32, tsc := 26600000000, port := 0xCD, tsc2 := 26650000200 },
   { sec := 0x32, tsc := 26600000000, port := 0x4D, tsc2 := 26660000200 },
   { sec := 0x33, tsc := 27600000000, port := 0x4D, tsc2 := 27600000200 },
   { sec := 0x34, tsc := 28600000000, port := 0x4D, tsc2 := 28600000200 },
   { sec := 0x35, tsc := 29600000000, port := 0x4D, tsc2 := 29600000200 },
   { sec := 0x36, tsc := 30600000000, port := 0x4D, tsc2 := 30600000200 },
   { sec := 0x37, tsc := 31600000000, port := 0x4D, tsc2 := 31600000200 },
   { sec := 0x38, tsc := 32600000000, port := 0x4D, tsc2 := 32600000200 },
   { sec := 0x39, tsc := 33600000000, port := 0x4D, tsc2 := 33600000200 },
   { sec := 0x40, tsc := 34600000000, port := 0x4D, tsc2 := 34600000200 },
   { sec := 0x41, tsc := 35600000000, port := 0x4D, tsc2 := 35600000200 }]

/-- The whole session: 92 passes from power-on. -/
def wrap_run : List Inputs :=
  wrap_run_title ++ wrap_run_level1 ++ wrap_run_fire_a ++ wrap_run_fire_b ++ wrap_run_level2

/-- The release code of RIGHT, 10 ms after the last update of `wrap_run`. -/
def release_right : Inputs :=
  { sec := 0x26, tsc := 20600000000, port := 0xCD, tsc2 := 35610000200 }

/-- The level-2 state at the end of `wrap_run`, 15 updates into the level: the
track has rotated so that `position[1]` is 4 (lane columns 5..12), obstacle 1
has come down to (13, 20), and the player, at (13, 20), has just been hit twice
in one pass (lane wall and obstacle 1), which left one life and the player
inactive. -/
def playing2 : Game :=
  { tpms := 1000000, ti := 20600000000, last_sec := 0x26
    timers := ⟨[35600000200, 0], rfl⟩, key := KEY_RIGHT
    aliado := { i := 4, x := 13, y := 20, existe := false }
    enemigo := ⟨[{ i := 0, x := 1, y := 21, existe := false },
                 { i := 1, x := 6, y := 18, existe := false },
                 { i := 2, x := 11, y := 21, existe := false },
                 { i := 3, x := 16, y := 21, existe := false }], rfl⟩
    bala := ⟨[{ x := 8, y := 19, existe := false },
              { x := 10, y := 19, existe := false },
              { x := 10, y := 19, existe := false },
              { x := 10, y := 19, existe := false }], rfl⟩
    rocas := ⟨[{ x := 5, y := 17, existe := true },
               { x := 13, y := 20, existe := true },
               { x := 13, y := 8, existe := true }], rfl⟩
    position := ⟨[5, 4, 3, 2, 1, 0, 1, 2, 3, 4, 5, 6, 7, 8, 9, 10, 9, 8, 7, 6], rfl⟩
    score := 21, level := 2, vidas := 1, speed := 1000
    paused := false, game_over := false, level2 := true, pos := 2 }

/-- A key press of P (the confirm key). -/
def press_p : Inputs :=
  { sec := 0x26, tsc := 20600000000, port := KEY_P, tsc2 := 35620000200 }

/-- A game-over state of level 2: `playing2` with no lives left and the
game-over flag set. -/
def over2 : Game := { playing2 with vidas := 0, game_over := true }

/-- The footprint test of the first loop nest of `check_collisions`: the
projectile `b` is on the row of `e` or the row below and on one of its three
columns. -/
def bala_hits (b : Bala) (e : Nave) : Prop :=
  (b.y = e.y ∨ b.y = e.y + 1) ∧ (b.x = e.x ∨ b.x = e.x + 1 ∨ b.x = e.x + 2)

instance (b : Bala) (e : Nave) : Decidable (bala_hits b e) := by
  unfold bala_hits
  infer_instance

/-- Hardware readings of a session from power-on: the title block with the
confirm key and two calibrations at 1 GHz (six steps), two updates, the key
presses RIGHT, SPACE, RIGHT, SPACE, then LEFT four times (release codes in
between) and SPACE, which fire projectiles 0, 1 and 2 in columns 11, 12 and 8,
and seven more updates, one per second. -/
def stale_run : List Inputs :=
  [{ sec := 0xFF, tsc := 0, port := 0x00, tsc2 := 0 },
   { sec := 0x10, tsc := 5000000000, port := 0x19, tsc2 := 0 },
   { sec := 0x11, tsc := 5600000000, port := 0x19, tsc2 := 0 },
   { sec := 0x11, tsc := 5600000100, port := 0x19, tsc2 := 0 },
   { sec := 0x12, tsc := 6600000000, port := 0x19, tsc2 := 0 },
   { sec := 0x12, tsc := 6600000100, port := 0x19, tsc2 := 0 },
   { sec := 0x12, tsc := 6600000000, port := 0x19, tsc2 := 6600000200 },
   { sec := 0x13, tsc := 7600000000, port := 0x19, tsc2 := 7600000200 },
   { sec := 0x13, tsc := 7600000000, port := 0x4D, tsc2 := 7610000200 },
   { sec := 0x13, tsc := 7600000000, port := 0x39, tsc2 := 7620000200 },
   { sec := 0x13, tsc := 7600000000, port := 0x4D, tsc2 := 7630000200 },
   { sec := 0x13, tsc := 7600000000, port := 0x39, tsc2 := 7640000200 },
   { sec := 0x13, tsc := 7600000000, port := 0x4B, tsc2 := 7650000200 },
   { sec := 0x13, tsc := 7600000000, port := 0xCB, tsc2 := 7660000200 },
   { sec := 0x13, tsc := 7600000000, port := 0x4B, tsc2 := 7670000200 },
   { sec := 0x13, tsc := 7600000000, port := 0xCB, tsc2 := 7680000200 },
   { sec := 0x13, tsc := 7600000000, port := 0x4B, tsc2 := 7690000200 },
   { sec := 0x13, tsc := 7600000000, port := 0xCB, tsc2 := 7700000200 },
   { sec := 0x13, tsc := 7600000000, port := 0x4B, tsc2 := 7710000200 },
   { sec := 0x13, tsc := 7600000000, port := 0x39, tsc2 := 7720000200 },
   { sec := 0x14, tsc := 8600000000, port := 0x39, tsc2 := 8600000200 },
   { sec := 0x15, tsc := 9600000000, port := 0x39, tsc2 := 9600000200 },
   { sec := 0x16, tsc := 10600000000, port := 0x39, tsc2 := 10600000200 },
   { sec := 0x17, tsc := 11600000000, port := 0x39, tsc2 := 11600000200 },
   { sec := 0x18, tsc := 12600000000, port := 0x39, tsc2 := 12600000200 },
   { sec := 0x19, tsc := 13600000000, port := 0x39, tsc2 := 13600000200 },
   { sec := 0x20, tsc := 14600000000, port := 0x39, tsc2 := 14600000200 }]

/-- The release code of SPACE, 10 ms after the ninth update of `stale_run`. -/
def release_space : Inputs :=
  { sec := 0x20, tsc := 14600000000, port := 0xB9, tsc2 := 14610000200 }

/-- The level-1 state on which `check_collisions` is called in the pass
`release_space` after `stale_run`.  Projectiles 0 and 1 flew side by side into
enemy 2; the update pass before resolved projectile 0 against enemy 2, so slot
2 is inactive and still holds (11, 11).  Projectile 1 at (12, 12) is still in
that footprint, and projectile 2 at (8, 12) is in the footprint of the active
enemy 1 at (6, 12). -/
def stale_enemy : Game :=
  { tpms := 1000000, ti := 14600000000, last_sec := 0x20
    timers := ⟨[14600000200, 0], rfl⟩, key := 0xB9
    aliado := { i := 4, x := 7, y := 20, existe := true }
    enemigo := ⟨[{ i := 0, x := 1, y := 13, existe := true },
                 { i := 1, x := 6, y := 12, existe := true },
                 { i := 2, x := 11, y := 11, existe := false },
                 { i := 3, x := 16, y := 10, existe := true }], rfl⟩
    bala := ⟨[{ x := 11, y := 12, existe := false },
              { x := 12, y := 12, existe := true },
              { x := 8, y := 12, existe := true },
              { x := 10, y := 19, existe := false }], rfl⟩
    rocas := Mathlib.Vector.replicate 3 { x := 0, y := 0, existe := false }
    position := Mathlib.Vector.replicate 20 0
    score := 1, level := 1, vidas := 3, speed := 1000
    paused := false, game_over := false, level2 := false, pos := 1 }

/-- Number of projectile slots whose existence flag is set. -/
def active_balas (g : Game) : Nat :=
  (g.bala.toList.filter (fun b => b.existe)).length

/-- The level-1 state `playing1` with all four projectiles in flight. -/
def full_pool : Game :=
  { playing1 with
    bala := ⟨[{ x := 10, y := 12, existe := true }, { x := 10, y := 14, existe := true },
              { x := 10, y := 16, existe := true }, { x := 10, y := 18, existe := true }], rfl⟩ }

/-- The test of `check_collisions_rocas` for one obstacle, in the words of the
specification: the obstacle cell `r` lies on the player's row in columns
`a.x .. a.x + 2`, or one row above the player in column `a.x + 1`. -/
def roca_on_player (a : Nave) (r : Bala) : Prop :=
  (r.y = a.y ∧ a.x ≤ r.x ∧ r.x ≤ a.x + 2) ∨ (r.y = a.y - 1 ∧ r.x = a.x + 1)

instance (a : Nave) (r : Bala) : Decidable (roca_on_player a r) := by
  unfold roca_on_player
  infer_instance

/-- The footprint test of the player against one enemy, in the words of the
specification: the two footprints, 3 columns wide and 2 rows tall, overlap. -/
def footprints_overlap (a e : Nave) : Prop :=
  |a.x - e.x| ≤ 2 ∧ |a.y - e.y| ≤ 1

instance (a e : Nave) : Decidable (footprints_overlap a e) := by
  unfold footprints_overlap
  infer_instance

/-- The level-2 state right after the first update of the level, entered from
`playing1`: `position[1]` is 2 (lane columns 3..10), the player is active at
(6, 20). -/
def lane_start : Game := update2 cfg0 (inicializar2 cfg0 playing1)

/-- The state `lane_start` with obstacle 0 moved onto the player's cell. -/
def roca_hit : Game :=
  { lane_start with rocas := lane_start.rocas.set 0 { x := 7, y := 20, existe := true } }

/-- The level-1 state `playing1` with the player at (7, 20) and enemy 1 come
down to (6, 19), onto the player's footprint. -/
def enemy_on_player : Game :=
  { playing1 with
    aliado := { playing1.aliado with x := 7 }
    enemigo := playing1.enemigo.set 1 { i := 1, x := 6, y := 19, existe := true } }

/-- An obstacle takes its step in `update2`: it is active and the cell one row
down passes the bounds test `collide`. -/
def roca_moves (cfg : Config) (r : Bala) : Prop :=
  r.existe = true ∧ collide cfg r.x (r.y + 1) = false

instance (cfg : Config) (r : Bala) : Decidable (roca_moves cfg r) := by
  unfold roca_moves
  infer_instance

/-- Number of obstacles of the state whose step `update2` rejects. -/
def rocas_rejected (cfg : Config) (g : Game) : Nat :=
  (slots3.filter (fun i => decide (¬ roca_moves cfg (g.rocas.get i)))).length

/-- The level-2 state `lane_start` with obstacle 0 on the last row of the well
and obstacles 1 and 2 at rows 6 and 16. -/
def lane_bottom : Game :=
  { lane_start with rocas := lane_start.rocas.set 0 { x := 5, y := 21, existe := true } }

/-- A level-1 state one point short of the level change: `stale_enemy` with
score 19.  Projectile 1 lies in the footprint of enemy slot 2. -/
def almost_level2 : Game := { stale_enemy with key := KEY_SPACE, score := 19 }

/-- The flag state `kernel_main` keeps at each control point: `game_over` is
clear wherever play or the level announcement runs, and `level2` is clear as
well from `loop0` up to and including `loop`. -/
def entry_flags (l : Label) (g : Game) : Bool :=
  match l with
  | Label.loop2 => true
  | Label.reset => true
  | Label.loop3 => !g.game_over
  | Label.loop4 => !g.game_over
  | _ => !g.game_over && !g.level2

/-! ## A session that ends with no active enemy -/

/-- Part 1 of `no_enemy_run`: the title block with the confirm key and two calibrations at
1 GHz (six steps), then updates 1 to 11, one per second, with the player idle. -/
def no_enemy_run_1 : List Inputs :=
  [{ sec := 0xFF, tsc := 0, port := 0x00, tsc2 := 0 },
   { sec := 0x10, tsc := 5000000000, port := 0x19, tsc2 := 0 },
   { sec := 0x11, tsc := 5600000000, port := 0x19, tsc2 := 0 },
   { sec := 0x11, tsc := 5600000100, port := 0x19, tsc2 := 0 },
   { sec := 0x12, tsc := 6600000000, port := 0x19, tsc2 := 0 },
   { sec := 0x12, tsc := 6600000100, port := 0x19, tsc2 := 0 },
   { sec := 0x12, tsc := 6600000000, port := 0x19, tsc2 := 6600000200 },
   { sec := 0x13, tsc := 7600000000, port := 0x19, tsc2 := 7600000200 },
   { sec := 0x14, tsc := 8600000000, port := 0x19, tsc2 := 8600000200 },
   { sec := 0x15, tsc := 9600000000, port := 0x19, tsc2 := 9600000200 },
   { sec := 0x16, tsc := 10600000000, port := 0x19, tsc2 := 10600000200 },
   { sec := 0x17, tsc := 11600000000, port := 0x19, tsc2 := 11600000200 },
   { sec := 0x18, tsc := 12600000000, port := 0x19, tsc2 := 12600000200 },
   { sec := 0x19, tsc := 13600000000, port := 0x19, tsc2 := 13600000200 },
   { sec := 0x20, tsc := 14600000000, port := 0x19, tsc2 := 14600000200 },
   { sec := 0x21, tsc := 15600000000, port := 0x19, tsc2 := 15600000200 },
   { sec := 0x22, tsc := 16600000000, port := 0x19, tsc2 := 16600000200 }]

/-- Part 2 of `no_enemy_run`: RIGHT six times (release codes in between, player to
column 15), SPACE (projectile 0 in column 16), update 12. -/
def no_enemy_run_2 : List Inputs :=
  [{ sec := 0x22, tsc := 16600000000, port := 0x4D, tsc2 := 16610000200 },
   { sec := 0x22, tsc := 16600000000, port := 0xCD, tsc2 := 16620000200 },
   { sec := 0x22, tsc := 16600000000, port := 0x4D, tsc2 := 16630000200 },
   { sec := 0x22, tsc := 16600000000, port := 0xCD, tsc2 := 16640000200 },
   { sec := 0x22, tsc := 16600000000, port := 0x4D, tsc2 := 16650000200 },
   { sec := 0x22, tsc := 16600000000, port := 0xCD, tsc2 := 16660000200 },
   { sec := 0x22, tsc := 16600000000, port := 0x4D, tsc2 := 16670000200 },
   { sec := 0x22, tsc := 16600000000, port := 0xCD, tsc2 := 16680000200 },
   { sec := 0x22, tsc := 16600000000, port := 0x4D, tsc2 := 16690000200 },
   { sec := 0x22, tsc := 16600000000, port := 0xCD, tsc2 := 16700000200 },
   { sec := 0x22, tsc := 16600000000, port := 0x4D, tsc2 := 16710000200 },
   { sec := 0x22, tsc := 16600000000, port := 0x39, tsc2 := 16720000200 },
   { sec := 0x23, tsc := 17600000000, port := 0x39, tsc2 := 17600000200 }]

/-- Part 3 of `no_enemy_run`: LEFT three times (player to column 12), SPACE (projectile
1 in column 13), update 13. -/
def no_enemy_run_3 : List Inputs :=
  [{ sec := 0x23, tsc := 17600000000, port := 0x4B, tsc2 := 17610000200 },
   { sec := 0x23, tsc := 17600000000, port := 0xCB, tsc2 := 17620000200 },
   { sec := 0x23, tsc := 17600000000, port := 0x4B, tsc2 := 17630000200 },
   { sec := 0x23, tsc := 17600000000, port := 0xCB, tsc2 := 17640000200 },
   { sec := 0x23, tsc := 17600000000, port := 0x4B, tsc2 := 17650000200 },
   { sec := 0x23, tsc := 17600000000, port := 0x39, tsc2 := 17660000200 },
   { sec := 0x24, tsc := 18600000000, port := 0x39, tsc2 := 18600000200 }]

/-- Part 4 of `no_enemy_run`: LEFT five times (player to column 7), SPACE (projectile 2
in column 8), update 14, whose collision pass resolves projectile 0 against
enemy 3. -/
def no_enemy_run_4 : List Inputs :=
  [{ sec := 0x24, tsc := 18600000000, port := 0x4B, tsc2 := 18610000200 },
   { sec := 0x24, tsc := 18600000000, port := 0xCB, tsc2 := 18620000200 },
   { sec := 0x24, tsc := 18600000000, port := 0x4B, tsc2 := 18630000200 },
   { sec := 0x24, tsc := 18600000000, port := 0xCB, tsc2 := 18640000200 },
   { sec := 0x24, tsc := 18600000000, port := 0x4B, tsc2 := 18650000200 },
   { sec := 0x24, tsc := 18600000000, port := 0xCB, tsc2 := 18660000200 },
   { sec := 0x24, tsc := 18600000000, port := 0x4B, tsc2 := 18670000200 },
   { sec := 0x24, tsc := 18600000000, port := 0xCB, tsc2 := 18680000200 },
   { sec := 0x24, tsc := 18600000000, port := 0x4B, tsc2 := 18690000200 },
   { sec := 0x24, tsc := 18600000000, port := 0x39, tsc2 := 18700000200 },
   { sec := 0x25, tsc := 19600000000, port := 0x39, tsc2 := 19600000200 }]

/-- Part 5 of `no_enemy_run`: LEFT five times (player to column 2), whose collision
passes resolve projectile 1 against enemy 2 and projectile 2 against enemy 1,
then SPACE, which fires point-blank into enemy 0, and the release code of
SPACE. -/
def no_enemy_run_5 : List Inputs :=
  [{ sec := 0x25, tsc := 19600000000, port := 0x4B, tsc2 := 19610000200 },
   { sec := 0x25, tsc := 19600000000, port := 0xCB, tsc2 := 19620000200 },
   { sec := 0x25, tsc := 19600000000, port := 0x4B, tsc2 := 19630000200 },
   { sec := 0x25, tsc := 19600000000, port := 0xCB, tsc2 := 19640000200 },
   { sec := 0x25, tsc := 19600000000, port := 0x4B, tsc2 := 19650000200 },
   { sec := 0x25, tsc := 19600000000, port := 0xCB, tsc2 := 19660000200 },
   { sec := 0x25, tsc := 19600000000, port := 0x4B, tsc2 := 19670000200 },
   { sec := 0x25, tsc := 19600000000, port := 0xCB, tsc2 := 19680000200 },
   { sec := 0x25, tsc := 19600000000, port := 0x4B, tsc2 := 19690000200 },
   { sec := 0x25, tsc := 19600000000, port := 0x39, tsc2 := 19700000200 },
   { sec := 0x25, tsc := 19600000000, port := 0xB9, tsc2 := 19710000200 }]

/-- Hardware readings of a session from power-on in which all four enemies
are shot between the fourteenth update and the fifteenth: three by projectiles
in flight and enemy 0, on row 18 above the player, point-blank. -/
def no_enemy_run : List Inputs :=
  no_enemy_run_1 ++ no_enemy_run_2 ++ no_enemy_run_3 ++ no_enemy_run_4 ++ no_enemy_run_5

/-- SPACE pressed again, 10 ms after its release at the end of
`no_enemy_run`. -/
def space_again : Inputs :=
  { sec := 0x25, tsc := 19600000000, port := 0x39, tsc2 := 19720000200 }

/-- The level-1 state on which `check_collisions` is called in the pass
`space_again` after `no_enemy_run`.  No enemy slot is active; slot 0 still
holds (1, 18), where it was shot, and the projectile just fired from the
player at (2, 20) is at (3, 19), inside that footprint. -/
def no_enemy : Game :=
  { tpms := 1000000, ti := 19600000000, last_sec := 0x25
    timers := ⟨[19600000200, 0], rfl⟩, key := KEY_SPACE
    aliado := { i := 4, x := 2, y := 20, existe := true }
    enemigo := ⟨[{ i := 0, x := 1, y := 18, existe := false },
                 { i := 1, x := 6, y := 17, existe := false },
                 { i := 2, x := 11, y := 16, existe := false },
                 { i := 3, x := 16, y := 15, existe := false }], rfl⟩
    bala := ⟨[{ x := 3, y := 19, existe := true },
              { x := 13, y := 17, existe := false },
              { x := 8, y := 18, existe := false },
              { x := 10, y := 19, existe := false }], rfl⟩
    rocas := Mathlib.Vector.replicate 3 { x := 0, y := 0, existe := false }
    position := Mathlib.Vector.replicate 20 0
    score := 4, level := 1, vidas := 3, speed := 1000
    paused := false, game_over := false, level2 := false, pos := 2 }

/-- The state at the top of `loop` after `no_enemy_run`: `no_enemy` before the
shot, with the release code of SPACE as the last key. -/
def no_enemy_top : Game :=
  { no_enemy with
    key := 0xB9
    bala := no_enemy.bala.set 0 { x := 3, y := 19, existe := false } }

/-! ## A session that pauses the game -/

/-- Hardware readings of a session from power-on: the title block with the
confirm key and two calibrations at 1 GHz (six steps), the first update
together with the release code of the confirm key, and the pause key. -/
def pause_run : List Inputs :=
  wrap_run_title ++
  [{ sec := 0x12, tsc := 6600000000, port := 0x99, tsc2 := 6600000200 },
   { sec := 0x12, tsc := 6600000000, port := 0x19, tsc2 := 6610000200 }]

/-- The paused level-1 state at the top of `loop` after `pause_run`: the
player at (9, 20), enemies 0 and 1 active, no projectile in flight. -/
def paused1 : Game :=
  { tpms := 1000000, ti := 6600000000, last_sec := 0x12
    timers := ⟨[6600000200, 0], rfl⟩, key := KEY_P
    aliado := { i := 4, x := 9, y := 20, existe := true }
    enemigo := ⟨[{ i := 0, x := 1, y := 5, existe := true },
                 { i := 1, x := 6, y := 4, existe := true },
                 { i := 2, x := 11, y := 4, existe := false },
                 { i := 3, x := 16, y := 4, existe := false }], rfl⟩
    bala := Mathlib.Vector.replicate 4 { x := 10, y := 19, existe := false }
    rocas := Mathlib.Vector.replicate 3 { x := 0, y := 0, existe := false }
    position := Mathlib.Vector.replicate 20 0
    score := 0, level := 1, vidas := 3, speed := 1000
    paused := true, game_over := false, level2 := false, pos := 1 }

/-- LEFT pressed 10 ms after the pause key of `pause_run`. -/
def left_while_paused : Inputs :=
  { sec := 0x12, tsc := 6600000000, port := 0x4B, tsc2 := 6620000200 }

/-- SPACE pressed 10 ms after the pause key of `pause_run`. -/
def space_while_paused : Inputs :=
  { sec := 0x12, tsc := 6600000000, port := 0x39, tsc2 := 6620000200 }

/-- The track `0, 1, ..., 10, 9, ..., 1`. -/
def triangle_track : Mathlib.Vector Nat 20 :=
  ⟨[0, 1, 2, 3, 4, 5, 6, 7, 8, 9, 10, 9, 8, 7, 6, 5, 4, 3, 2, 1], rfl⟩

/-! ## The movement phase of `update` -/

/-- The movement phase of C `update`: its `for` loop, before `spawn()`. -/
def update_moves (cfg : Config) (g : Game) : Game :=
  forEach (fun (lyd : Fin 4) (g : Game) =>
    let e := move_enemigo cfg 0 1 lyd g
    let g1 : Game :=
      if !e.1 then
        { e.2 with enemigo := e.2.enemigo.set lyd { e.2.enemigo.get lyd with existe := false } }
      else e.2
    let b := move_bala cfg 0 (-1) lyd g1
    if !b.1 then
      { b.2 with bala := b.2.bala.set lyd { b.2.bala.get lyd with existe := false } }
    else b.2) slots4 g

/-- The cell (x, y) is within the bounds of the level-1 well:
1 <= x <= WELL_WIDTH - 3 and 0 < y < WELL_HEIGHT. -/
def in_well (cfg : Config) (x y : Int) : Prop :=
  1 ≤ x ∧ x ≤ cfg.WELL_WIDTH - 3 ∧ 0 < y ∧ y < cfg.WELL_HEIGHT

instance (cfg : Config) (x y : Int) : Decidable (in_well cfg x y) := by
  unfold in_well
  infer_instance

/-- The level-1 state `playing1` with enemy 0 on the last row of the well,
projectile 0 on row 1 and projectile 1 in mid-well. -/
def edge_rows : Game :=
  { playing1 with
    enemigo := playing1.enemigo.set 0 { i := 0, x := 1, y := 21, existe := true }
    bala := (playing1.bala.set 0 { x := 10, y := 1, existe := true }).set 1
      { x := 12, y := 9, existe := true } }

/-- The lives `kernel_main` keeps from `loop0` up to and including `loop`:
between 1 and 3. -/
def entry_lives (l : Label) (g : Game) : Bool :=
  match l with
  | Label.loop2 => true
  | Label.loop3 => true
  | Label.loop4 => true
  | Label.reset => true
  | _ => decide (1 ≤ g.vidas ∧ g.vidas ≤ 3)

/-- Hardware readings of a session from power-on: the title block, the first
update, LEFT twice (player to column 7), fifteen more updates, the last of
which brings enemy 1 down onto the player, and the release code of LEFT. -/
def last_life_run : List Inputs :=
  wrap_run_title ++ wrap_run_level1 ++
  [{ sec := 0x27, tsc := 21600000000, port := 0x4B, tsc2 := 21600000200 },
   { sec := 0x27, tsc := 21600000000, port := 0xCB, tsc2 := 21610000200 }]

/-- LEFT pressed 10 ms after the end of `last_life_run`. -/
def left_last_life : Inputs :=
  { sec := 0x27, tsc := 21600000000, port := 0x4B, tsc2 := 21620000200 }

/-- What `kernel_main` keeps of the level-2 lane: every track offset is at
most 10, and at `loop3` the player's column is between 1 and 18. -/
def lane_inv (l : Label) (g : Game) : Prop :=
  (∀ i : Fin 20, g.position.get i ≤ 10) ∧
  (l = Label.loop3 → 1 ≤ g.aliado.x ∧ g.aliado.x ≤ 18)

instance (l : Label) (g : Game) : Decidable (lane_inv l g) := by
  unfold lane_inv
  infer_instance

/-! ## Machine arithmetic facts -/

theorem sub64_of_le (a b : Nat) (hb : b ≤ a) (ha : a < U64) : sub64 a b = a - b := by
  simp only [sub64, U64] at *
  omega

theorem sub64_of_lt (a b : Nat) (hab : a < b) (hb : b < U64) : sub64 a b = a + U64 - b := by
  simp only [sub64, U64] at *
  omega

theorem sub64_self (a : Nat) : sub64 a a = 0 := by
  simp only [sub64, U64]
  omega

theorem sub32_one_of_pos (a : Nat) (h0 : 0 < a) (ha : a < U32) : sub32 a 1 = a - 1 := by
  simp only [sub32, U32] at *
  omega

/-! ## Timing theorems -/

/-- C7: `tps` recomputes exactly when the sampled second differs from the last
observed one.  With an equal sample the whole state (so the rate, the
calibration base and the last observed second) is unchanged; with a different
sample the rate is recomputed from the tick delta, the base becomes the
current tick count and the last observed second becomes the sample.  Hence in
every run of samples the number of recomputations equals the number of
changes of the sampled second. -/
theorem tps_recomputes_once_per_change (g : Game) :
    (∀ sec tf, sec = g.last_sec → tps sec tf g = g) ∧
    (∀ sec tf, sec ≠ g.last_sec →
      (tps sec tf g).tpms = (sub64 tf g.ti >>> 3) % U32 / 125 ∧
      (tps sec tf g).ti = tf ∧ (tps sec tf g).last_sec = sec) ∧
    (∀ samples : List (Nat × Nat),
      tps_recomputations g samples = second_changes g.last_sec (samples.map Prod.fst)) := by
  refine ⟨?_, ?_, ?_⟩
  · intro sec tf h
    simp [tps, h]
  · intro sec tf h
    simp [tps, h]
  · intro samples
    induction samples generalizing g with
    | nil => rfl
    | cons s rest ih =>
      have hlast : (tps s.1 s.2 g).last_sec = s.1 := by
        by_cases h : s.1 = g.last_sec
        · simp [tps, h]
        · simp [tps, h]
      simp only [tps_recomputations, List.map_cons, second_changes]
      rw [ih (tps s.1 s.2 g), hlast]

/-- Witness for C7: a run of five samples in which the second changes three
times recomputes three times. -/
theorem tps_recomputes_once_per_change_witness :
    tps_recomputations boot [(0x30, 10), (0x30, 20), (0x31, 30), (0x31, 40), (0x32, 50)] = 3 := by
  have h := (tps_recomputes_once_per_change boot).2.2
    [(0x30, 10), (0x30, 20), (0x31, 30), (0x31, 40), (0x32, 50)]
  rw [h]
  decide

/-- C8: on a second change with tick delta `d = (now - base) mod 2^64`, `tps`
sets the rate to `((d >> 3) mod 2^32) / 125`, and for every `d < 2^35` this is
exactly `d / 1000` rounded down. -/
theorem tps_rate_is_delta_div_1000 (sec tf : Nat) (g : Game) (h : sec ≠ g.last_sec) :
    (tps sec tf g).tpms = (sub64 tf g.ti >>> 3) % 2 ^ 32 / 125 ∧
    (sub64 tf g.ti < 2 ^ 35 → (tps sec tf g).tpms = sub64 tf g.ti / 1000) := by
  have e : (tps sec tf g).tpms = (sub64 tf g.ti >>> 3) % 2 ^ 32 / 125 := by
    simp [tps, h, U32]
  refine ⟨e, fun hd => ?_⟩
  rw [e, Nat.shiftRight_eq_div_pow]
  generalize sub64 tf g.ti = d at hd
  norm_num at hd ⊢
  omega

/-- Witness for C8: one second at 2 GHz after power-on gives 2000000 ticks per
millisecond. -/
theorem tps_rate_is_delta_div_1000_witness :
    (0x30 : Nat) ≠ boot.last_sec ∧ (tps 0x30 2000000000 boot).tpms = 2000000 := by
  have h := tps_rate_is_delta_div_1000 0x30 2000000000 boot (by decide)
  refine ⟨by decide, ?_⟩
  rw [h.2 (by decide)]
  decide

/-- C9: `interval` returns true iff `now - base[timer] >= tpms * ms` in
unsigned 64-bit arithmetic; on true it sets `base[timer]` to `now`, on false
it leaves `base[timer]` as it was, and either way the other timer's base and
the rate are unchanged. -/
theorem interval_fires_iff_elapsed (t : timer) (ms tf : Nat) (g : Game) :
    ((interval t ms tf g).1 = true ↔ mul64 g.tpms ms ≤ sub64 tf (g.timers.get t)) ∧
    ((interval t ms tf g).1 = true → (interval t ms tf g).2.timers.get t = tf) ∧
    ((interval t ms tf g).1 = false → (interval t ms tf g).2.timers.get t = g.timers.get t) ∧
    (∀ t2 : timer, t2 ≠ t → (interval t ms tf g).2.timers.get t2 = g.timers.get t2) ∧
    (interval t ms tf g).2.tpms = g.tpms := by
  by_cases h : mul64 g.tpms ms ≤ sub64 tf (g.timers.get t)
  · refine ⟨?_, ?_, ?_, ?_, ?_⟩ <;> simp [interval, h]
    intro t2 ht
    exact Mathlib.Vector.get_set_of_ne (Ne.symm ht) tf
  · refine ⟨?_, ?_, ?_, ?_, ?_⟩ <;> simp [interval, h]

/-- Witness for C9: one second after the last firing the 1000 ms timer fires
and is re-based, the other timer keeps its base. -/
theorem interval_fires_iff_elapsed_witness :
    (interval TIMER_UPDATE 1000 6000000000 playing1).1 = true ∧
    (interval TIMER_UPDATE 1000 6000000000 playing1).2.timers.get TIMER_UPDATE = 6000000000 ∧
    (interval TIMER_UPDATE 1000 6000000000 playing1).2.timers.get TIMER_CLEAR = 0 := by
  have h := interval_fires_iff_elapsed TIMER_UPDATE 1000 6000000000 playing1
  have hf : (interval TIMER_UPDATE 1000 6000000000 playing1).1 = true := h.1.2 (by decide)
  exact ⟨hf, h.2.1 hf, (h.2.2.2.1 TIMER_CLEAR (by decide)).trans (by decide)⟩

/-- C3, as stated, fails: at power-on the rate is 0 and `interval` reports
elapsed at once, and `wait` reports elapsed on a timer armed at tick 7. -/
theorem rate_zero_fires :
    boot.tpms = 0 ∧ (interval TIMER_UPDATE 1000 5 boot).1 = true ∧
    (wait TIMER_CLEAR 1000 8 (wait TIMER_CLEAR 1000 7 boot).2).1 = true := by
  decide

/-- C3, amended: with rate 0 `interval` returns true on every call, for every
timer, `ms` and tick reading, and re-bases the timer; `wait` returns false only
on the arming probe of an unset timer (base 0), storing the reading, and
returns true on every probe of an armed timer, clearing it. -/
theorem rate_zero_always_elapsed (t : timer) (ms tf : Nat) (g : Game) (h : g.tpms = 0) :
    interval t ms tf g = (true, { g with timers := g.timers.set t tf }) ∧
    (g.timers.get t = 0 → wait t ms tf g = (false, { g with timers := g.timers.set t tf })) ∧
    (g.timers.get t ≠ 0 → wait t ms tf g = (true, { g with timers := g.timers.set t 0 })) := by
  have hm : mul64 g.tpms ms = 0 := by simp [mul64, h]
  refine ⟨?_, ?_, ?_⟩
  · simp [interval, hm]
  · intro h0
    simp [wait, h0]
  · intro h0
    simp [wait, h0, hm]

/-- Witness for the amended C3 at power-on. -/
theorem rate_zero_always_elapsed_witness :
    boot.tpms = 0 ∧ (interval TIMER_UPDATE 1000 5 boot).1 = true := by
  have h := (rate_zero_always_elapsed TIMER_UPDATE 1000 5 boot (by decide)).1
  exact ⟨by decide, by rw [h]⟩

/-- C10, as stated, fails: at a fixed rate and with increasing readings, two
consecutive calls both fire when the reading advanced by a full period
between them. -/
theorem interval_fires_twice_in_a_row :
    (6000000000 : Nat) ≤ 7000000000 ∧
    (interval TIMER_UPDATE 1000 6000000000 playing1).1 = true ∧
    (interval TIMER_UPDATE 1000 6000000000 playing1).2.tpms = playing1.tpms ∧
    (interval TIMER_UPDATE 1000 7000000000
      (interval TIMER_UPDATE 1000 6000000000 playing1).2).1 = true := by
  decide

/-- C10, amended: at a fixed rate, the call of `interval` that directly
follows a firing call for the same timer fires iff the tick reading advanced
by at least `tpms * ms` (in unsigned 64-bit arithmetic) since the firing call;
so two consecutive calls never both return true when the reading advanced by
less than one period between them. -/
theorem interval_no_refire_within_period (t : timer) (ms t1 t2 : Nat) (g : Game)
    (hfire : (interval t ms t1 g).1 = true) :
    ((interval t ms t2 (interval t ms t1 g).2).1 = true ↔ mul64 g.tpms ms ≤ sub64 t2 t1) ∧
    (sub64 t2 t1 < mul64 g.tpms ms → (interval t ms t2 (interval t ms t1 g).2).1 = false) := by
  have h1 : (interval t ms t1 g).2 = { g with timers := g.timers.set t t1 } := by
    unfold interval at hfire ⊢
    split
    · rfl
    · rename_i hn
      simp [hn] at hfire
  have hiff : (interval t ms t2 (interval t ms t1 g).2).1 = true ↔
      mul64 g.tpms ms ≤ sub64 t2 t1 := by
    rw [h1]
    by_cases h : mul64 g.tpms ms ≤ sub64 t2 t1
    · simp [interval, Mathlib.Vector.get_set_same, h]
    · simp [interval, Mathlib.Vector.get_set_same, h]
  refine ⟨hiff, fun hlt => ?_⟩
  cases hb : (interval t ms t2 (interval t ms t1 g).2).1
  · rfl
  · exact absurd (hiff.1 hb) (Nat.not_le.2 hlt)

/-- Witness for the amended C10: half a period after a firing the timer does
not fire again. -/
theorem interval_no_refire_within_period_witness :
    (interval TIMER_UPDATE 1000 6000000000 playing1).1 = true ∧
    (interval TIMER_UPDATE 1000 6500000000
      (interval TIMER_UPDATE 1000 6000000000 playing1).2).1 = false :=
  ⟨by decide,
   (interval_no_refire_within_period TIMER_UPDATE 1000 6000000000 6500000000 playing1
      (by decide)).2 (by decide)⟩

/-! ## Frame facts -/

theorem forEach_inv {ι σ : Type} (P : σ → Prop) (body : ι → σ → σ)
    (h : ∀ i s, P s → P (body i s)) : ∀ (l : List ι) (s : σ), P s → P (forEach body l s) := by
  intro l
  induction l with
  | nil => intro s hs; exact hs
  | cons i rest ih => intro s hs; exact ih _ (h i s hs)

theorem forReturn_inv {ι σ : Type} (P : σ → Prop) (body : ι → σ → Flow σ)
    (h : ∀ i s, P s → P (body i s).state) :
    ∀ (l : List ι) (s : σ), P s → P (forReturn body l s).state := by
  intro l
  induction l with
  | nil => intro s hs; exact hs
  | cons i rest ih =>
    intro s hs
    have hb := h i s hs
    unfold forReturn
    cases hbody : body i s with
    | ret r => rw [hbody] at hb; exact hb
    | next t => rw [hbody] at hb; exact ih t hb


theorem collide2_game_over (cfg : Config) (x y : Int) (g : Game) :
    (collide2 cfg x y g).2.game_over = g.game_over := by
  unfold collide2
  split <;> rfl

theorem move_bichito2_game_over (cfg : Config) (dx dy : Int) (g : Game) :
    (move_bichito2 cfg dx dy g).2.game_over = g.game_over := by
  unfold move_bichito2
  split
  · rfl
  · dsimp only
    split
    · exact collide2_game_over _ _ _ _
    · exact collide2_game_over _ _ _ _

theorem interval_game_over (t : timer) (ms tf : Nat) (g : Game) :
    (interval t ms tf g).2.game_over = g.game_over := by
  unfold interval
  split <;> rfl

theorem move_enemigo_game_over (cfg : Config) (dx dy : Int) (lol : Fin 4) (g : Game) :
    (move_enemigo cfg dx dy lol g).2.game_over = g.game_over := by
  unfold move_enemigo
  split
  · rfl
  · split <;> rfl

theorem move_rocas_game_over (cfg : Config) (dx dy : Int) (lol : Fin 3) (g : Game) :
    (move_rocas cfg dx dy lol g).2.game_over = g.game_over := by
  unfold move_rocas
  split
  · rfl
  · split <;> rfl


theorem spawn2_game_over (cfg : Config) (g : Game) :
    (spawn2 cfg g).game_over = g.game_over := by
  unfold spawn2
  dsimp only
  refine forEach_inv (fun s : Game => s.game_over = g.game_over) _ ?_ _ _ ?_
  · intro i s hs
    dsimp only
    split
    · exact hs
    · exact hs
  · split <;> rfl

theorem update2_game_over (cfg : Config) (g : Game) :
    (update2 cfg g).game_over = g.game_over := by
  unfold update2
  dsimp only
  rw [spawn2_game_over]
  dsimp only
  refine forEach_inv (fun s : Game => s.game_over = g.game_over) _ ?_ _ _ ?_
  · intro i s hs
    exact hs
  · refine forEach_inv (fun s : Game => s.game_over = g.game_over) _ ?_ _ _ ?_
    · intro i s hs
      dsimp only
      split
      · exact (move_rocas_game_over _ _ _ _ _).trans hs
      · exact (move_rocas_game_over _ _ _ _ _).trans hs
    · refine forEach_inv (fun s : Game => s.game_over = g.game_over) _ ?_ _ _ ?_
      · intro i s hs
        dsimp only
        split
        · exact (move_enemigo_game_over _ _ _ _ _).trans hs
        · exact (move_enemigo_game_over _ _ _ _ _).trans hs
      · rfl

theorem advance_pos_game_over (g : Game) : (advance_pos g).game_over = g.game_over := by
  unfold advance_pos
  dsimp only
  split <;> split <;> rfl

theorem check_collisions_rocas_game_over (g : Game) :
    (check_collisions_rocas g).game_over = g.game_over := by
  unfold check_collisions_rocas
  refine forReturn_inv (fun s : Game => s.game_over = g.game_over) _ ?_ _ _ ?_
  · intro i s hs
    dsimp only
    split
    · exact hs
    · split
      · exact hs
      · exact hs
  · rfl

theorem loop3_input_game_over (cfg : Config) (key : Nat) (g : Game) (u : Bool × Game)
    (h : loop3_input cfg key g = some u) : u.2.game_over = g.game_over := by
  unfold loop3_input at h
  split at h
  · split at h
    · cases h
    · split at h
      · cases h; exact move_bichito2_game_over _ _ _ _
      · split at h
        · cases h; exact move_bichito2_game_over _ _ _ _
        · split at h
          · split at h <;> cases h <;> rfl
          · cases h; rfl
  · cases h; rfl

theorem loop3_cadence_game_over (cfg : Config) (tf : Nat) (b : Bool) (g : Game) :
    (loop3_cadence cfg tf b g).2.game_over = g.game_over := by
  unfold loop3_cadence
  split
  · dsimp only
    split
    · rw [advance_pos_game_over, update2_game_over, interval_game_over]
    · exact interval_game_over _ _ _ _
  · rfl
theorem scan_game_over (port : Nat) (g : Game) : (scan port g).2.game_over = g.game_over := by
  unfold scan
  split <;> rfl

theorem scan_rocas (port : Nat) (g : Game) : (scan port g).2.rocas = g.rocas := by
  unfold scan
  split <;> rfl

theorem loop2_iter_rocas (inp : Inputs) (g : Game) : (loop2_iter inp g).2.rocas = g.rocas := by
  unfold loop2_iter
  dsimp only
  split
  · split
    · exact scan_rocas _ _
    · exact scan_rocas _ _
  · exact scan_rocas _ _

theorem s8_of_range (n : Int) (h1 : -128 ≤ n) (h2 : n ≤ 127) : s8 n = n := by
  unfold s8
  omega

theorem check_game_over_of_alive (g : Game) (h : g.vidas ≠ 0) : check_game_over g = g := by
  simp [check_game_over, h]

theorem check_game_over_vidas (g : Game) : (check_game_over g).vidas = g.vidas := by
  unfold check_game_over
  split <;> rfl

theorem loop3_collisions_game_over (cfg : Config) (g : Game)
    (hv : (loop3_collisions cfg g).vidas ≠ 0) :
    (loop3_collisions cfg g).game_over = g.game_over := by
  unfold loop3_collisions at hv ⊢
  rw [check_game_over_vidas] at hv
  rw [check_game_over_of_alive _ hv, check_collisions_rocas_game_over, collide2_game_over]

theorem loop2_iter_to_loop0 (inp : Inputs) (g r : Game)
    (h : loop2_iter inp g = (Label.loop0, r)) : r.score = 0 ∧ r.vidas = 3 ∧ r.level = 1 := by
  unfold loop2_iter at h
  dsimp only at h
  split at h
  · split at h
    · cases h
      exact ⟨rfl, rfl, rfl⟩
    · cases h
  · cases h

theorem loop3_checks_to_loop0 (cfg : Config) (b : Bool) (g r : Game)
    (h : loop3_checks cfg b g = (Label.loop0, r)) : r.score = 0 ∧ r.vidas = 3 ∧ r.level = 1 := by
  unfold loop3_checks at h
  dsimp only at h
  split at h
  · split at h
    · cases h
    · split at h
      · cases h
        exact ⟨rfl, rfl, rfl⟩
      · cases h
  · cases h

theorem loop3_iter_to_loop0 (cfg : Config) (inp : Inputs) (g r : Game)
    (h : loop3_iter cfg inp g = (Label.loop0, r)) : r.score = 0 ∧ r.vidas = 3 ∧ r.level = 1 := by
  unfold loop3_iter at h
  dsimp only at h
  split at h
  · cases h
  · exact loop3_checks_to_loop0 _ _ _ _ h


/-! ## The projectile scan of `check_collisions` -/

theorem forReturn_all_next {ι σ : Type} (body : ι → σ → Flow σ) (s : σ) :
    ∀ l : List ι, (∀ i ∈ l, body i s = Flow.next s) → forReturn body l s = Flow.next s := by
  intro l
  induction l with
  | nil => intro _; rfl
  | cons i rest ih =>
    intro h
    unfold forReturn
    rw [h i (List.mem_cons_self i rest)]
    exact ih (fun j hj => h j (List.mem_cons_of_mem i hj))

theorem forReturn_first_ret {ι σ : Type} (body : ι → σ → Flow σ) (s r : σ) (i : ι)
    (l2 : List ι) :
    ∀ l1 : List ι, (∀ j ∈ l1, body j s = Flow.next s) → body i s = Flow.ret r →
      forReturn body (l1 ++ i :: l2) s = Flow.ret r := by
  intro l1
  induction l1 with
  | nil =>
    intro _ h2
    show forReturn body (i :: l2) s = Flow.ret r
    unfold forReturn
    rw [h2]
  | cons j rest ih =>
    intro h1 h2
    show forReturn body (j :: (rest ++ i :: l2)) s = Flow.ret r
    unfold forReturn
    rw [h1 j (List.mem_cons_self j rest)]
    exact ih (fun k hk => h1 k (List.mem_cons_of_mem j hk)) h2

theorem slots4_split (i : Fin 4) :
    ∃ l1 l2 : List (Fin 4), slots4 = l1 ++ i :: l2 ∧ ∀ j ∈ l1, j < i := by
  fin_cases i
  · exact ⟨[], [1, 2, 3], rfl, by simp⟩
  · exact ⟨[0], [2, 3], rfl, by decide⟩
  · exact ⟨[0, 1], [3], rfl, by decide⟩
  · exact ⟨[0, 1, 2], [], rfl, by decide⟩

theorem forReturn_slots4_first {σ : Type} (body : Fin 4 → σ → Flow σ) (s r : σ) (i : Fin 4)
    (h1 : ∀ j : Fin 4, j < i → body j s = Flow.next s) (h2 : body i s = Flow.ret r) :
    forReturn body slots4 s = Flow.ret r := by
  obtain ⟨l1, l2, hl, hlt⟩ := slots4_split i
  rw [hl]
  exact forReturn_first_ret body s r i l2 l1 (fun j hj => h1 j (hlt j hj)) h2

/-- What the first loop nest of `check_collisions` does: it acts on the first
pair, in scan order (projectile slot, then enemy slot), of an active projectile
and an enemy slot, active or not, whose footprint holds the projectile. -/
theorem check_collisions_balas_first (g : Game) (lyd xd : Fin 4)
    (hb : (g.bala.get lyd).existe = true)
    (hhit : bala_hits (g.bala.get lyd) (g.enemigo.get xd))
    (hfirst : ∀ l x : Fin 4, l < lyd ∨ (l = lyd ∧ x < xd) → (g.bala.get l).existe = true →
      ¬ bala_hits (g.bala.get l) (g.enemigo.get x)) :
    check_collisions_balas g = Flow.ret { g with
      bala := g.bala.set lyd { g.bala.get lyd with existe := false }
      enemigo := g.enemigo.set xd { g.enemigo.get xd with existe := false }
      score := (g.score + 1) % U32 } := by
  unfold check_collisions_balas
  refine forReturn_slots4_first _ _ _ lyd ?_ ?_
  · intro j hj
    dsimp only
    split
    · rename_i hjb
      refine forReturn_all_next _ _ _ ?_
      intro x _
      have hn := hfirst j x (Or.inl hj) hjb
      unfold bala_hits at hn
      split
      · split
        · rename_i h1 h2
          exact absurd ⟨h1, h2⟩ hn
        · rfl
      · rfl
    · rfl
  · dsimp only
    rw [if_pos hb]
    refine forReturn_slots4_first _ _ _ xd ?_ ?_
    · intro x hxm
      have hn := hfirst lyd x (Or.inr ⟨rfl, hxm⟩) hb
      unfold bala_hits at hn
      split
      · split
        · rename_i h1 h2
          exact absurd ⟨h1, h2⟩ hn
        · rfl
      · rfl
    · unfold bala_hits at hhit
      dsimp only
      rw [if_pos hhit.1, if_pos hhit.2]

/-- When no active projectile lies in the footprint of any enemy slot, the
first loop nest of `check_collisions` falls through with the state unchanged. -/
theorem check_collisions_balas_none (g : Game)
    (hno : ∀ l x : Fin 4, (g.bala.get l).existe = true →
      ¬ bala_hits (g.bala.get l) (g.enemigo.get x)) :
    check_collisions_balas g = Flow.next g := by
  unfold check_collisions_balas
  refine forReturn_all_next _ _ _ ?_
  intro j _
  dsimp only
  split
  · rename_i hjb
    refine forReturn_all_next _ _ _ ?_
    intro x _
    have hn := hno j x hjb
    unfold bala_hits at hn
    split
    · split
      · rename_i h1 h2
        exact absurd ⟨h1, h2⟩ hn
      · rfl
    · rfl
  · rfl

/-- All of `check_collisions` on a state in which the projectile scan finds a
pair: the projectile and the enemy slot of the first pair have their flags
cleared, the score grows by 1 (as a `u32`), and nothing else changes. -/
theorem check_collisions_first_hit (g : Game) (lyd xd : Fin 4)
    (hb : (g.bala.get lyd).existe = true)
    (hhit : bala_hits (g.bala.get lyd) (g.enemigo.get xd))
    (hfirst : ∀ l x : Fin 4, l < lyd ∨ (l = lyd ∧ x < xd) → (g.bala.get l).existe = true →
      ¬ bala_hits (g.bala.get l) (g.enemigo.get x)) :
    check_collisions g = { g with
      bala := g.bala.set lyd { g.bala.get lyd with existe := false }
      enemigo := g.enemigo.set xd { g.enemigo.get xd with existe := false }
      score := (g.score + 1) % U32 } := by
  unfold check_collisions
  rw [check_collisions_balas_first g lyd xd hb hhit hfirst]

/-! ## Game master theorems -/

/-- C6: both run-reset edges lead to Title with score = 0, lives = 3 and
level = 1, whatever the values were before.  The confirm key in GameOver takes
the edge; in Playing2 a pass with an input or cadence event that starts with
the game-over flag clear and leaves, after its collision pass, lives not 0 and
score >= 35 takes the edge; and every arrival at `loop0` from `loop2` or
`loop3` carries score 0, lives 3 and level 1, which the Title entry
(`inicializar`) keeps. -/
theorem run_reset_restores_run_state (cfg : Config) (inp inp2 : Inputs) (g : Game) :
    ((scan inp.port g).1 = KEY_P → (loop2_iter inp g).1 = Label.loop0) ∧
    (∀ u : Bool × Game,
      loop3_input cfg (scan inp.port g).1 (scan inp.port g).2 = some u →
      (loop3_cadence cfg inp.tsc2 u.1 u.2).1 = true →
      g.game_over = false →
      (loop3_collisions cfg (loop3_cadence cfg inp.tsc2 u.1 u.2).2).vidas ≠ 0 →
      35 ≤ (loop3_collisions cfg (loop3_cadence cfg inp.tsc2 u.1 u.2).2).score →
      (loop3_iter cfg inp g).1 = Label.loop0) ∧
    (∀ r : Game,
      (loop2_iter inp g = (Label.loop0, r) ∨ loop3_iter cfg inp g = (Label.loop0, r)) →
      (r.score = 0 ∧ r.vidas = 3 ∧ r.level = 1) ∧
      (step cfg inp2 Label.loop0 r).1 = Label.title_wait ∧
      (step cfg inp2 Label.loop0 r).2.score = 0 ∧
      (step cfg inp2 Label.loop0 r).2.vidas = 3 ∧
      (step cfg inp2 Label.loop0 r).2.level = 1) := by
  refine ⟨?_, ?_, ?_⟩
  · intro hk
    unfold loop2_iter
    dsimp only
    rw [hk]
    simp [KEY_P]
  · intro u hu hupd hgo hv hs
    have hgo2 : (loop3_collisions cfg (loop3_cadence cfg inp.tsc2 u.1 u.2).2).game_over = false := by
      rw [loop3_collisions_game_over _ _ hv, loop3_cadence_game_over,
        loop3_input_game_over _ _ _ _ hu, scan_game_over]
      exact hgo
    unfold loop3_iter
    dsimp only
    rw [hu]
    dsimp only
    unfold loop3_checks
    rw [hupd]
    simp [hgo2, hs]
  · intro r hr
    have h3 : r.score = 0 ∧ r.vidas = 3 ∧ r.level = 1 := by
      rcases hr with h | h
      · exact loop2_iter_to_loop0 _ _ _ h
      · exact loop3_iter_to_loop0 _ _ _ _ h
    refine ⟨h3, rfl, ?_, ?_, ?_⟩
    · exact h3.1
    · exact h3.2.1
    · exact h3.2.2

/-- Witness for C6: the confirm key in the game-over state `over2` (score 21,
lives 0, level 2) leads to Title with score 0, lives 3, level 1. -/
theorem run_reset_restores_run_state_witness :
    (loop2_iter press_p over2).1 = Label.loop0 ∧
    (loop2_iter press_p over2).2.score = 0 ∧
    (loop2_iter press_p over2).2.vidas = 3 ∧
    (loop2_iter press_p over2).2.level = 1 := by
  have h := run_reset_restores_run_state cfg0 press_p press_p over2
  have h1 : (loop2_iter press_p over2).1 = Label.loop0 := h.1 (by decide)
  have h2 := (h.2.2 (loop2_iter press_p over2).2 (Or.inl (Prod.ext h1 rfl))).1
  exact ⟨h1, h2⟩

/-- C4, as stated, fails: with the player active at column `WELL_WIDTH - 3`
(17 of 20) a move by dx = +1 is rejected, but the existence flag stays set and
the lives stay 3. -/
theorem move_bichito_wall_keeps_player :
    at_right_wall.aliado.existe = true ∧
    at_right_wall.aliado.x = cfg0.WELL_WIDTH - 3 ∧
    (move_bichito cfg0 1 0 at_right_wall).1 = false ∧
    (move_bichito cfg0 1 0 at_right_wall).2.aliado.existe = true ∧
    (move_bichito cfg0 1 0 at_right_wall).2.vidas = 3 := by
  decide

/-- C4, amended: in level 1, for every state with the player active whose
requested destination column (the `s8` value `aliado.x + dx` that `collide`
receives) is below 1 or above `WELL_WIDTH - 3`, `move_bichito` rejects the move
(returns false) and changes nothing: position, existence flag and lives are
as before. -/
theorem move_bichito_rejects_at_wall (cfg : Config) (dx dy : Int) (g : Game)
    (hact : g.aliado.existe = true)
    (hcol : s8 (g.aliado.x + dx) < 1 ∨ s8 (g.aliado.x + dx) > cfg.WELL_WIDTH - 3) :
    move_bichito cfg dx dy g = (false, g) := by
  have hc : collide cfg (s8 (g.aliado.x + dx)) (s8 (g.aliado.y + dy)) = true := by
    unfold collide
    rw [if_pos]
    rcases hcol with h | h
    · exact Or.inl h
    · exact Or.inr (Or.inl h)
  simp [move_bichito, hact, hc]

/-- Witness for the amended C4: the player at column 17 of a well 20 wide,
moving right. -/
theorem move_bichito_rejects_at_wall_witness :
    at_right_wall.aliado.existe = true ∧
    s8 (at_right_wall.aliado.x + 1) > cfg0.WELL_WIDTH - 3 ∧
    move_bichito cfg0 1 0 at_right_wall = (false, at_right_wall) :=
  ⟨by decide, by decide,
   move_bichito_rejects_at_wall cfg0 1 0 at_right_wall (by decide) (Or.inr (by decide))⟩

/-- C5, as stated, fails: after the confirm key in the game-over state `over2`
and the Title entry that follows, obstacle 0 is still active. -/
theorem reset_keeps_obstacles :
    (loop2_iter press_p over2).1 = Label.loop0 ∧
    (step cfg0 press_p Label.loop0 (loop2_iter press_p over2).2).1 = Label.title_wait ∧
    ((step cfg0 press_p Label.loop0 (loop2_iter press_p over2).2).2.rocas.get 0).existe
      = true := by
  decide

/-- C5, amended: after a full run reset (confirm key in GameOver, or the
level-2 score threshold in Playing2, followed by Title re-entry and
`inicializar`), the player, all 4 enemies and all 4 projectiles have their
existence flag false, for every state from which the reset is taken; the 3
obstacles are left exactly as they were when the reset was taken. -/
theorem reset_clears_level1_pools (cfg : Config) (inp inp2 : Inputs) (g r : Game)
    (_hreset : loop2_iter inp g = (Label.loop0, r) ∨ loop3_iter cfg inp g = (Label.loop0, r)) :
    (step cfg inp2 Label.loop0 r).1 = Label.title_wait ∧
    (step cfg inp2 Label.loop0 r).2.aliado.existe = false ∧
    (∀ i : Fin 4, ((step cfg inp2 Label.loop0 r).2.enemigo.get i).existe = false) ∧
    (∀ i : Fin 4, ((step cfg inp2 Label.loop0 r).2.bala.get i).existe = false) ∧
    (step cfg inp2 Label.loop0 r).2.rocas = r.rocas ∧
    (loop2_iter inp g = (Label.loop0, r) → r.rocas = g.rocas) := by
  refine ⟨rfl, rfl, ?_, ?_, rfl, ?_⟩
  · intro i
    simp only [step, loop0_enter, inicializar, forEach, slots4, Mathlib.Vector.get_set_eq_if]
    fin_cases i <;> simp
  · intro i
    simp only [step, loop0_enter, inicializar, forEach, slots4, Mathlib.Vector.get_set_eq_if]
    fin_cases i <;> simp
  · intro h2
    have e : r = (loop2_iter inp g).2 := by rw [h2]
    rw [e]
    exact loop2_iter_rocas inp g

/-- Witness for the amended C5: the confirm key in the game-over state
`over2`, then the Title entry. -/
theorem reset_clears_level1_pools_witness :
    (loop2_iter press_p over2).1 = Label.loop0 ∧
    (step cfg0 press_p Label.loop0 (loop2_iter press_p over2).2).2.aliado.existe = false :=
  ⟨by decide,
   (reset_clears_level1_pools cfg0 press_p press_p over2 (loop2_iter press_p over2).2
      (Or.inl (by decide))).2.1⟩

set_option maxRecDepth 1000000

/-- C1 fails on the code.  The session `stale_run` from power-on ends at the
top of `loop`, and the next pass, the key event `release_space` with no
cadence event, calls `check_collisions` on `stale_enemy`.  There the active
projectile 2 lies in the footprint of the active enemy 1 and no lower pair of
an active projectile and an active enemy overlaps, so the claim has projectile
2 and enemy 1 deactivated and every other slot unchanged.  `check_collisions`
instead matches projectile 1 against the inactive enemy slot 2, clears the
flag of projectile 1, adds 1 to the score and returns; projectile 2 and enemy
1 stay active. -/
theorem check_collisions_scores_on_inactive_enemy :
    (run cfg0 stale_run (Label.loop0, boot) = (Label.loop, { stale_enemy with key := KEY_SPACE }) ∧
      loop_iter cfg0 release_space { stale_enemy with key := KEY_SPACE }
        = loop_checks true stale_enemy) ∧
    ((stale_enemy.bala.get 2).existe = true ∧ (stale_enemy.enemigo.get 1).existe = true ∧
      bala_hits (stale_enemy.bala.get 2) (stale_enemy.enemigo.get 1) ∧
      ¬ bala_hits (stale_enemy.bala.get 2) (stale_enemy.enemigo.get 0)) ∧
    ((stale_enemy.bala.get 0).existe = false ∧
      (∀ x : Fin 4, (stale_enemy.enemigo.get x).existe = true →
        ¬ bala_hits (stale_enemy.bala.get 1) (stale_enemy.enemigo.get x))) ∧
    ((stale_enemy.enemigo.get 2).existe = false ∧
      bala_hits (stale_enemy.bala.get 1) (stale_enemy.enemigo.get 2)) ∧
    check_collisions stale_enemy =
      { stale_enemy with
        bala := stale_enemy.bala.set 1 { x := 12, y := 12, existe := false }
        score := 2 } ∧
    ((check_collisions stale_enemy).bala.get 2).existe = true ∧
    ((check_collisions stale_enemy).enemigo.get 1).existe = true := by
  decide

/-- Level 1 part of C2, which holds: a pass of the `if (updated)` block of
`loop` whose collision resolution leaves lives 0 ends at `loop2` with the
game-over flag set, whatever the score. -/
theorem loop_checks_game_over (g : Game) (h : (check_collisions g).vidas = 0) :
    (loop_checks true g).1 = Label.loop2 ∧ (loop_checks true g).2.game_over = true := by
  have hv : (check_level_change (check_collisions g)).vidas = 0 := by
    unfold check_level_change
    split
    · exact h
    · exact h
  have hg : (check_game_over (check_level_change (check_collisions g))).game_over = true := by
    simp [check_game_over, hv]
  simp [loop_checks, hg]

/-- C2 fails on the code in level 2.  The session `wrap_run` from power-on
ends at the top of `loop3` in `playing2`: one life, the player inactive at its
old place, outside the lane and under obstacle 1.  In the next pass, a key
event with no cadence event, `collide2(aliado.x, aliado.y)` brings lives from
1 to 0 and `check_collisions_rocas` then takes one more, wrapping the unsigned
counter to 4294967295; `check_game_over` sees a nonzero value and the pass ends
at `loop3` with the game-over flag clear. -/
theorem loop3_lives_wrap_past_zero :
    run cfg0 wrap_run (Label.loop0, boot) = (Label.loop3, playing2) ∧
    playing2.vidas = 1 ∧
    (collide2 cfg0 playing2.aliado.x playing2.aliado.y
      (scan release_right.port playing2).2).2.vidas = 0 ∧
    loop3_iter cfg0 release_right playing2
      = (Label.loop3, { playing2 with key := 0xCD, vidas := 4294967295 }) ∧
    (loop3_iter cfg0 release_right playing2).2.game_over = false := by
  decide

/-! ## The latch timer -/

/-- C11: `wait` fires exactly once per arm-then-wait cycle.  For every nonzero
tick reading, a probe of an unset timer (base 0) stores the reading as the base
and returns false; while armed, every probe with `now - base < tpms * ms`
returns false and leaves the state unchanged; a probe with
`now - base >= tpms * ms` returns true and resets the base to unset, so that
the probe after it (at a nonzero reading) arms again and returns false. -/
theorem wait_fires_once_per_cycle (t : timer) (ms : Nat) (g : Game) :
    (∀ tf, tf ≠ 0 → g.timers.get t = 0 →
      (wait t ms tf g).1 = false ∧ (wait t ms tf g).2.timers.get t = tf ∧
      (wait t ms tf g).2.timers.get t ≠ 0) ∧
    (∀ tf, g.timers.get t ≠ 0 → sub64 tf (g.timers.get t) < mul64 g.tpms ms →
      wait t ms tf g = (false, g)) ∧
    (∀ tf tf2, g.timers.get t ≠ 0 → mul64 g.tpms ms ≤ sub64 tf (g.timers.get t) →
      (wait t ms tf g).1 = true ∧ (wait t ms tf g).2.timers.get t = 0 ∧
      (tf2 ≠ 0 →
        (wait t ms tf2 (wait t ms tf g).2).1 = false ∧
        (wait t ms tf2 (wait t ms tf g).2).2.timers.get t = tf2)) := by
  refine ⟨?_, ?_, ?_⟩
  · intro tf htf h0
    simp [wait, h0, Mathlib.Vector.get_set_same, htf]
  · intro tf h0 hlt
    simp [wait, h0, Nat.not_le.2 hlt]
  · intro tf tf2 h0 hge
    have e : wait t ms tf g = (true, { g with timers := g.timers.set t 0 }) := by
      simp [wait, h0, hge]
    rw [e]
    refine ⟨rfl, ?_, ?_⟩
    · simp [Mathlib.Vector.get_set_same]
    · intro _
      simp [wait, Mathlib.Vector.get_set_same]

/-- Witness for C11: an arm-then-wait cycle of the 1000 ms latch at 1000000
ticks per millisecond: armed at reading 5000000000, quiet half a second later,
fired one second later, armed again by the next probe. -/
theorem wait_fires_once_per_cycle_witness :
    (wait TIMER_CLEAR 1000 5000000000 playing1).1 = false ∧
    (wait TIMER_CLEAR 1000 5500000000 (wait TIMER_CLEAR 1000 5000000000 playing1).2).1 = false ∧
    (wait TIMER_CLEAR 1000 6000000000 (wait TIMER_CLEAR 1000 5000000000 playing1).2).1 = true ∧
    (wait TIMER_CLEAR 1000 6000000007
      (wait TIMER_CLEAR 1000 6000000000 (wait TIMER_CLEAR 1000 5000000000 playing1).2).2).1
      = false := by
  have h := wait_fires_once_per_cycle TIMER_CLEAR 1000 playing1
  have h1 := h.1 5000000000 (by decide) (by decide)
  have h2 := wait_fires_once_per_cycle TIMER_CLEAR 1000
    (wait TIMER_CLEAR 1000 5000000000 playing1).2
  have harm : (wait TIMER_CLEAR 1000 5000000000 playing1).2.timers.get TIMER_CLEAR ≠ 0 := h1.2.2
  have h3 := h2.2.1 5500000000 harm (by decide)
  have h4 := h2.2.2 6000000000 6000000007 harm (by decide)
  refine ⟨h1.1, ?_, h4.1, (h4.2.2 (by decide)).1⟩
  rw [h3]

/-! ## Firing -/

/-- C12: in every state in which all four projectile slots are active,
`disparar` changes nothing: every projectile's position and flag and all other
state are as before. -/
theorem disparar_full_pool_noop (g : Game)
    (hfull : ∀ i : Fin 4, (g.bala.get i).existe = true) : disparar g = g := by
  unfold disparar
  rw [forReturn_all_next]
  · rfl
  · intro i _
    simp [hfull i]

/-- Witness for C12: a state with four projectiles in flight. -/
theorem disparar_full_pool_noop_witness : disparar full_pool = full_pool :=
  disparar_full_pool_noop full_pool (by decide)

theorem exists_lowest_fin4 (P : Fin 4 → Prop) (h : ∃ i, P i) :
    ∃ i, P i ∧ ∀ j : Fin 4, j < i → ¬ P j := by
  by_cases h0 : P 0
  · exact ⟨0, h0, fun j hj => absurd hj (by omega)⟩
  by_cases h1 : P 1
  · refine ⟨1, h1, fun j hj => ?_⟩
    have : j = 0 := by omega
    rw [this]; exact h0
  by_cases h2 : P 2
  · refine ⟨2, h2, fun j hj => ?_⟩
    have : j = 0 ∨ j = 1 := by omega
    rcases this with e | e <;> rw [e] <;> assumption
  by_cases h3 : P 3
  · refine ⟨3, h3, fun j hj => ?_⟩
    have : j = 0 ∨ j = 1 ∨ j = 2 := by omega
    rcases this with e | e | e <;> rw [e] <;> assumption
  · obtain ⟨i, hi⟩ := h
    have : i = 0 ∨ i = 1 ∨ i = 2 ∨ i = 3 := by omega
    rcases this with e | e | e | e <;> rw [e] at hi <;> contradiction

theorem vector4_eq {α : Type} (v : Mathlib.Vector α 4) :
    v = ⟨[v.get 0, v.get 1, v.get 2, v.get 3], rfl⟩ := by
  apply Mathlib.Vector.ext
  intro i
  fin_cases i <;> rfl

theorem count_existe_set (v : Mathlib.Vector Bala 4) (i : Fin 4) (b : Bala)
    (hold : (v.get i).existe = false) (hnew : b.existe = true) :
    ((v.set i b).toList.filter (fun b => b.existe)).length
      = (v.toList.filter (fun b => b.existe)).length + 1 := by
  obtain ⟨l, hl⟩ := v
  match l, hl with
  | [a0, a1, a2, a3], _ =>
    rcases i with ⟨_ | _ | _ | _ | n, hi⟩
    · have h : a0.existe = false := hold
      simp only [Mathlib.Vector.set, Mathlib.Vector.toList, List.set, List.filter_cons, h, hnew]
      simp
    · have h : a1.existe = false := hold
      simp only [Mathlib.Vector.set, Mathlib.Vector.toList, List.set, List.filter_cons, h, hnew]
      split_ifs <;> first | contradiction | simp
    · have h : a2.existe = false := hold
      simp only [Mathlib.Vector.set, Mathlib.Vector.toList, List.set, List.filter_cons, h, hnew]
      split_ifs <;> first | contradiction | simp
    · have h : a3.existe = false := hold
      simp only [Mathlib.Vector.set, Mathlib.Vector.toList, List.set, List.filter_cons, h, hnew]
      split_ifs <;> first | contradiction | simp
    · omega

/-- What `disparar` does when slot `i` is the lowest inactive projectile slot. -/
theorem disparar_at_lowest (g : Game) (i : Fin 4) (hi : (g.bala.get i).existe = false)
    (hlow : ∀ j : Fin 4, j < i → (g.bala.get j).existe = true) :
    disparar g = { g with bala := (g.bala.set i
      { x := s8 (g.aliado.x + 1), y := s8 (g.aliado.y - 1), existe := true }) } := by
  unfold disparar
  rw [forReturn_slots4_first _ g _ i]
  · rfl
  · intro j hj
    simp [hlow j hj]
  · simp [hi]

/-- C13: in every state with at least one inactive projectile slot, `disparar`
activates exactly the lowest-index inactive slot, places it at
(player.x + 1, player.y - 1) (as signed 8-bit values; exactly so whenever the
player is not on the last column or the first row of the `s8` range), and
leaves every other projectile slot and all other state unchanged, so the
number of active projectiles grows by exactly 1. -/
theorem disparar_activates_lowest_free (g : Game)
    (hfree : ∃ i : Fin 4, (g.bala.get i).existe = false) :
    ∃ i : Fin 4,
      ((g.bala.get i).existe = false ∧ ∀ j : Fin 4, j < i → (g.bala.get j).existe = true) ∧
      disparar g = { g with bala := (g.bala.set i
        { x := s8 (g.aliado.x + 1), y := s8 (g.aliado.y - 1), existe := true }) } ∧
      (disparar g).bala.get i
        = { x := s8 (g.aliado.x + 1), y := s8 (g.aliado.y - 1), existe := true } ∧
      (-128 ≤ g.aliado.x ∧ g.aliado.x < 127 ∧ -128 < g.aliado.y ∧ g.aliado.y ≤ 127 →
        (disparar g).bala.get i
          = { x := g.aliado.x + 1, y := g.aliado.y - 1, existe := true }) ∧
      (∀ j : Fin 4, j ≠ i → (disparar g).bala.get j = g.bala.get j) ∧
      active_balas (disparar g) = active_balas g + 1 := by
  obtain ⟨i, hi, hlow⟩ := exists_lowest_fin4 (fun i => (g.bala.get i).existe = false) hfree
  have hlow2 : ∀ j : Fin 4, j < i → (g.bala.get j).existe = true := by
    intro j hj
    have := hlow j hj
    simpa using this
  have e := disparar_at_lowest g i hi hlow2
  refine ⟨i, ⟨hi, hlow2⟩, e, ?_, ?_, ?_, ?_⟩
  · rw [e]
    exact Mathlib.Vector.get_set_same _ _ _
  · intro hr
    rw [e]
    show (g.bala.set i _).get i = _
    rw [Mathlib.Vector.get_set_same, s8_of_range _ (by omega) (by omega),
      s8_of_range _ (by omega) (by omega)]
  · intro j hj
    rw [e]
    exact Mathlib.Vector.get_set_of_ne (Ne.symm hj) _
  · rw [e]
    exact count_existe_set g.bala i _ hi rfl

/-- Witness for C13: in `playing1` no projectile is in flight; the shot goes
to slot 0, one column right of and one row above the player at (9, 20). -/
theorem disparar_activates_lowest_free_witness :
    ∃ i : Fin 4,
      ((playing1.bala.get i).existe = false ∧
        ∀ j : Fin 4, j < i → (playing1.bala.get j).existe = true) ∧
      (disparar playing1).bala.get i = { x := 10, y := 19, existe := true } ∧
      active_balas (disparar playing1) = active_balas playing1 + 1 := by
  obtain ⟨i, h1, h2, h3, _, _, h6⟩ := disparar_activates_lowest_free playing1 ⟨0, by decide⟩
  refine ⟨i, h1, ?_, h6⟩
  rw [h3]
  decide

/-! ## Spawning -/

/-- The enemy loop of `spawn`, from any state `h` in which slot `i` is the
lowest inactive enemy slot. -/
theorem spawn_loop_at_lowest (h : Game) (i : Fin 4)
    (hi : (h.enemigo.get i).existe = false)
    (hlow : ∀ j : Fin 4, j < i → (h.enemigo.get j).existe = true) :
    forReturn (fun (lyd : Fin 4) (g : Game) =>
      if (g.enemigo.get lyd).existe = false then
        Flow.ret { g with enemigo := (g.enemigo.set lyd
          { g.enemigo.get lyd with x := s8 ((lyd.val : Int) * 5 + 1), y := 4, existe := true }) }
      else Flow.next g) slots4 h
    = Flow.ret { h with enemigo := (h.enemigo.set i
        { h.enemigo.get i with x := (i.val : Int) * 5 + 1, y := 4, existe := true }) } := by
  have hs : s8 ((i.val : Int) * 5 + 1) = (i.val : Int) * 5 + 1 := by
    apply s8_of_range <;> omega
  refine forReturn_slots4_first _ _ _ i ?_ ?_
  · intro j hj
    simp [hlow j hj]
  · simp [hi, hs]

/-- The enemy pool after `spawn` when slot `i` is the lowest inactive slot. -/
theorem spawn_enemigo_at_lowest (cfg : Config) (g : Game) (i : Fin 4)
    (hi : (g.enemigo.get i).existe = false)
    (hlow : ∀ j : Fin 4, j < i → (g.enemigo.get j).existe = true) :
    (spawn cfg g).enemigo = g.enemigo.set i
      { g.enemigo.get i with x := (i.val : Int) * 5 + 1, y := 4, existe := true } := by
  unfold spawn
  dsimp only
  generalize hg1 : (if g.aliado.existe = false then _ else g : Game) = g1
  have he : g1.enemigo = g.enemigo := by
    rw [← hg1]
    split <;> rfl
  rw [spawn_loop_at_lowest g1 i (by rw [he]; exact hi) (by intro j hj; rw [he]; exact hlow j hj)]
  show g1.enemigo.set i _ = _
  rw [he]

/-- C16: `spawn` reactivates at most one enemy per call.  If some enemy slot
is inactive, exactly the lowest-index inactive slot `i` becomes active at
position (5*i + 1, 4) and every other enemy slot is unchanged; if all four are
active no enemy changes.  An inactive player is reactivated at the fixed
position (WELL_WIDTH/2 - 1, WELL_HEIGHT - 2) (as signed 8-bit values; exactly
so when both fit in a signed 8-bit value) and an active player is
unchanged. -/
theorem spawn_reactivates_lowest (cfg : Config) (g : Game) :
    ((∃ i : Fin 4, (g.enemigo.get i).existe = false) →
      ∃ i : Fin 4,
        ((g.enemigo.get i).existe = false ∧
          ∀ j : Fin 4, j < i → (g.enemigo.get j).existe = true) ∧
        (spawn cfg g).enemigo.get i
          = { g.enemigo.get i with x := (i.val : Int) * 5 + 1, y := 4, existe := true } ∧
        ∀ j : Fin 4, j ≠ i → (spawn cfg g).enemigo.get j = g.enemigo.get j) ∧
    ((∀ i : Fin 4, (g.enemigo.get i).existe = true) → (spawn cfg g).enemigo = g.enemigo) ∧
    (g.aliado.existe = false →
      (spawn cfg g).aliado = { g.aliado with
        x := s8 (Int.tdiv cfg.WELL_WIDTH 2 - 1), y := s8 (cfg.WELL_HEIGHT - 2), existe := true } ∧
      (-128 ≤ Int.tdiv cfg.WELL_WIDTH 2 - 1 ∧ Int.tdiv cfg.WELL_WIDTH 2 - 1 ≤ 127 ∧
        -128 ≤ cfg.WELL_HEIGHT - 2 ∧ cfg.WELL_HEIGHT - 2 ≤ 127 →
        (spawn cfg g).aliado = { g.aliado with
          x := Int.tdiv cfg.WELL_WIDTH 2 - 1, y := cfg.WELL_HEIGHT - 2, existe := true })) ∧
    (g.aliado.existe = true → (spawn cfg g).aliado = g.aliado) := by
  have hal : ∀ h : Game, (forReturn (fun (lyd : Fin 4) (g : Game) =>
      if (g.enemigo.get lyd).existe = false then
        Flow.ret { g with enemigo := (g.enemigo.set lyd
          { g.enemigo.get lyd with x := s8 ((lyd.val : Int) * 5 + 1), y := 4, existe := true }) }
      else Flow.next g) slots4 h).state.aliado = h.aliado := by
    intro h
    refine forReturn_inv (fun s : Game => s.aliado = h.aliado) _ ?_ _ _ rfl
    intro i s hs
    dsimp only
    split
    · exact hs
    · exact hs
  refine ⟨?_, ?_, ?_, ?_⟩
  · intro hex
    obtain ⟨i, hi, hlow⟩ :=
      exists_lowest_fin4 (fun i => (g.enemigo.get i).existe = false) hex
    have hlow2 : ∀ j : Fin 4, j < i → (g.enemigo.get j).existe = true := by
      intro j hj
      simpa using hlow j hj
    have e := spawn_enemigo_at_lowest cfg g i hi hlow2
    refine ⟨i, ⟨hi, hlow2⟩, ?_, ?_⟩
    · rw [e]
      exact Mathlib.Vector.get_set_same _ _ _
    · intro j hj
      rw [e]
      exact Mathlib.Vector.get_set_of_ne (Ne.symm hj) _
  · intro hall
    unfold spawn
    dsimp only
    rw [forReturn_all_next]
    · show Game.enemigo (if _ then _ else _) = _
      split <;> rfl
    · intro j _
      have : (g.enemigo.get j).existe = true := hall j
      split <;> simp [this]
  · intro hdead
    have e : (spawn cfg g).aliado = { g.aliado with
        x := s8 (Int.tdiv cfg.WELL_WIDTH 2 - 1), y := s8 (cfg.WELL_HEIGHT - 2),
        existe := true } := by
      unfold spawn
      dsimp only
      rw [hal, if_pos hdead]
    refine ⟨e, fun hr => ?_⟩
    rw [e, s8_of_range _ hr.1 hr.2.1, s8_of_range _ hr.2.2.1 hr.2.2.2]
  · intro halive
    unfold spawn
    dsimp only
    rw [hal, if_neg (by simp [halive])]

/-- Witness for C16: right after `inicializar` all enemies and the player are
inactive; `spawn` activates enemy 0 at (1, 4), leaves enemy 1 inactive, and
puts the player at (9, 20) in a well 20 wide and 22 high. -/
theorem spawn_reactivates_lowest_witness :
    (∃ i : Fin 4, ((inicializar cfg0 boot).enemigo.get i).existe = false) ∧
    (inicializar cfg0 boot).aliado.existe = false ∧
    (spawn cfg0 (inicializar cfg0 boot)).aliado = { i := 4, x := 9, y := 20, existe := true } := by
  have h := spawn_reactivates_lowest cfg0 (inicializar cfg0 boot)
  have ha := (h.2.2.1 (by decide)).1
  refine ⟨⟨0, by decide⟩, by decide, ?_⟩
  rw [ha]
  decide

/-! ## Player against obstacles and enemies -/

theorem forReturn_ite {ι σ : Type} (body : ι → σ → Flow σ) (c : ι → Prop) [DecidablePred c]
    (s r : σ) :
    ∀ l : List ι, (∀ i ∈ l, body i s = if c i then Flow.ret r else Flow.next s) →
      forReturn body l s = if ∃ i ∈ l, c i then Flow.ret r else Flow.next s := by
  intro l
  induction l with
  | nil => intro _; simp [forReturn]
  | cons i rest ih =>
    intro h
    unfold forReturn
    rw [h i (List.mem_cons_self i rest)]
    by_cases hc : c i
    · simp [hc]
    · simp only [hc, if_false]
      rw [ih (fun j hj => h j (List.mem_cons_of_mem i hj))]
      simp [hc]

theorem sub32_ne_self (v : Nat) : sub32 v 1 ≠ v := by
  simp only [sub32, U32]
  omega

/-- C19: `check_collisions_rocas` deactivates the player and decrements lives
iff some obstacle cell lies on the player's row in columns
player.x .. player.x + 2, or one row above the player in column player.x + 1.
In that case the lives go down by exactly 1 (as a `u32`; by 1 exactly when
they were not 0) however many obstacles match and nothing else changes; when
no obstacle matches the state is unchanged. -/
theorem check_collisions_rocas_spec (g : Game) :
    ((∃ i : Fin 3, roca_on_player g.aliado (g.rocas.get i)) →
      check_collisions_rocas g = { g with
        aliado := { g.aliado with existe := false }, vidas := sub32 g.vidas 1 } ∧
      (0 < g.vidas ∧ g.vidas < U32 → (check_collisions_rocas g).vidas = g.vidas - 1)) ∧
    ((¬ ∃ i : Fin 3, roca_on_player g.aliado (g.rocas.get i)) →
      check_collisions_rocas g = g) ∧
    ((check_collisions_rocas g).vidas ≠ g.vidas ↔
      ∃ i : Fin 3, roca_on_player g.aliado (g.rocas.get i)) := by
  have key : check_collisions_rocas g =
      (if ∃ i ∈ slots3, roca_on_player g.aliado (g.rocas.get i) then
        Flow.ret { g with aliado := { g.aliado with existe := false }, vidas := sub32 g.vidas 1 }
      else Flow.next g).state := by
    unfold check_collisions_rocas
    rw [forReturn_ite _ (fun i => roca_on_player g.aliado (g.rocas.get i))]
    intro i _
    unfold roca_on_player
    dsimp only
    by_cases h1 : g.aliado.y = (g.rocas.get i).y ∧ (g.aliado.x = (g.rocas.get i).x
        ∨ g.aliado.x + 1 = (g.rocas.get i).x ∨ g.aliado.x + 2 = (g.rocas.get i).x)
    · rw [if_pos h1, if_pos]
      left
      omega
    · rw [if_neg h1]
      by_cases h2 : g.aliado.y - 1 = (g.rocas.get i).y ∧ g.aliado.x + 1 = (g.rocas.get i).x
      · rw [if_pos h2, if_pos]
        right
        omega
      · rw [if_neg h2, if_neg]
        omega
  have hmem : (∃ i ∈ slots3, roca_on_player g.aliado (g.rocas.get i)) ↔
      ∃ i : Fin 3, roca_on_player g.aliado (g.rocas.get i) := by
    constructor
    · rintro ⟨i, _, h⟩
      exact ⟨i, h⟩
    · rintro ⟨i, h⟩
      refine ⟨i, ?_, h⟩
      fin_cases i <;> simp [slots3]
  have hpos : (∃ i : Fin 3, roca_on_player g.aliado (g.rocas.get i)) →
      check_collisions_rocas g = { g with
        aliado := { g.aliado with existe := false }, vidas := sub32 g.vidas 1 } := by
    intro h
    rw [key, if_pos (hmem.2 h)]
    rfl
  have hneg : (¬ ∃ i : Fin 3, roca_on_player g.aliado (g.rocas.get i)) →
      check_collisions_rocas g = g := by
    intro h
    rw [key, if_neg (fun h2 => h (hmem.1 h2))]
    rfl
  refine ⟨?_, hneg, ?_⟩
  · intro h
    refine ⟨hpos h, fun hv => ?_⟩
    rw [hpos h]
    exact sub32_one_of_pos _ hv.1 hv.2
  · by_cases h : ∃ i : Fin 3, roca_on_player g.aliado (g.rocas.get i)
    · rw [hpos h]
      simp only [h, iff_true]
      exact sub32_ne_self _
    · rw [hneg h]
      simp [h]

/-- Witness for C19: obstacle 0 on the cell right of the player's left cell
takes one of the three lives and deactivates the player. -/
theorem check_collisions_rocas_spec_witness :
    (∃ i : Fin 3, roca_on_player roca_hit.aliado (roca_hit.rocas.get i)) ∧
    (check_collisions_rocas roca_hit).aliado.existe = false ∧
    (check_collisions_rocas roca_hit).vidas = 2 := by
  have h := (check_collisions_rocas_spec roca_hit).1 ⟨0, by decide⟩
  refine ⟨⟨0, by decide⟩, ?_, ?_⟩
  · rw [h.1]
  · rw [h.2 (by decide)]
    decide

theorem forReturn_next_eq {ι σ : Type} (body : ι → σ → Flow σ)
    (hb : ∀ i t u, body i t = Flow.next u → u = t) :
    ∀ (l : List ι) (s u : σ), forReturn body l s = Flow.next u → u = s := by
  intro l
  induction l with
  | nil =>
    intro s u h
    cases h
    rfl
  | cons i rest ih =>
    intro s u h
    unfold forReturn at h
    cases hbody : body i s with
    | ret r => rw [hbody] at h; cases h
    | next t =>
      rw [hbody] at h
      have e1 := hb i s t hbody
      have e2 := ih t u h
      rw [e2, e1]

/-- When the projectile scan of `check_collisions` falls through, it hands on
the state it was given. -/
theorem check_collisions_balas_next (g g1 : Game)
    (h : check_collisions_balas g = Flow.next g1) : g1 = g := by
  unfold check_collisions_balas at h
  refine forReturn_next_eq _ ?_ _ _ _ h
  intro lyd t u hb
  split at hb
  · refine forReturn_next_eq _ ?_ _ _ _ hb
    intro xd t2 u2 hb2
    split at hb2
    · split at hb2
      · cases hb2
      · cases hb2; rfl
    · cases hb2; rfl
  · cases hb; rfl

/-- The two inner loops of the player scan of `check_collisions`, for enemy
slot `xd`: they leave the function iff the two footprints overlap. -/
theorem aliado_scan_enemy (g : Game) (xd : Fin 4) :
    forReturn (fun (w : Int) (g : Game) =>
      if g.aliado.y + w = (g.enemigo.get xd).y
          ∨ g.aliado.y + w = (g.enemigo.get xd).y + 1 then
        forReturn (fun (z : Int) (g : Game) =>
          if g.aliado.x + z = (g.enemigo.get xd).x
              ∨ g.aliado.x + z = (g.enemigo.get xd).x + 1
              ∨ g.aliado.x + z = (g.enemigo.get xd).x + 2 then
            Flow.ret { g with
              aliado := { g.aliado with existe := false }
              enemigo := g.enemigo.set xd { g.enemigo.get xd with existe := false }
              vidas := sub32 g.vidas 1 }
          else Flow.next g) [0, 1, 2] g
      else Flow.next g) [0, 1] g
    = if footprints_overlap g.aliado (g.enemigo.get xd) then
        Flow.ret { g with
          aliado := { g.aliado with existe := false }
          enemigo := g.enemigo.set xd { g.enemigo.get xd with existe := false }
          vidas := sub32 g.vidas 1 }
      else Flow.next g := by
  rw [forReturn_ite _ (fun w : Int =>
    (g.aliado.y + w = (g.enemigo.get xd).y ∨ g.aliado.y + w = (g.enemigo.get xd).y + 1) ∧
    ∃ z ∈ ([0, 1, 2] : List Int), (g.aliado.x + z = (g.enemigo.get xd).x
      ∨ g.aliado.x + z = (g.enemigo.get xd).x + 1
      ∨ g.aliado.x + z = (g.enemigo.get xd).x + 2)) g
    ({ g with
      aliado := { g.aliado with existe := false }
      enemigo := g.enemigo.set xd { g.enemigo.get xd with existe := false }
      vidas := sub32 g.vidas 1 } : Game)]
  · have hiff : (∃ w ∈ ([0, 1] : List Int),
        (g.aliado.y + w = (g.enemigo.get xd).y ∨ g.aliado.y + w = (g.enemigo.get xd).y + 1) ∧
        ∃ z ∈ ([0, 1, 2] : List Int), (g.aliado.x + z = (g.enemigo.get xd).x
          ∨ g.aliado.x + z = (g.enemigo.get xd).x + 1
          ∨ g.aliado.x + z = (g.enemigo.get xd).x + 2)) ↔
        footprints_overlap g.aliado (g.enemigo.get xd) := by
      unfold footprints_overlap
      rw [abs_le, abs_le]
      simp only [List.mem_cons, List.mem_singleton, List.not_mem_nil, or_false,
        exists_eq_or_imp, exists_eq_left]
      omega
    by_cases h : footprints_overlap g.aliado (g.enemigo.get xd)
    · rw [if_pos (hiff.2 h), if_pos h]
    · rw [if_neg (fun h2 => h (hiff.1 h2)), if_neg h]
  · intro w _
    dsimp only
    rw [forReturn_ite _ (fun z : Int => g.aliado.x + z = (g.enemigo.get xd).x
      ∨ g.aliado.x + z = (g.enemigo.get xd).x + 1
      ∨ g.aliado.x + z = (g.enemigo.get xd).x + 2) g
      ({ g with
      aliado := { g.aliado with existe := false }
      enemigo := g.enemigo.set xd { g.enemigo.get xd with existe := false }
      vidas := sub32 g.vidas 1 } : Game)]
    · split_ifs <;> simp_all
    · intro z _
      rfl

/-- The player scan of `check_collisions` when enemy slot `xd` is the lowest
one whose footprint overlaps the player's. -/
theorem check_collisions_aliado_first (g : Game) (xd : Fin 4)
    (hhit : footprints_overlap g.aliado (g.enemigo.get xd))
    (hfirst : ∀ j : Fin 4, j < xd → ¬ footprints_overlap g.aliado (g.enemigo.get j)) :
    check_collisions_aliado g = Flow.ret { g with
      aliado := { g.aliado with existe := false }
      enemigo := g.enemigo.set xd { g.enemigo.get xd with existe := false }
      vidas := sub32 g.vidas 1 } := by
  unfold check_collisions_aliado
  refine forReturn_slots4_first _ _ _ xd ?_ ?_
  · intro j hj
    dsimp only
    rw [aliado_scan_enemy g j, if_neg (hfirst j hj)]
  · dsimp only
    rw [aliado_scan_enemy g xd, if_pos hhit]

/-- The player scan of `check_collisions` when no enemy slot overlaps the
player. -/
theorem check_collisions_aliado_none (g : Game)
    (hno : ∀ j : Fin 4, ¬ footprints_overlap g.aliado (g.enemigo.get j)) :
    check_collisions_aliado g = Flow.next g := by
  unfold check_collisions_aliado
  refine forReturn_all_next _ _ _ ?_
  intro j _
  dsimp only
  rw [aliado_scan_enemy g j, if_neg (hno j)]

/-- C18: when the projectile-versus-enemy scan of `check_collisions` finds no
match, the player-versus-enemy scan reports a hit iff for some enemy slot
|player.x - enemy.x| <= 2 and |player.y - enemy.y| <= 1.  On a hit
`check_collisions` deactivates the player and the lowest-index such enemy and
decrements lives by exactly 1 (as a `u32`; by 1 exactly when they were not 0)
with the score and everything else unchanged; with no hit the whole state is
unchanged. -/
theorem check_collisions_player_scan (g : Game)
    (hno : ∃ g1, check_collisions_balas g = Flow.next g1) :
    ((∃ r, check_collisions_aliado g = Flow.ret r) ↔
      ∃ xd : Fin 4, footprints_overlap g.aliado (g.enemigo.get xd)) ∧
    ((∃ xd : Fin 4, footprints_overlap g.aliado (g.enemigo.get xd)) →
      ∃ xd : Fin 4,
        (footprints_overlap g.aliado (g.enemigo.get xd) ∧
          ∀ j : Fin 4, j < xd → ¬ footprints_overlap g.aliado (g.enemigo.get j)) ∧
        check_collisions g = { g with
          aliado := { g.aliado with existe := false }
          enemigo := g.enemigo.set xd { g.enemigo.get xd with existe := false }
          vidas := sub32 g.vidas 1 } ∧
        (check_collisions g).score = g.score ∧
        (0 < g.vidas ∧ g.vidas < U32 → (check_collisions g).vidas = g.vidas - 1)) ∧
    ((¬ ∃ xd : Fin 4, footprints_overlap g.aliado (g.enemigo.get xd)) →
      check_collisions g = g) := by
  obtain ⟨g1, hg1⟩ := hno
  have e1 : g1 = g := check_collisions_balas_next g g1 hg1
  rw [e1] at hg1
  have hcc : check_collisions g = (check_collisions_aliado g).state := by
    unfold check_collisions
    rw [hg1]
  have hfirst : (∃ xd : Fin 4, footprints_overlap g.aliado (g.enemigo.get xd)) →
      ∃ xd : Fin 4,
        (footprints_overlap g.aliado (g.enemigo.get xd) ∧
          ∀ j : Fin 4, j < xd → ¬ footprints_overlap g.aliado (g.enemigo.get j)) := by
    intro h
    exact exists_lowest_fin4 (fun xd => footprints_overlap g.aliado (g.enemigo.get xd)) h
  refine ⟨?_, ?_, ?_⟩
  · constructor
    · rintro ⟨r, hr⟩
      by_contra hcon
      rw [check_collisions_aliado_none g (fun j hj => hcon ⟨j, hj⟩)] at hr
      cases hr
    · intro h
      obtain ⟨xd, hx, hlow⟩ := hfirst h
      exact ⟨_, check_collisions_aliado_first g xd hx hlow⟩
  · intro h
    obtain ⟨xd, hx, hlow⟩ := hfirst h
    have e : check_collisions g = { g with
          aliado := { g.aliado with existe := false }
          enemigo := g.enemigo.set xd { g.enemigo.get xd with existe := false }
          vidas := sub32 g.vidas 1 } := by
      rw [hcc, check_collisions_aliado_first g xd hx hlow]
      rfl
    refine ⟨xd, ⟨hx, hlow⟩, e, ?_, ?_⟩
    · rw [e]
    · intro hv
      rw [e]
      exact sub32_one_of_pos _ hv.1 hv.2
  · intro h
    rw [hcc, check_collisions_aliado_none g (fun j hj => h ⟨j, hj⟩)]
    rfl

/-- Witness for C18: in `enemy_on_player` no projectile is in flight and enemy
1 has come down onto the player; the player and enemy 1 are deactivated and
one of the three lives is taken. -/
theorem check_collisions_player_scan_witness :
    (∃ g1, check_collisions_balas enemy_on_player = Flow.next g1) ∧
    (∃ xd : Fin 4, footprints_overlap enemy_on_player.aliado (enemy_on_player.enemigo.get xd)) ∧
    (check_collisions enemy_on_player).aliado.existe = false ∧
    ((check_collisions enemy_on_player).enemigo.get 1).existe = false ∧
    (check_collisions enemy_on_player).vidas = 2 := by
  have hno : ∃ g1, check_collisions_balas enemy_on_player = Flow.next g1 :=
    ⟨enemy_on_player, by decide⟩
  have hex : ∃ xd : Fin 4,
      footprints_overlap enemy_on_player.aliado (enemy_on_player.enemigo.get xd) :=
    ⟨1, by decide⟩
  obtain ⟨xd, hx, e, _, hv⟩ := (check_collisions_player_scan enemy_on_player hno).2.1 hex
  have hxd : xd = 1 := by
    by_contra hne
    have h0 : xd = 0 ∨ xd = 2 ∨ xd = 3 := by omega
    rcases h0 with h | h | h
    · rw [h] at hx
      exact absurd hx.1 (by decide)
    · rw [h] at hx
      exact absurd (by decide) (hx.2 1 (by decide))
    · rw [h] at hx
      exact absurd (by decide) (hx.2 1 (by decide))
  refine ⟨hno, hex, ?_, ?_, ?_⟩
  · rw [e]
  · rw [e, hxd]
    exact congrArg Nave.existe (Mathlib.Vector.get_set_same _ _ _)
  · rw [hv (by decide)]
    decide

/-! ## The level-2 lane test -/

theorem u32_of_nonneg (x : Int) (h0 : 0 ≤ x) (h1 : x < 4294967296) : (u32 x : Int) = x := by
  unfold u32
  rw [Int.emod_eq_of_lt h0 h1]
  exact Int.toNat_of_nonneg h0

/-- What the condition of `collide2` amounts to for a signed 8-bit `x` and a
track offset `p = position[1]` below 2^31: the lane test of the
specification, except at `x = -1`, which the unsigned comparisons let
through. -/
theorem collide2_true_iff (cfg : Config) (x y : Int) (g : Game)
    (hx : -128 ≤ x ∧ x ≤ 127) (hp : g.position.get 1 < 2147483648) :
    (collide2 cfg x y g).1 = true ↔
      (x ≠ -1 ∧ (x < (g.position.get 1 : Int) + 1 ∨ x > (g.position.get 1 : Int) + 8))
        ∨ y ≤ 0 ∨ y ≥ cfg.WELL_HEIGHT := by
  have hcond : (u32 x < (g.position.get 1 + 1) % U32 ∨ u32 (x + 1) > (g.position.get 1 + 9) % U32)
      ↔ (x ≠ -1 ∧ (x < (g.position.get 1 : Int) + 1 ∨ x > (g.position.get 1 : Int) + 8)) := by
    generalize g.position.get 1 = p at hp
    simp only [u32, U32]
    omega
  unfold collide2
  by_cases hc : u32 x < (g.position.get 1 + 1) % U32 ∨ u32 (x + 1) > (g.position.get 1 + 9) % U32
  · have h1 := hcond.1 hc
    have h2 : u32 x < (g.position.get 1 + 1) % U32 ∨ u32 (x + 1) > (g.position.get 1 + 9) % U32
        ∨ y ≤ 0 ∨ y ≥ cfg.WELL_HEIGHT := by
      rcases hc with h | h
      · exact Or.inl h
      · exact Or.inr (Or.inl h)
    rw [if_pos h2]
    simp only [true_iff]
    exact Or.inl h1
  · have hn : ¬ (x ≠ -1 ∧ (x < (g.position.get 1 : Int) + 1 ∨ x > (g.position.get 1 : Int) + 8)) :=
      fun h => hc (hcond.2 h)
    by_cases hy : y ≤ 0 ∨ y ≥ cfg.WELL_HEIGHT
    · have h2 : u32 x < (g.position.get 1 + 1) % U32 ∨ u32 (x + 1) > (g.position.get 1 + 9) % U32
          ∨ y ≤ 0 ∨ y ≥ cfg.WELL_HEIGHT := by
        rcases hy with h | h
        · exact Or.inr (Or.inr (Or.inl h))
        · exact Or.inr (Or.inr (Or.inr h))
      rw [if_pos h2]
      simp only [true_iff]
      exact Or.inr hy
    · have h2 : ¬ (u32 x < (g.position.get 1 + 1) % U32
          ∨ u32 (x + 1) > (g.position.get 1 + 9) % U32 ∨ y ≤ 0 ∨ y ≥ cfg.WELL_HEIGHT) := by
        intro h
        rcases h with h | h | h | h
        · exact hc (Or.inl h)
        · exact hc (Or.inr h)
        · exact hy (Or.inl h)
        · exact hy (Or.inr h)
      rw [if_neg h2]
      simp only [Bool.false_eq_true, false_iff]
      intro h
      rcases h with h | h
      · exact hn h
      · exact hy h

/-- The effect of `collide2`: when it returns true it deactivates the player
and decrements lives by 1 (as a `u32`), when it returns false it changes
nothing. -/
theorem collide2_effect (cfg : Config) (x y : Int) (g : Game) :
    ((collide2 cfg x y g).1 = true →
      (collide2 cfg x y g).2 = { g with
        aliado := { g.aliado with existe := false }, vidas := sub32 g.vidas 1 }) ∧
    ((collide2 cfg x y g).1 = false → (collide2 cfg x y g).2 = g) := by
  by_cases hc : u32 x < (g.position.get 1 + 1) % U32 ∨ u32 (x + 1) > (g.position.get 1 + 9) % U32
      ∨ y ≤ 0 ∨ y ≥ cfg.WELL_HEIGHT
  · have e : collide2 cfg x y g = (true, { g with
        aliado := { g.aliado with existe := false }, vidas := sub32 g.vidas 1 }) := by
      unfold collide2
      rw [if_pos hc]
    rw [e]
    exact ⟨fun _ => rfl, fun h => by cases h⟩
  · have e : collide2 cfg x y g = (false, g) := by
      unfold collide2
      rw [if_neg hc]
    rw [e]
    exact ⟨fun h => (by cases h), fun _ => rfl⟩

theorem slotsFrom_20_0_20 : slotsFrom 20 0 20
    = [0, 1, 2, 3, 4, 5, 6, 7, 8, 9, 10, 11, 12, 13, 14, 15, 16, 17, 18, 19] := by
  decide

theorem slotsFrom_20_0_19 : slotsFrom 20 0 19
    = [0, 1, 2, 3, 4, 5, 6, 7, 8, 9, 10, 11, 12, 13, 14, 15, 16, 17, 18] := by
  decide

theorem slotsFrom_20_0_11 : slotsFrom 20 0 11 = [0, 1, 2, 3, 4, 5, 6, 7, 8, 9, 10] := by
  decide

theorem slotsFrom_20_11_20 : slotsFrom 20 11 20 = [11, 12, 13, 14, 15, 16, 17, 18, 19] := by
  decide

/-- The position of a state after a loop whose body only writes `position`
is the result of the same loop run on the track alone. -/
theorem forEach_position {ι : Type} (f : ι → Mathlib.Vector Nat 20 → Mathlib.Vector Nat 20) :
    ∀ (l : List ι) (g : Game),
      (forEach (fun i (g : Game) => { g with position := f i g.position }) l g).position
        = forEach f l g.position := by
  intro l
  induction l with
  | nil => intro g; rfl
  | cons i rest ih =>
    intro g
    simp only [forEach]
    exact ih _

/-- The copy loop of `update2` into `temp_position` copies the whole track. -/
theorem temp_position_copy (v : Mathlib.Vector Nat 20) :
    forEach (fun (lyd : Fin 20) (t : Mathlib.Vector Nat 20) => t.set lyd (v.get lyd))
      (slotsFrom 20 0 20) (Mathlib.Vector.replicate 20 0) = v := by
  apply Mathlib.Vector.ext
  intro i
  rw [slotsFrom_20_0_20]
  simp only [forEach, Mathlib.Vector.get_set_eq_if]
  fin_cases i <;> simp

/-- The shift loop of `update2` and the store to `position[19]`. -/
theorem track_shift (v t : Mathlib.Vector Nat 20) (i : Fin 20) :
    ((forEach (fun (lyd : Fin 20) (p : Mathlib.Vector Nat 20) => p.set lyd (t.get (lyd + 1)))
      (slotsFrom 20 0 19) v).set 19 (t.get 0)).get i = t.get (i + 1) := by
  rw [slotsFrom_20_0_19]
  simp only [forEach, Mathlib.Vector.get_set_eq_if]
  fin_cases i <;> simp

theorem move_enemigo_position (cfg : Config) (dx dy : Int) (lol : Fin 4) (g : Game) :
    (move_enemigo cfg dx dy lol g).2.position = g.position := by
  unfold move_enemigo
  split
  · rfl
  · split <;> rfl

theorem move_rocas_position (cfg : Config) (dx dy : Int) (lol : Fin 3) (g : Game) :
    (move_rocas cfg dx dy lol g).2.position = g.position := by
  unfold move_rocas
  split
  · rfl
  · split <;> rfl

theorem spawn2_position (cfg : Config) (g : Game) :
    (spawn2 cfg g).position = g.position := by
  unfold spawn2
  dsimp only
  refine forEach_inv (fun s : Game => s.position = g.position) _ ?_ _ _ ?_
  · intro i s hs
    dsimp only
    split
    · exact hs
    · exact hs
  · split <;> rfl

/-- The track after `update2`, cell by cell. -/
theorem update2_position_get (cfg : Config) (g : Game) (i : Fin 20) :
    (update2 cfg g).position.get i = g.position.get (i + 1) := by
  unfold update2
  dsimp only
  rw [spawn2_position]
  dsimp only
  generalize hg2 : forEach (fun (lyd : Fin 3) (g : Game) => _) slots3 _ = g2
  have hp : g2.position = g.position := by
    rw [← hg2]
    refine forEach_inv (fun s : Game => s.position = g.position) _ ?_ _ _ ?_
    · intro j s hs
      dsimp only
      split
      · exact (move_rocas_position _ _ _ _ _).trans hs
      · exact (move_rocas_position _ _ _ _ _).trans hs
    · refine forEach_inv (fun s : Game => s.position = g.position) _ ?_ _ _ rfl
      intro j s hs
      dsimp only
      split
      · exact (move_enemigo_position _ _ _ _ _).trans hs
      · exact (move_enemigo_position _ _ _ _ _).trans hs
  rw [temp_position_copy, forEach_position (fun lyd p => p.set lyd (g2.position.get (lyd + 1))),
    track_shift, hp]

theorem update2_iterate_position_get (cfg : Config) (g : Game) (n : Nat) (i : Fin 20) :
    ((update2 cfg)^[n] g).position.get i = g.position.get (i + (n : Fin 20)) := by
  induction n generalizing i with
  | zero => simp
  | succ n ih =>
    rw [Function.iterate_succ_apply', update2_position_get, ih]
    congr 1
    push_cast
    ring

theorem toList_eq_rotate (v w : Mathlib.Vector Nat 20) (n : Nat)
    (h : ∀ i : Fin 20, w.get i = v.get (i + (n : Fin 20))) :
    w.toList = v.toList.rotate n := by
  apply List.ext_getElem
  · simp
  · intro j h1 h2
    have hj : j < 20 := by simpa using h1
    rw [List.getElem_rotate]
    have := h ⟨j, hj⟩
    simp only [Mathlib.Vector.get_eq_get] at this
    simp only [List.get_eq_getElem] at this
    convert this using 2
    simp [Fin.val_add, Fin.val_natCast]

/-- C14: `update2` rotates the 20-entry scroll track left by exactly one
position, new[i] = old[(i + 1) mod 20] for every i in 0..19.  Consequently
after any number of `update2` calls the track is a rotation of the contents
set by `inicializar2` (so a permutation of them), and 20 consecutive `update2`
calls restore the track exactly. -/
theorem update2_rotates_track (cfg : Config) (g : Game) :
    (∀ i : Fin 20,
      (update2 cfg g).position.get i = g.position.get ⟨(i.val + 1) % 20, Nat.mod_lt _ (by decide)⟩) ∧
    (∀ n : Nat,
      List.IsRotated (inicializar2 cfg g).position.toList
        ((update2 cfg)^[n] (inicializar2 cfg g)).position.toList ∧
      List.Perm ((update2 cfg)^[n] (inicializar2 cfg g)).position.toList
        (inicializar2 cfg g).position.toList) ∧
    ((update2 cfg)^[20] g).position = g.position := by
  refine ⟨?_, ?_, ?_⟩
  · intro i
    rw [update2_position_get]
    congr 1
  · intro n
    have hr : List.IsRotated (inicializar2 cfg g).position.toList
        ((update2 cfg)^[n] (inicializar2 cfg g)).position.toList :=
      ⟨n, (toList_eq_rotate _ _ n (update2_iterate_position_get cfg _ n)).symm⟩
    exact ⟨hr, hr.perm.symm⟩
  · apply Mathlib.Vector.ext
    intro i
    rw [update2_iterate_position_get]
    congr 1
    simp

/-- Witness for C14: the track of `lane_start` one update later and twenty
updates later. -/
theorem update2_rotates_track_witness :
    (update2 cfg0 lane_start).position.get 0 = lane_start.position.get 1 ∧
    ((update2 cfg0)^[20] lane_start).position = lane_start.position :=
  ⟨(update2_rotates_track cfg0 lane_start).1 0, (update2_rotates_track cfg0 lane_start).2.2⟩

/-! ## Obstacles in `update2` -/

theorem forEach_proj {ι σ τ : Type} (π : σ → τ) (body : ι → σ → σ) (H : ι → τ → τ)
    (h : ∀ i s, π (body i s) = H i (π s)) :
    ∀ (l : List ι) (s : σ), π (forEach body l s) = forEach H l (π s) := by
  intro l
  induction l with
  | nil => intro s; rfl
  | cons i rest ih =>
    intro s
    simp only [forEach]
    rw [ih, h]

/-- One pass of the obstacle loop of `update2` on the obstacle pool and the
score. -/
theorem update2_roca_body (cfg : Config) (lyd : Fin 3) (g : Game) :
    (let r := move_rocas cfg 0 1 lyd g
     if !r.1 then
       { r.2 with
         score := (r.2.score + 1) % U32
         rocas := r.2.rocas.set lyd { r.2.rocas.get lyd with existe := false } }
     else r.2)
    = if (g.rocas.get lyd).existe = true
          ∧ collide cfg (s8 ((g.rocas.get lyd).x + 0)) (s8 ((g.rocas.get lyd).y + 1)) = false then
        { g with rocas := g.rocas.set lyd { g.rocas.get lyd with
            x := s8 ((g.rocas.get lyd).x + 0), y := s8 ((g.rocas.get lyd).y + 1) } }
      else
        { g with
          score := (g.score + 1) % U32
          rocas := g.rocas.set lyd { g.rocas.get lyd with existe := false } } := by
  unfold move_rocas
  simp only [add_zero]
  by_cases h1 : (g.rocas.get lyd).existe = true
  · by_cases h2 : collide cfg (s8 (g.rocas.get lyd).x) (s8 ((g.rocas.get lyd).y + 1)) = true
    · simp [h1, h2]
    · simp [h1, h2]
  · simp [h1]

/-- A loop over the three obstacle slots that rewrites slot `i` by `mv` when
the test `c` holds for it and by `kill`, counting one more, when it does not:
every slot is rewritten from its own old value and the counter grows by the
number of failed tests. -/
theorem forEach_pool3 (c : Bala → Prop) [DecidablePred c] (mv kill : Bala → Bala)
    (v : Mathlib.Vector Bala 3) (sc : Nat) (hsc : sc < U32) :
    (∀ i : Fin 3,
      (forEach (fun (i : Fin 3) (p : Mathlib.Vector Bala 3 × Nat) =>
        if c (p.1.get i) then (p.1.set i (mv (p.1.get i)), p.2)
        else (p.1.set i (kill (p.1.get i)), (p.2 + 1) % U32)) slots3 (v, sc)).1.get i
      = if c (v.get i) then mv (v.get i) else kill (v.get i)) ∧
    (forEach (fun (i : Fin 3) (p : Mathlib.Vector Bala 3 × Nat) =>
        if c (p.1.get i) then (p.1.set i (mv (p.1.get i)), p.2)
        else (p.1.set i (kill (p.1.get i)), (p.2 + 1) % U32)) slots3 (v, sc)).2
      = (sc + (slots3.filter (fun i => decide (¬ c (v.get i)))).length) % U32 := by
  have e01 : ∀ (w : Mathlib.Vector Bala 3) (b : Bala), (w.set 0 b).get 1 = w.get 1 :=
    fun w b => Mathlib.Vector.get_set_of_ne (by decide) b
  have e02 : ∀ (w : Mathlib.Vector Bala 3) (b : Bala), (w.set 0 b).get 2 = w.get 2 :=
    fun w b => Mathlib.Vector.get_set_of_ne (by decide) b
  have e12 : ∀ (w : Mathlib.Vector Bala 3) (b : Bala), (w.set 1 b).get 2 = w.get 2 :=
    fun w b => Mathlib.Vector.get_set_of_ne (by decide) b
  have e10 : ∀ (w : Mathlib.Vector Bala 3) (b : Bala), (w.set 1 b).get 0 = w.get 0 :=
    fun w b => Mathlib.Vector.get_set_of_ne (by decide) b
  have e20 : ∀ (w : Mathlib.Vector Bala 3) (b : Bala), (w.set 2 b).get 0 = w.get 0 :=
    fun w b => Mathlib.Vector.get_set_of_ne (by decide) b
  have e21 : ∀ (w : Mathlib.Vector Bala 3) (b : Bala), (w.set 2 b).get 1 = w.get 1 :=
    fun w b => Mathlib.Vector.get_set_of_ne (by decide) b
  have ess : ∀ (w : Mathlib.Vector Bala 3) (i : Fin 3) (b : Bala), (w.set i b).get i = b :=
    fun w i b => Mathlib.Vector.get_set_same w i b
  have hU : U32 = 4294967296 := rfl
  rw [hU] at hsc
  by_cases h0 : c (v.get 0) <;> by_cases h1 : c (v.get 1) <;> by_cases h2 : c (v.get 2)
  all_goals
    refine ⟨fun i => ?_, ?_⟩
    · have hi : i = 0 ∨ i = 1 ∨ i = 2 := by omega
      rcases hi with e | e | e <;> rw [e] <;>
        simp only [forEach, slots3, h0, h1, h2, e01, e02, e12, e10, e20, e21, ess, if_true,
          if_false]
    · simp only [forEach, slots3, h0, h1, h2, e01, e02, e12, e10, e20, e21, ess, if_true,
        if_false, List.filter, not_true_eq_false, not_false_eq_true, decide_True, decide_False,
        List.length_cons, List.length_nil, hU]
      try omega

/-- The obstacle loop of `spawn2` on the obstacle pool: every inactive slot is
put at row 0 and activated, from its own old value. -/
theorem forEach_respawn3 (v : Mathlib.Vector Bala 3) (i : Fin 3) :
    (forEach (fun (lyd : Fin 3) (w : Mathlib.Vector Bala 3) =>
      if (w.get lyd).existe = false then
        w.set lyd { w.get lyd with y := 0, existe := true }
      else w) slots3 v).get i
    = if (v.get i).existe = false then { v.get i with y := 0, existe := true } else v.get i := by
  have e01 : ∀ (w : Mathlib.Vector Bala 3) (b : Bala), (w.set 0 b).get 1 = w.get 1 :=
    fun w b => Mathlib.Vector.get_set_of_ne (by decide) b
  have e02 : ∀ (w : Mathlib.Vector Bala 3) (b : Bala), (w.set 0 b).get 2 = w.get 2 :=
    fun w b => Mathlib.Vector.get_set_of_ne (by decide) b
  have e12 : ∀ (w : Mathlib.Vector Bala 3) (b : Bala), (w.set 1 b).get 2 = w.get 2 :=
    fun w b => Mathlib.Vector.get_set_of_ne (by decide) b
  have e10 : ∀ (w : Mathlib.Vector Bala 3) (b : Bala), (w.set 1 b).get 0 = w.get 0 :=
    fun w b => Mathlib.Vector.get_set_of_ne (by decide) b
  have e20 : ∀ (w : Mathlib.Vector Bala 3) (b : Bala), (w.set 2 b).get 0 = w.get 0 :=
    fun w b => Mathlib.Vector.get_set_of_ne (by decide) b
  have e21 : ∀ (w : Mathlib.Vector Bala 3) (b : Bala), (w.set 2 b).get 1 = w.get 1 :=
    fun w b => Mathlib.Vector.get_set_of_ne (by decide) b
  have ess : ∀ (w : Mathlib.Vector Bala 3) (i : Fin 3) (b : Bala), (w.set i b).get i = b :=
    fun w i b => Mathlib.Vector.get_set_same w i b
  have hi : i = 0 ∨ i = 1 ∨ i = 2 := by omega
  by_cases h0 : (v.get 0).existe = false <;> by_cases h1 : (v.get 1).existe = false <;>
    by_cases h2 : (v.get 2).existe = false
  all_goals
    rcases hi with e | e | e <;> rw [e] <;>
      simp only [forEach, slots3, h0, h1, h2, e01, e02, e12, e10, e20, e21, ess, if_true,
        if_false, Bool.true_eq_false]

theorem spawn2_rocas_get (cfg : Config) (g : Game) (i : Fin 3) :
    (spawn2 cfg g).rocas.get i
      = if (g.rocas.get i).existe = false then { g.rocas.get i with y := 0, existe := true }
        else g.rocas.get i := by
  unfold spawn2
  dsimp only
  generalize hg1 : (if g.aliado.existe = false then _ else g : Game) = g1
  have he : g1.rocas = g.rocas := by
    rw [← hg1]
    split <;> rfl
  rw [forEach_proj (fun s : Game => s.rocas) _
    (fun (lyd : Fin 3) (w : Mathlib.Vector Bala 3) =>
      if (w.get lyd).existe = false then
        w.set lyd { w.get lyd with y := 0, existe := true }
      else w), forEach_respawn3, he]
  intro j s
  dsimp only
  split <;> rfl

theorem spawn2_score (cfg : Config) (g : Game) : (spawn2 cfg g).score = g.score := by
  unfold spawn2
  dsimp only
  refine forEach_inv (fun s : Game => s.score = g.score) _ ?_ _ _ ?_
  · intro i s hs
    dsimp only
    split
    · exact hs
    · exact hs
  · split <;> rfl

theorem move_enemigo_rocas_score (cfg : Config) (dx dy : Int) (lol : Fin 4) (g : Game) :
    (move_enemigo cfg dx dy lol g).2.rocas = g.rocas ∧
    (move_enemigo cfg dx dy lol g).2.score = g.score := by
  unfold move_enemigo
  split
  · exact ⟨rfl, rfl⟩
  · split <;> exact ⟨rfl, rfl⟩

/-- The obstacle pool and the score after `update2`: `spawn2` applied after
the obstacle loop, which acts on the pool and the score alone. -/
theorem update2_pool (cfg : Config) (g : Game) :
    ∃ g4 : Game, update2 cfg g = spawn2 cfg g4 ∧
      (g4.rocas, g4.score) =
        forEach (fun (i : Fin 3) (p : Mathlib.Vector Bala 3 × Nat) =>
          if (p.1.get i).existe = true
              ∧ collide cfg (s8 ((p.1.get i).x + 0)) (s8 ((p.1.get i).y + 1)) = false then
            (p.1.set i { p.1.get i with
              x := s8 ((p.1.get i).x + 0), y := s8 ((p.1.get i).y + 1) }, p.2)
          else (p.1.set i { p.1.get i with existe := false }, (p.2 + 1) % U32))
          slots3 (g.rocas, g.score) := by
  unfold update2
  dsimp only
  refine ⟨_, rfl, ?_⟩
  dsimp only
  refine forEach_inv (fun s : Game => (s.rocas, s.score) = _) _ ?_ _ _ ?_
  · intro i s hs
    exact hs
  · dsimp only
    rw [forEach_proj (fun s : Game => (s.rocas, s.score)) _
      (fun (i : Fin 3) (p : Mathlib.Vector Bala 3 × Nat) =>
        if (p.1.get i).existe = true
            ∧ collide cfg (s8 ((p.1.get i).x + 0)) (s8 ((p.1.get i).y + 1)) = false then
          (p.1.set i { p.1.get i with
            x := s8 ((p.1.get i).x + 0), y := s8 ((p.1.get i).y + 1) }, p.2)
        else (p.1.set i { p.1.get i with existe := false }, (p.2 + 1) % U32))]
    · congr 1
      refine forEach_inv (fun s : Game => (s.rocas, s.score) = (g.rocas, g.score)) _ ?_ _ _ rfl
      intro i s hs
      dsimp only
      have hm := move_enemigo_rocas_score cfg 0 1 i s
      split
      · dsimp only
        rw [hm.1, hm.2]
        exact hs
      · rw [hm.1, hm.2]
        exact hs
    · intro i s
      have hb := update2_roca_body cfg i s
      dsimp only at hb
      dsimp only
      rw [hb]
      split <;> rfl

/-- For an obstacle with signed 8-bit coordinates in a well at most 128 rows
high, the test of the obstacle loop of `update2` is `roca_moves`, and the cell
it moves to is the one a row further down. -/
theorem roca_step_of_range (cfg : Config) (r : Bala)
    (hr : -128 ≤ r.x ∧ r.x ≤ 127 ∧ -128 ≤ r.y ∧ r.y ≤ 127) (hH : cfg.WELL_HEIGHT ≤ 128) :
    ((r.existe = true ∧ collide cfg (s8 (r.x + 0)) (s8 (r.y + 1)) = false) ↔ roca_moves cfg r) ∧
    (roca_moves cfg r → s8 (r.x + 0) = r.x ∧ s8 (r.y + 1) = r.y + 1) := by
  have hx : s8 (r.x + 0) = r.x := by
    rw [add_zero]
    exact s8_of_range _ hr.1 hr.2.1
  have hc : collide cfg r.x (s8 (r.y + 1)) = collide cfg r.x (r.y + 1) := by
    by_cases h : r.y = 127
    · have e1 : s8 (r.y + 1) = -128 := by rw [h]; decide
      rw [e1, h]
      unfold collide
      rw [if_pos (by right; right; left; omega), if_pos (by right; right; right; omega)]
    · rw [s8_of_range _ (by omega) (by omega)]
  rw [hx, hc]
  refine ⟨Iff.rfl, fun hm => ⟨rfl, ?_⟩⟩
  by_cases h : r.y = 127
  · exfalso
    have hm2 := hm.2
    rw [h] at hm2
    unfold collide at hm2
    rw [if_pos (by right; right; right; omega)] at hm2
    cases hm2
  · exact s8_of_range _ (by omega) (by omega)

/-- The obstacle pool and the score after `update2`, slot by slot, in terms of
the test and the two rewrites of the obstacle loop. -/
theorem update2_rocas_get_score (cfg : Config) (g : Game) (hsc : g.score < U32) :
    (∀ i : Fin 3, (update2 cfg g).rocas.get i =
      if ((if (g.rocas.get i).existe = true
              ∧ collide cfg (s8 ((g.rocas.get i).x + 0)) (s8 ((g.rocas.get i).y + 1)) = false then
            ({ g.rocas.get i with
              x := s8 ((g.rocas.get i).x + 0), y := s8 ((g.rocas.get i).y + 1) } : Bala)
          else { g.rocas.get i with existe := false }).existe = false) then
        { (if (g.rocas.get i).existe = true
              ∧ collide cfg (s8 ((g.rocas.get i).x + 0)) (s8 ((g.rocas.get i).y + 1)) = false then
            ({ g.rocas.get i with
              x := s8 ((g.rocas.get i).x + 0), y := s8 ((g.rocas.get i).y + 1) } : Bala)
          else { g.rocas.get i with existe := false }) with y := 0, existe := true }
      else
        (if (g.rocas.get i).existe = true
              ∧ collide cfg (s8 ((g.rocas.get i).x + 0)) (s8 ((g.rocas.get i).y + 1)) = false then
            ({ g.rocas.get i with
              x := s8 ((g.rocas.get i).x + 0), y := s8 ((g.rocas.get i).y + 1) } : Bala)
          else { g.rocas.get i with existe := false })) ∧
    (update2 cfg g).score = (g.score + (slots3.filter (fun i => decide (¬
      ((g.rocas.get i).existe = true
        ∧ collide cfg (s8 ((g.rocas.get i).x + 0)) (s8 ((g.rocas.get i).y + 1)) = false)))).length)
      % U32 := by
  obtain ⟨g4, hu, hp⟩ := update2_pool cfg g
  have hpool := forEach_pool3
    (fun r : Bala => r.existe = true ∧ collide cfg (s8 (r.x + 0)) (s8 (r.y + 1)) = false)
    (fun r : Bala => { r with x := s8 (r.x + 0), y := s8 (r.y + 1) })
    (fun r : Bala => { r with existe := false }) g.rocas g.score hsc
  dsimp only at hpool
  rw [← hp] at hpool
  dsimp only at hpool
  obtain ⟨hget, hscore⟩ := hpool
  refine ⟨fun i => ?_, ?_⟩
  · rw [hu, spawn2_rocas_get, hget i]
  · rw [hu, spawn2_score, hscore]

theorem update2_roca_moved (cfg : Config) (g : Game) (hsc : g.score < U32) (i : Fin 3)
    (hr : -128 ≤ (g.rocas.get i).x ∧ (g.rocas.get i).x ≤ 127 ∧
      -128 ≤ (g.rocas.get i).y ∧ (g.rocas.get i).y ≤ 127)
    (hH : cfg.WELL_HEIGHT ≤ 128) (hm : roca_moves cfg (g.rocas.get i)) :
    (update2 cfg g).rocas.get i = { g.rocas.get i with y := (g.rocas.get i).y + 1 } := by
  have hs := roca_step_of_range cfg (g.rocas.get i) hr hH
  rw [(update2_rocas_get_score cfg g hsc).1 i, if_pos (hs.1.2 hm)]
  dsimp only
  rw [if_neg (by rw [hm.1]; decide), (hs.2 hm).1, (hs.2 hm).2]

theorem update2_roca_rejected (cfg : Config) (g : Game) (hsc : g.score < U32) (i : Fin 3)
    (hr : -128 ≤ (g.rocas.get i).x ∧ (g.rocas.get i).x ≤ 127 ∧
      -128 ≤ (g.rocas.get i).y ∧ (g.rocas.get i).y ≤ 127)
    (hH : cfg.WELL_HEIGHT ≤ 128) (hm : ¬ roca_moves cfg (g.rocas.get i)) :
    (update2 cfg g).rocas.get i = { x := (g.rocas.get i).x, y := 0, existe := true } := by
  have hs := roca_step_of_range cfg (g.rocas.get i) hr hH
  rw [(update2_rocas_get_score cfg g hsc).1 i, if_neg (fun h => hm (hs.1.1 h))]
  dsimp only
  rw [if_pos rfl]

theorem update2_score_rejected (cfg : Config) (g : Game) (hsc : g.score < U32)
    (hwf : ∀ i : Fin 3, -128 ≤ (g.rocas.get i).x ∧ (g.rocas.get i).x ≤ 127 ∧
      -128 ≤ (g.rocas.get i).y ∧ (g.rocas.get i).y ≤ 127)
    (hH : cfg.WELL_HEIGHT ≤ 128) :
    (update2 cfg g).score = (g.score + rocas_rejected cfg g) % U32 := by
  have hf : slots3.filter (fun i => decide (¬
      ((g.rocas.get i).existe = true
        ∧ collide cfg (s8 ((g.rocas.get i).x + 0)) (s8 ((g.rocas.get i).y + 1)) = false)))
      = slots3.filter (fun i => decide (¬ roca_moves cfg (g.rocas.get i))) := by
    apply List.filter_congr
    intro i _
    have hs := roca_step_of_range cfg (g.rocas.get i) (hwf i) hH
    simp only [hs.1]
  rw [(update2_rocas_get_score cfg g hsc).2, hf]
  rfl

/-- C17: `update2` handles the obstacles as follows.  Each obstacle that is
active and whose destination one row down is within bounds moves down exactly
one row with its column unchanged; every other obstacle adds exactly 1 to the
score and is respawned at row 0 in the same column; so the score grows (as a
`u32`) by exactly the number of obstacles whose step was rejected, and after
`update2` all three obstacles are active.  The state is one of the C program:
obstacle coordinates are signed 8-bit values, the score is a `u32`, and the
well is at most 128 rows high. -/
theorem update2_obstacles (cfg : Config) (g : Game)
    (hwf : ∀ i : Fin 3, -128 ≤ (g.rocas.get i).x ∧ (g.rocas.get i).x ≤ 127 ∧
      -128 ≤ (g.rocas.get i).y ∧ (g.rocas.get i).y ≤ 127)
    (hH : cfg.WELL_HEIGHT ≤ 128) (hsc : g.score < U32) :
    (∀ i : Fin 3, roca_moves cfg (g.rocas.get i) →
      (update2 cfg g).rocas.get i = { g.rocas.get i with y := (g.rocas.get i).y + 1 }) ∧
    (∀ i : Fin 3, ¬ roca_moves cfg (g.rocas.get i) →
      (update2 cfg g).rocas.get i = { x := (g.rocas.get i).x, y := 0, existe := true }) ∧
    (update2 cfg g).score = (g.score + rocas_rejected cfg g) % U32 ∧
    (∀ i : Fin 3, ((update2 cfg g).rocas.get i).existe = true) := by
  refine ⟨fun i hm => update2_roca_moved cfg g hsc i (hwf i) hH hm,
    fun i hm => update2_roca_rejected cfg g hsc i (hwf i) hH hm,
    update2_score_rejected cfg g hsc hwf hH, fun i => ?_⟩
  by_cases hm : roca_moves cfg (g.rocas.get i)
  · rw [update2_roca_moved cfg g hsc i (hwf i) hH hm]
    exact hm.1
  · rw [update2_roca_rejected cfg g hsc i (hwf i) hH hm]

/-- Witness for C17: in `lane_bottom` obstacle 0 is on the last row (21 of a
well 22 high) and obstacles 1 and 2 are in mid-well: obstacle 0 is respawned at
row 0 for one point, the other two move down a row. -/
theorem update2_obstacles_witness :
    (update2 cfg0 lane_bottom).rocas.get 0 = { x := 5, y := 0, existe := true } ∧
    (update2 cfg0 lane_bottom).rocas.get 1 = { x := 13, y := 7, existe := true } ∧
    (update2 cfg0 lane_bottom).score = lane_bottom.score + 1 := by
  have h := update2_obstacles cfg0 lane_bottom (by decide) (by decide) (by decide)
  refine ⟨?_, ?_, ?_⟩
  · rw [h.2.1 0 (by decide)]
    decide
  · rw [h.1 1 (by decide)]
    decide
  · rw [h.2.2.1]
    decide

/-! ## The level change in `loop` -/

theorem tps_flags (sec tf : Nat) (g : Game) :
    (tps sec tf g).game_over = g.game_over ∧ (tps sec tf g).level2 = g.level2 := by
  unfold tps
  split <;> exact ⟨rfl, rfl⟩

theorem scan_flags (port : Nat) (g : Game) :
    (scan port g).2.game_over = g.game_over ∧ (scan port g).2.level2 = g.level2 := by
  unfold scan
  split <;> exact ⟨rfl, rfl⟩

theorem interval_flags (t : timer) (ms tf : Nat) (g : Game) :
    (interval t ms tf g).2.game_over = g.game_over ∧
    (interval t ms tf g).2.level2 = g.level2 := by
  unfold interval
  split <;> exact ⟨rfl, rfl⟩

theorem move_bichito_flags (cfg : Config) (dx dy : Int) (g : Game) :
    (move_bichito cfg dx dy g).2.game_over = g.game_over ∧
    (move_bichito cfg dx dy g).2.level2 = g.level2 := by
  unfold move_bichito
  split
  · exact ⟨rfl, rfl⟩
  · split <;> exact ⟨rfl, rfl⟩

theorem move_enemigo_flags (cfg : Config) (dx dy : Int) (lol : Fin 4) (g : Game) :
    (move_enemigo cfg dx dy lol g).2.game_over = g.game_over ∧
    (move_enemigo cfg dx dy lol g).2.level2 = g.level2 := by
  unfold move_enemigo
  split
  · exact ⟨rfl, rfl⟩
  · split <;> exact ⟨rfl, rfl⟩

theorem move_bala_flags (cfg : Config) (dx dy : Int) (lol : Fin 4) (g : Game) :
    (move_bala cfg dx dy lol g).2.game_over = g.game_over ∧
    (move_bala cfg dx dy lol g).2.level2 = g.level2 := by
  unfold move_bala
  split
  · exact ⟨rfl, rfl⟩
  · split <;> exact ⟨rfl, rfl⟩

theorem disparar_flags (g : Game) :
    (disparar g).game_over = g.game_over ∧ (disparar g).level2 = g.level2 := by
  unfold disparar
  refine forReturn_inv (fun s : Game => s.game_over = g.game_over ∧ s.level2 = g.level2)
    _ ?_ _ _ ⟨rfl, rfl⟩
  intro i s hs
  dsimp only
  split
  · exact hs
  · exact hs

theorem spawn_flags (cfg : Config) (g : Game) :
    (spawn cfg g).game_over = g.game_over ∧ (spawn cfg g).level2 = g.level2 := by
  unfold spawn
  dsimp only
  refine forReturn_inv (fun s : Game => s.game_over = g.game_over ∧ s.level2 = g.level2)
    _ ?_ _ _ ?_
  · intro i s hs
    dsimp only
    split
    · exact hs
    · exact hs
  · split <;> exact ⟨rfl, rfl⟩

theorem update_flags (cfg : Config) (g : Game) :
    (update cfg g).game_over = g.game_over ∧ (update cfg g).level2 = g.level2 := by
  unfold update
  generalize hF : forEach _ slots4 g = F
  have hFp : F.game_over = g.game_over ∧ F.level2 = g.level2 := by
    rw [← hF]
    refine forEach_inv (fun s : Game => s.game_over = g.game_over ∧ s.level2 = g.level2)
      _ ?_ _ _ ⟨rfl, rfl⟩
    intro i s hs
    dsimp only
    have hEp := move_enemigo_flags cfg 0 1 i s
    generalize move_enemigo cfg 0 1 i s = E at hEp ⊢
    generalize hG1 : (if (!E.1) = true then _ else E.2 : Game) = G1
    have hG1p : G1.game_over = E.2.game_over ∧ G1.level2 = E.2.level2 := by
      rw [← hG1]
      split <;> exact ⟨rfl, rfl⟩
    have hBp := move_bala_flags cfg 0 (-1) i G1
    generalize move_bala cfg 0 (-1) i G1 = B at hBp ⊢
    have hall : B.2.game_over = g.game_over ∧ B.2.level2 = g.level2 :=
      ⟨hBp.1.trans (hG1p.1.trans (hEp.1.trans hs.1)),
        hBp.2.trans (hG1p.2.trans (hEp.2.trans hs.2))⟩
    split
    · exact hall
    · exact hall
  have h := spawn_flags cfg F
  exact ⟨h.1.trans hFp.1, h.2.trans hFp.2⟩

theorem advance_pos_flags (g : Game) :
    (advance_pos g).game_over = g.game_over ∧ (advance_pos g).level2 = g.level2 := by
  unfold advance_pos
  dsimp only
  split <;> split <;> exact ⟨rfl, rfl⟩

theorem check_collisions_flags (g : Game) :
    (check_collisions g).game_over = g.game_over ∧ (check_collisions g).level2 = g.level2 := by
  have hb : (check_collisions_balas g).state.game_over = g.game_over ∧
      (check_collisions_balas g).state.level2 = g.level2 := by
    unfold check_collisions_balas
    refine forReturn_inv (fun s : Game => s.game_over = g.game_over ∧ s.level2 = g.level2)
      _ ?_ _ _ ⟨rfl, rfl⟩
    intro lyd s hs
    dsimp only
    split
    · refine forReturn_inv (fun t : Game => t.game_over = g.game_over ∧ t.level2 = g.level2)
        _ ?_ _ _ hs
      intro xd t ht
      dsimp only
      split
      · split
        · exact ht
        · exact ht
      · exact ht
    · exact hs
  have ha : ∀ h : Game, (check_collisions_aliado h).state.game_over = h.game_over ∧
      (check_collisions_aliado h).state.level2 = h.level2 := by
    intro h
    unfold check_collisions_aliado
    refine forReturn_inv (fun s : Game => s.game_over = h.game_over ∧ s.level2 = h.level2)
      _ ?_ _ _ ⟨rfl, rfl⟩
    intro xd s hs
    refine forReturn_inv (fun t : Game => t.game_over = h.game_over ∧ t.level2 = h.level2)
      _ ?_ _ _ hs
    intro w t ht
    dsimp only
    split
    · refine forReturn_inv (fun u : Game => u.game_over = h.game_over ∧ u.level2 = h.level2)
        _ ?_ _ _ ht
      intro z u hu
      dsimp only
      split
      · exact hu
      · exact hu
    · exact ht
  unfold check_collisions
  cases hc : check_collisions_balas g with
  | ret r =>
    rw [hc] at hb
    exact hb
  | next g1 =>
    rw [hc] at hb
    have h1 := ha g1
    exact ⟨h1.1.trans hb.1, h1.2.trans hb.2⟩

theorem loop_input_flags (cfg : Config) (key : Nat) (g : Game) (u : Bool × Game)
    (h : loop_input cfg key g = some u) :
    u.2.game_over = g.game_over ∧ u.2.level2 = g.level2 := by
  unfold loop_input at h
  split at h
  · split at h
    · cases h
    · split at h
      · cases h; exact move_bichito_flags _ _ _ _
      · split at h
        · cases h; exact move_bichito_flags _ _ _ _
        · split at h
          · cases h; exact disparar_flags _
          · split at h
            · split at h <;> cases h <;> exact ⟨rfl, rfl⟩
            · cases h; exact ⟨rfl, rfl⟩
  · cases h; exact ⟨rfl, rfl⟩

theorem loop_cadence_flags (cfg : Config) (tf : Nat) (b : Bool) (g : Game) :
    (loop_cadence cfg tf b g).2.game_over = g.game_over ∧
    (loop_cadence cfg tf b g).2.level2 = g.level2 := by
  unfold loop_cadence
  have hi := interval_flags TIMER_UPDATE g.speed tf g
  split
  · dsimp only
    split
    · have h1 := advance_pos_flags (update cfg (interval TIMER_UPDATE g.speed tf g).2)
      have h2 := update_flags cfg (interval TIMER_UPDATE g.speed tf g).2
      exact ⟨h1.1.trans (h2.1.trans hi.1), h1.2.trans (h2.2.trans hi.2)⟩
    · exact hi
  · exact ⟨rfl, rfl⟩

theorem inicializar_flags (cfg : Config) (g : Game) :
    (inicializar cfg g).game_over = g.game_over ∧ (inicializar cfg g).level2 = g.level2 := by
  unfold inicializar
  dsimp only
  refine forEach_inv (fun s : Game => s.game_over = g.game_over ∧ s.level2 = g.level2) _ ?_ _ _ ?_
  · intro i s hs
    exact hs
  · refine forEach_inv (fun s : Game => s.game_over = g.game_over ∧ s.level2 = g.level2)
      _ ?_ _ _ ⟨rfl, rfl⟩
    intro i s hs
    exact hs

theorem inicializar2_game_over (cfg : Config) (g : Game) :
    (inicializar2 cfg g).game_over = g.game_over := by
  have h3 : ∀ (l : List (Fin 20)) (s : Game × Nat),
      (forEach (fun (hola : Fin 20) (s : Game × Nat) =>
        (({ s.1 with position := s.1.position.set hola s.2 } : Game), sub32 s.2 1)) l s).1.game_over
        = s.1.game_over := by
    intro l
    induction l with
    | nil => intro s; rfl
    | cons i rest ih => intro s; simp only [forEach]; rw [ih]
  have h2 : ∀ (l : List (Fin 20)) (s : Game),
      (forEach (fun (hola : Fin 20) (g : Game) =>
        ({ g with position := g.position.set hola hola.val } : Game)) l s).game_over
        = s.game_over := by
    intro l
    induction l with
    | nil => intro s; rfl
    | cons i rest ih => intro s; simp only [forEach]; rw [ih]
  unfold inicializar2
  lift_lets
  intro g1 g2 g3 g4 g5
  have e5 : ∀ (a : Game) (v : Mathlib.Vector Bala 3),
      ({ a with rocas := v } : Game).game_over = a.game_over := fun _ _ => rfl
  rw [e5]
  have e54 : g5.game_over = g4.game_over := e5 _ _
  have e43 : g4.game_over = g3.game_over := e5 _ _
  have e32 : g3.game_over = g2.game_over := h3 _ _
  have e21 : g2.game_over = g1.game_over := h2 _ _
  exact e54.trans (e43.trans (e32.trans e21))

theorem loop_checks_entry_flags (b : Bool) (g : Game)
    (h : g.game_over = false ∧ g.level2 = false) :
    entry_flags (loop_checks b g).1 (loop_checks b g).2 = true := by
  unfold loop_checks
  dsimp only
  split
  · split
    · rfl
    · rename_i hgo
      split
      · simpa [entry_flags] using hgo
      · rename_i hl
        simp only [entry_flags, Bool.and_eq_true, Bool.not_eq_true_eq_eq_false]
        simp only [Bool.not_eq_true] at hgo hl
        exact ⟨hgo, hl⟩
  · simp [entry_flags, h.1, h.2]

theorem loop3_checks_entry_flags (cfg : Config) (b : Bool) (g : Game)
    (h : g.game_over = false) :
    entry_flags (loop3_checks cfg b g).1 (loop3_checks cfg b g).2 = true := by
  unfold loop3_checks
  dsimp only
  split
  · split
    · rfl
    · rename_i hgo
      simp only [Bool.not_eq_true] at hgo
      split
      · simp [entry_flags, hgo]
      · simp [entry_flags, hgo]
  · simp [entry_flags, h]

/-- Each step of `kernel_main` keeps `entry_flags`. -/
theorem step_entry_flags (cfg : Config) (inp : Inputs) (l : Label) (g : Game)
    (h : entry_flags l g = true) :
    entry_flags (step cfg inp l g).1 (step cfg inp l g).2 = true := by
  cases l with
  | loop0 =>
    simp only [entry_flags, Bool.and_eq_true, Bool.not_eq_true_eq_eq_false] at h
    have hi := inicializar_flags cfg g
    simp [step, loop0_enter, entry_flags, hi.1, hi.2, h.1, h.2]
  | title_wait =>
    simp only [entry_flags, Bool.and_eq_true, Bool.not_eq_true_eq_eq_false] at h
    have hs := scan_flags inp.port g
    have ht := tps_flags inp.sec inp.tsc (scan inp.port g).2
    unfold step
    dsimp only
    split
    · simp [entry_flags, ht.1, ht.2, hs.1, hs.2, h.1, h.2]
    · simp [entry_flags, hs.1, hs.2, h.1, h.2]
  | calib1 itpms =>
    simp only [entry_flags, Bool.and_eq_true, Bool.not_eq_true_eq_eq_false] at h
    have ht := tps_flags inp.sec inp.tsc g
    unfold step
    dsimp only
    split
    · simp [entry_flags, ht.1, ht.2, h.1, h.2]
    · simp [entry_flags, h.1, h.2]
  | calib2 itpms =>
    simp only [entry_flags, Bool.and_eq_true, Bool.not_eq_true_eq_eq_false] at h
    have ht := tps_flags inp.sec inp.tsc g
    have hs := spawn_flags cfg g
    unfold step
    dsimp only
    split
    · simp [entry_flags, ht.1, ht.2, h.1, h.2]
    · simp [entry_flags, hs.1, hs.2, h.1, h.2]
  | loop =>
    simp only [entry_flags, Bool.and_eq_true, Bool.not_eq_true_eq_eq_false] at h
    have h5 := tps_flags inp.sec inp.tsc g
    have h4 := scan_flags inp.port (tps inp.sec inp.tsc g)
    unfold step
    dsimp only
    unfold loop_iter
    dsimp only
    cases hu : loop_input cfg (scan inp.port (tps inp.sec inp.tsc g)).1
        (scan inp.port (tps inp.sec inp.tsc g)).2 with
    | none => rfl
    | some u =>
      dsimp only
      have h3 := loop_input_flags cfg _ _ u hu
      have h2 := loop_cadence_flags cfg inp.tsc2 u.1 u.2
      exact loop_checks_entry_flags _ _
        ⟨h2.1.trans (h3.1.trans (h4.1.trans (h5.1.trans h.1))),
         h2.2.trans (h3.2.trans (h4.2.trans (h5.2.trans h.2)))⟩
  | loop2 =>
    unfold step
    dsimp only
    unfold loop2_iter
    dsimp only
    split
    · split
      · rfl
      · rfl
    · rfl
  | loop3 =>
    simp only [entry_flags, Bool.not_eq_true_eq_eq_false] at h
    have h4 := scan_game_over inp.port g
    unfold step
    dsimp only
    unfold loop3_iter
    dsimp only
    cases hu : loop3_input cfg (scan inp.port g).1 (scan inp.port g).2 with
    | none => rfl
    | some u =>
      dsimp only
      have h3 := loop3_input_game_over cfg _ _ u hu
      have h2 := loop3_cadence_game_over cfg inp.tsc2 u.1 u.2
      exact loop3_checks_entry_flags cfg _ _ (h2.trans (h3.trans (h4.trans h)))
  | loop4 =>
    simp only [entry_flags, Bool.not_eq_true_eq_eq_false] at h
    have h4 := scan_game_over inp.port g
    have hi := inicializar2_game_over cfg (scan inp.port g).2
    unfold step
    dsimp only
    unfold loop4_iter
    dsimp only
    split
    · split
      · simp [entry_flags, hi, h4, h]
      · simp [entry_flags, h4, h]
    · simp [entry_flags, h4, h]
  | reset => rfl

theorem run_entry_flags (cfg : Config) (inps : List Inputs) :
    ∀ s : Label × Game, entry_flags s.1 s.2 = true →
      entry_flags (run cfg inps s).1 (run cfg inps s).2 = true := by
  induction inps with
  | nil => intro s hs; exact hs
  | cons inp rest ih =>
    intro s hs
    exact ih _ (step_entry_flags cfg inp s.1 s.2 hs)

/-- Every run of `kernel_main` from power-on that stands at `loop` has
`game_over` and `level2` clear there. -/
theorem loop_reached_flags (cfg : Config) (inps : List Inputs) (g : Game)
    (h : run cfg inps (Label.loop0, boot) = (Label.loop, g)) :
    g.game_over = false ∧ g.level2 = false := by
  have hr := run_entry_flags cfg inps (Label.loop0, boot) rfl
  rw [h] at hr
  simpa [entry_flags] using hr

/-- C15: in Playing1 (`game_over` and `level2` are clear at the top of `loop`,
as they are on every arrival there, see `loop_reached_flags`), for every pass
in which an input or cadence event occurred and whose collision resolution
leaves lives not 0: if it leaves score >= 20 the pass ends at `loop4`
(LevelAnnounce) with level 2; if it leaves score < 20 the pass ends at `loop`
(Playing1) again. -/
theorem loop_level_change (cfg : Config) (inp : Inputs) (g : Game) (u : Bool × Game)
    (hgo : g.game_over = false) (hl2 : g.level2 = false)
    (hu : loop_input cfg (scan inp.port (tps inp.sec inp.tsc g)).1
      (scan inp.port (tps inp.sec inp.tsc g)).2 = some u)
    (hupd : (loop_cadence cfg inp.tsc2 u.1 u.2).1 = true)
    (hv : (check_collisions (loop_cadence cfg inp.tsc2 u.1 u.2).2).vidas ≠ 0) :
    (20 ≤ (check_collisions (loop_cadence cfg inp.tsc2 u.1 u.2).2).score →
      loop_iter cfg inp g = (Label.loop4,
        { check_collisions (loop_cadence cfg inp.tsc2 u.1 u.2).2 with
          level2 := true, level := 2 })) ∧
    ((check_collisions (loop_cadence cfg inp.tsc2 u.1 u.2).2).score < 20 →
      loop_iter cfg inp g = (Label.loop, check_collisions (loop_cadence cfg inp.tsc2 u.1 u.2).2)) := by
  have hf : (check_collisions (loop_cadence cfg inp.tsc2 u.1 u.2).2).game_over = false ∧
      (check_collisions (loop_cadence cfg inp.tsc2 u.1 u.2).2).level2 = false := by
    have h1 := check_collisions_flags (loop_cadence cfg inp.tsc2 u.1 u.2).2
    have h2 := loop_cadence_flags cfg inp.tsc2 u.1 u.2
    have h3 := loop_input_flags cfg _ _ u hu
    have h4 := scan_flags inp.port (tps inp.sec inp.tsc g)
    have h5 := tps_flags inp.sec inp.tsc g
    exact ⟨h1.1.trans (h2.1.trans (h3.1.trans (h4.1.trans (h5.1.trans hgo)))),
      h1.2.trans (h2.2.trans (h3.2.trans (h4.2.trans (h5.2.trans hl2))))⟩
  have hiter : loop_iter cfg inp g
      = loop_checks true (loop_cadence cfg inp.tsc2 u.1 u.2).2 := by
    unfold loop_iter
    dsimp only
    rw [hu]
    dsimp only
    rw [hupd]
  rw [hiter]
  unfold loop_checks
  generalize check_collisions (loop_cadence cfg inp.tsc2 u.1 u.2).2 = c at hv hf ⊢
  constructor
  · intro hs
    have h1 : check_level_change c = { c with level2 := true, level := 2 } := by
      unfold check_level_change
      rw [if_pos hs]
    have h2 : check_game_over ({ c with level2 := true, level := 2 } : Game)
        = { c with level2 := true, level := 2 } := by
      unfold check_game_over
      rw [if_neg hv]
    rw [if_pos rfl]
    dsimp only
    rw [h1, h2]
    dsimp only
    rw [hf.1]
    simp only [Bool.false_eq_true, if_false, if_true]
  · intro hs
    have h1 : check_level_change c = c := by
      unfold check_level_change
      rw [if_neg (by omega)]
    have h2 : check_game_over c = c := by
      unfold check_game_over
      rw [if_neg hv]
    rw [if_pos rfl]
    dsimp only
    rw [h1, h2, hf.1, hf.2]
    simp only [Bool.false_eq_true, if_false]

set_option maxRecDepth 1000000 in
theorem loop_level_change_witness :
    (almost_level2.game_over = false ∧ almost_level2.level2 = false ∧
      almost_level2.score = 19) ∧
    loop_iter cfg0 release_space almost_level2 = (Label.loop4,
      { check_collisions (loop_cadence cfg0 release_space.tsc2 true
          (scan release_space.port
            (tps release_space.sec release_space.tsc almost_level2)).2).2 with
        level2 := true, level := 2 }) ∧
    (loop_iter cfg0 release_space almost_level2).2.score = 20 ∧
    (loop_iter cfg0 release_space almost_level2).2.level = 2 :=
  ⟨by decide,
   (loop_level_change cfg0 release_space almost_level2
      (true, (scan release_space.port
        (tps release_space.sec release_space.tsc almost_level2)).2)
      (by decide) (by decide) (by decide) (by decide) (by decide)).1 (by decide),
   by decide, by decide⟩

/-! ## Collision resolution with no active enemy -/

/-- C21 fails on the code.  The session `no_enemy_run` from power-on ends at
the top of `loop` with all four enemy slots inactive, and the next pass, the
key event `space_again` with no cadence event, calls `check_collisions` on
`no_enemy`: no enemy slot is active, so the claim has the score and every
projectile slot unchanged.  `check_collisions` matches the projectile just
fired against the inactive enemy slot 0, clears the projectile's flag and adds
1 to the score. -/
theorem check_collisions_scores_without_enemies :
    (run cfg0 no_enemy_run (Label.loop0, boot) = (Label.loop, no_enemy_top) ∧
      loop_iter cfg0 space_again no_enemy_top = loop_checks true no_enemy) ∧
    (∀ x : Fin 4, (no_enemy.enemigo.get x).existe = false) ∧
    ((no_enemy.bala.get 0).existe = true ∧ no_enemy.score = 4) ∧
    check_collisions no_enemy =
      { no_enemy with
        bala := no_enemy.bala.set 0 { x := 3, y := 19, existe := false }
        score := 5 } := by
  decide

/-! ## Passes of a paused game -/

/-- While paused, a pass without a key event changes nothing in level 2 and
only the calibration of `tps` in level 1, and stays where it is. -/
theorem paused_pass_without_key (cfg : Config) (inp : Inputs) (g : Game)
    (hp : g.paused = true) (hk : inp.port = g.key) :
    loop_iter cfg inp g = (Label.loop, tps inp.sec inp.tsc g) ∧
    loop3_iter cfg inp g = (Label.loop3, g) := by
  have hkey : (tps inp.sec inp.tsc g).key = g.key := by
    unfold tps
    split <;> rfl
  have hpa : (tps inp.sec inp.tsc g).paused = true := by
    unfold tps
    split
    · exact hp
    · exact hp
  constructor
  · simp [loop_iter, scan, hk, hkey, loop_input, loop_cadence, loop_checks, hpa]
  · simp [loop3_iter, scan, hk, loop3_input, loop3_cadence, loop3_checks, hp]

/-- C22 fails on the code.  The session `pause_run` from power-on ends at the
top of `loop` in the paused state `paused1`.  The claim has a pass with a key
other than pause and reset leave every position and existence flag unchanged.
The pass with LEFT moves the player from column 9 to column 8, and the pass
with SPACE activates projectile 0; both leave the game paused. -/
theorem paused_pass_moves_and_fires :
    (run cfg0 pause_run (Label.loop0, boot) = (Label.loop, paused1) ∧
      paused1.paused = true) ∧
    (KEY_LEFT ≠ KEY_P ∧ KEY_LEFT ≠ KEY_R ∧ KEY_SPACE ≠ KEY_P ∧ KEY_SPACE ≠ KEY_R) ∧
    loop_iter cfg0 left_while_paused paused1 =
      (Label.loop, { paused1 with
        key := KEY_LEFT, aliado := { i := 4, x := 8, y := 20, existe := true } }) ∧
    loop_iter cfg0 space_while_paused paused1 =
      (Label.loop, { paused1 with
        key := KEY_SPACE
        bala := paused1.bala.set 0 { x := 10, y := 19, existe := true } }) := by
  decide

/-! ## The shape of the scroll track -/

/-- The two track loops of `inicializar2` on the track alone. -/
theorem inicializar2_track_loops (v : Mathlib.Vector Nat 20) :
    (forEach (fun (hola : Fin 20) (p : Mathlib.Vector Nat 20 × Nat) =>
        (p.1.set hola p.2, sub32 p.2 1)) (slotsFrom 20 11 20)
      (forEach (fun (hola : Fin 20) (w : Mathlib.Vector Nat 20) => w.set hola hola.val)
        (slotsFrom 20 0 11) v, 9)).1 = triangle_track := by
  rw [slotsFrom_20_0_11, slotsFrom_20_11_20]
  have e9 : sub32 9 1 = 8 := by decide
  have e8 : sub32 8 1 = 7 := by decide
  have e7 : sub32 7 1 = 6 := by decide
  have e6 : sub32 6 1 = 5 := by decide
  have e5 : sub32 5 1 = 4 := by decide
  have e4 : sub32 4 1 = 3 := by decide
  have e3 : sub32 3 1 = 2 := by decide
  have e2 : sub32 2 1 = 1 := by decide
  have e1 : sub32 1 1 = 0 := by decide
  simp only [forEach, e9, e8, e7, e6, e5, e4, e3, e2, e1]
  apply Mathlib.Vector.ext
  intro i
  simp only [Mathlib.Vector.get_set_eq_if, triangle_track]
  fin_cases i <;> simp <;> rfl

theorem inicializar2_position (cfg : Config) (g : Game) :
    (inicializar2 cfg g).position = triangle_track := by
  have h3 : ∀ (l : List (Fin 20)) (s : Game × Nat),
      (forEach (fun (hola : Fin 20) (s : Game × Nat) =>
        (({ s.1 with position := s.1.position.set hola s.2 } : Game), sub32 s.2 1)) l s).1.position
        = (forEach (fun (hola : Fin 20) (p : Mathlib.Vector Nat 20 × Nat) =>
            (p.1.set hola p.2, sub32 p.2 1)) l (s.1.position, s.2)).1 := by
    intro l s
    exact congrArg Prod.fst (forEach_proj (fun s : Game × Nat => (s.1.position, s.2)) _
      (fun (hola : Fin 20) (p : Mathlib.Vector Nat 20 × Nat) => (p.1.set hola p.2, sub32 p.2 1))
      (fun _ _ => rfl) l s)
  have h2 : ∀ (l : List (Fin 20)) (s : Game),
      (forEach (fun (hola : Fin 20) (g : Game) =>
        ({ g with position := g.position.set hola hola.val } : Game)) l s).position
        = forEach (fun (hola : Fin 20) (w : Mathlib.Vector Nat 20) => w.set hola hola.val)
            l s.position := by
    intro l s
    exact forEach_position (fun (hola : Fin 20) (w : Mathlib.Vector Nat 20) => w.set hola hola.val)
      l s
  unfold inicializar2
  lift_lets
  intro g1 g2 g3 g4 g5
  have e5 : ∀ (a : Game) (v : Mathlib.Vector Bala 3),
      ({ a with rocas := v } : Game).position = a.position := fun _ _ => rfl
  rw [e5]
  have e54 : g5.position = g4.position := e5 _ _
  have e43 : g4.position = g3.position := e5 _ _
  have e32 := h3 (slotsFrom 20 11 20) (g2, 9)
  have e21 := h2 (slotsFrom 20 0 11) g1
  have e3 : g3.position = (forEach (fun (hola : Fin 20) (p : Mathlib.Vector Nat 20 × Nat) =>
      (p.1.set hola p.2, sub32 p.2 1)) (slotsFrom 20 11 20) (g2.position, 9)).1 := e32
  have e2 : g2.position = forEach (fun (hola : Fin 20) (w : Mathlib.Vector Nat 20) =>
      w.set hola hola.val) (slotsFrom 20 0 11) g.position := e21
  rw [e54, e43, e3, e2]
  exact inicializar2_track_loops g.position

/-- C25: after `inicializar2` the scroll track is the triangle wave
position[i] = min(i, 20 - i) for i in 0..19, and after `inicializar2` followed
by any number of `update2` calls every track offset lies in 0..10 and
cyclically adjacent offsets (position[19] and position[0] included) differ by
exactly 1. -/
theorem track_triangle_wave (cfg : Config) (g : Game) :
    (∀ i : Fin 20, (inicializar2 cfg g).position.get i = min i.val (20 - i.val)) ∧
    (∀ (n : Nat) (i : Fin 20),
      ((update2 cfg)^[n] (inicializar2 cfg g)).position.get i ≤ 10 ∧
      (((update2 cfg)^[n] (inicializar2 cfg g)).position.get i + 1
          = ((update2 cfg)^[n] (inicializar2 cfg g)).position.get (i + 1) ∨
        ((update2 cfg)^[n] (inicializar2 cfg g)).position.get (i + 1) + 1
          = ((update2 cfg)^[n] (inicializar2 cfg g)).position.get i)) := by
  have hshape : ∀ j : Fin 20, triangle_track.get j = min j.val (20 - j.val) ∧
      triangle_track.get j ≤ 10 ∧
      (triangle_track.get j + 1 = triangle_track.get (j + 1) ∨
        triangle_track.get (j + 1) + 1 = triangle_track.get j) := by
    decide
  constructor
  · intro i
    rw [inicializar2_position]
    exact (hshape i).1
  · intro n i
    rw [update2_iterate_position_get, update2_iterate_position_get, inicializar2_position]
    have e : i + 1 + (n : Fin 20) = i + (n : Fin 20) + 1 := by ring
    rw [e]
    exact (hshape (i + (n : Fin 20))).2

/-! ## The movement phase of `update` -/

theorem update_eq_spawn_update_moves (cfg : Config) (g : Game) :
    update cfg g = spawn cfg (update_moves cfg g) := rfl

theorem collide_false_iff (cfg : Config) (x y : Int) :
    collide cfg x y = false ↔ in_well cfg x y := by
  unfold collide in_well
  by_cases h : x < 1 ∨ x > cfg.WELL_WIDTH - 3 ∨ y ≤ 0 ∨ y ≥ cfg.WELL_HEIGHT
  · rw [if_pos h]
    constructor
    · intro hc
      cases hc
    · intro hw
      omega
  · rw [if_neg h]
    constructor
    · intro _
      omega
    · intro _
      rfl

/-- A loop over the four slots of a pool that rewrites slot `i` by `f` from
its own value rewrites every slot from its old value. -/
theorem forEach_map4 {α : Type} (f : α → α) (v : Mathlib.Vector α 4) (i : Fin 4) :
    (forEach (fun (j : Fin 4) (w : Mathlib.Vector α 4) => w.set j (f (w.get j))) slots4 v).get i
      = f (v.get i) := by
  have e01 : ∀ (w : Mathlib.Vector α 4) (b : α), (w.set 0 b).get 1 = w.get 1 :=
    fun w b => Mathlib.Vector.get_set_of_ne (by decide) b
  have e02 : ∀ (w : Mathlib.Vector α 4) (b : α), (w.set 0 b).get 2 = w.get 2 :=
    fun w b => Mathlib.Vector.get_set_of_ne (by decide) b
  have e03 : ∀ (w : Mathlib.Vector α 4) (b : α), (w.set 0 b).get 3 = w.get 3 :=
    fun w b => Mathlib.Vector.get_set_of_ne (by decide) b
  have e10 : ∀ (w : Mathlib.Vector α 4) (b : α), (w.set 1 b).get 0 = w.get 0 :=
    fun w b => Mathlib.Vector.get_set_of_ne (by decide) b
  have e12 : ∀ (w : Mathlib.Vector α 4) (b : α), (w.set 1 b).get 2 = w.get 2 :=
    fun w b => Mathlib.Vector.get_set_of_ne (by decide) b
  have e13 : ∀ (w : Mathlib.Vector α 4) (b : α), (w.set 1 b).get 3 = w.get 3 :=
    fun w b => Mathlib.Vector.get_set_of_ne (by decide) b
  have e20 : ∀ (w : Mathlib.Vector α 4) (b : α), (w.set 2 b).get 0 = w.get 0 :=
    fun w b => Mathlib.Vector.get_set_of_ne (by decide) b
  have e21 : ∀ (w : Mathlib.Vector α 4) (b : α), (w.set 2 b).get 1 = w.get 1 :=
    fun w b => Mathlib.Vector.get_set_of_ne (by decide) b
  have e23 : ∀ (w : Mathlib.Vector α 4) (b : α), (w.set 2 b).get 3 = w.get 3 :=
    fun w b => Mathlib.Vector.get_set_of_ne (by decide) b
  have e30 : ∀ (w : Mathlib.Vector α 4) (b : α), (w.set 3 b).get 0 = w.get 0 :=
    fun w b => Mathlib.Vector.get_set_of_ne (by decide) b
  have e31 : ∀ (w : Mathlib.Vector α 4) (b : α), (w.set 3 b).get 1 = w.get 1 :=
    fun w b => Mathlib.Vector.get_set_of_ne (by decide) b
  have e32 : ∀ (w : Mathlib.Vector α 4) (b : α), (w.set 3 b).get 2 = w.get 2 :=
    fun w b => Mathlib.Vector.get_set_of_ne (by decide) b
  have ess : ∀ (w : Mathlib.Vector α 4) (i : Fin 4) (b : α), (w.set i b).get i = b :=
    fun w i b => Mathlib.Vector.get_set_same w i b
  have hi : i = 0 ∨ i = 1 ∨ i = 2 ∨ i = 3 := by omega
  rcases hi with e | e | e | e <;> rw [e] <;>
    simp only [forEach, slots4, e01, e02, e03, e10, e12, e13, e20, e21, e23, e30, e31, e32, ess]

/-- One pass of the loop of `update` on the enemy pool. -/
theorem update_body_enemigo (cfg : Config) (lyd : Fin 4) (g : Game) :
    (let e := move_enemigo cfg 0 1 lyd g
     let g1 : Game :=
       if !e.1 then
         { e.2 with enemigo := e.2.enemigo.set lyd { e.2.enemigo.get lyd with existe := false } }
       else e.2
     let b := move_bala cfg 0 (-1) lyd g1
     if !b.1 then
       { b.2 with bala := b.2.bala.set lyd { b.2.bala.get lyd with existe := false } }
     else b.2).enemigo
    = g.enemigo.set lyd
        (if (g.enemigo.get lyd).existe = true
            ∧ collide cfg (s8 ((g.enemigo.get lyd).x + 0)) (s8 ((g.enemigo.get lyd).y + 1)) = false
         then { g.enemigo.get lyd with
           x := s8 ((g.enemigo.get lyd).x + 0), y := s8 ((g.enemigo.get lyd).y + 1) }
         else { g.enemigo.get lyd with existe := false }) := by
  dsimp only
  generalize hG1 : (if (!(move_enemigo cfg 0 1 lyd g).1) = true then _
    else (move_enemigo cfg 0 1 lyd g).2 : Game) = G1
  have hb : ∀ h : Game, (if (!(move_bala cfg 0 (-1) lyd h).1) = true then
      ({ (move_bala cfg 0 (-1) lyd h).2 with
        bala := (move_bala cfg 0 (-1) lyd h).2.bala.set lyd
          { (move_bala cfg 0 (-1) lyd h).2.bala.get lyd with existe := false } } : Game)
      else (move_bala cfg 0 (-1) lyd h).2).enemigo = h.enemigo := by
    intro h
    unfold move_bala
    split
    · split <;> rfl
    · split <;> rfl
  rw [hb G1, ← hG1]
  unfold move_enemigo
  simp only [add_zero]
  by_cases h1 : (g.enemigo.get lyd).existe = true
  · by_cases h2 : collide cfg (s8 (g.enemigo.get lyd).x) (s8 ((g.enemigo.get lyd).y + 1)) = true
    · simp [h1, h2]
    · simp [h1, h2]
  · simp [h1]

/-- One pass of the loop of `update` on the projectile pool. -/
theorem update_body_bala (cfg : Config) (lyd : Fin 4) (g : Game) :
    (let e := move_enemigo cfg 0 1 lyd g
     let g1 : Game :=
       if !e.1 then
         { e.2 with enemigo := e.2.enemigo.set lyd { e.2.enemigo.get lyd with existe := false } }
       else e.2
     let b := move_bala cfg 0 (-1) lyd g1
     if !b.1 then
       { b.2 with bala := b.2.bala.set lyd { b.2.bala.get lyd with existe := false } }
     else b.2).bala
    = g.bala.set lyd
        (if (g.bala.get lyd).existe = true
            ∧ collide cfg (s8 ((g.bala.get lyd).x + 0)) (s8 ((g.bala.get lyd).y + -1)) = false
         then { g.bala.get lyd with
           x := s8 ((g.bala.get lyd).x + 0), y := s8 ((g.bala.get lyd).y + -1) }
         else { g.bala.get lyd with existe := false }) := by
  dsimp only
  generalize hG1 : (if (!(move_enemigo cfg 0 1 lyd g).1) = true then _
    else (move_enemigo cfg 0 1 lyd g).2 : Game) = G1
  have hG : G1.bala = g.bala := by
    rw [← hG1]
    unfold move_enemigo
    split
    · split <;> rfl
    · split <;> rfl
  rw [← hG]
  unfold move_bala
  simp only [add_zero]
  by_cases h1 : (G1.bala.get lyd).existe = true
  · by_cases h2 : collide cfg (s8 (G1.bala.get lyd).x) (s8 ((G1.bala.get lyd).y + -1)) = true
    · simp [h1, h2]
    · simp [h1, h2]
  · simp [h1]

/-- The enemy pool and the projectile pool after the movement phase, slot by
slot, in terms of the tests and rewrites of the loop of `update`. -/
theorem update_moves_get (cfg : Config) (g : Game) (i : Fin 4) :
    (update_moves cfg g).enemigo.get i =
      (if (g.enemigo.get i).existe = true
          ∧ collide cfg (s8 ((g.enemigo.get i).x + 0)) (s8 ((g.enemigo.get i).y + 1)) = false
       then { g.enemigo.get i with
         x := s8 ((g.enemigo.get i).x + 0), y := s8 ((g.enemigo.get i).y + 1) }
       else { g.enemigo.get i with existe := false }) ∧
    (update_moves cfg g).bala.get i =
      (if (g.bala.get i).existe = true
          ∧ collide cfg (s8 ((g.bala.get i).x + 0)) (s8 ((g.bala.get i).y + -1)) = false
       then { g.bala.get i with
         x := s8 ((g.bala.get i).x + 0), y := s8 ((g.bala.get i).y + -1) }
       else { g.bala.get i with existe := false }) := by
  unfold update_moves
  constructor
  · rw [forEach_proj (fun s : Game => s.enemigo) _
      (fun (j : Fin 4) (w : Mathlib.Vector Nave 4) => w.set j
        ((fun e : Nave => if e.existe = true ∧ collide cfg (s8 (e.x + 0)) (s8 (e.y + 1)) = false
          then ({ e with x := s8 (e.x + 0), y := s8 (e.y + 1) } : Nave)
          else { e with existe := false }) (w.get j)))
      (fun j s => update_body_enemigo cfg j s)]
    exact forEach_map4
      (fun e : Nave => if e.existe = true ∧ collide cfg (s8 (e.x + 0)) (s8 (e.y + 1)) = false
        then ({ e with x := s8 (e.x + 0), y := s8 (e.y + 1) } : Nave)
        else { e with existe := false }) g.enemigo i
  · rw [forEach_proj (fun s : Game => s.bala) _
      (fun (j : Fin 4) (w : Mathlib.Vector Bala 4) => w.set j
        ((fun e : Bala => if e.existe = true ∧ collide cfg (s8 (e.x + 0)) (s8 (e.y + -1)) = false
          then ({ e with x := s8 (e.x + 0), y := s8 (e.y + -1) } : Bala)
          else { e with existe := false }) (w.get j)))
      (fun j s => update_body_bala cfg j s)]
    exact forEach_map4
      (fun e : Bala => if e.existe = true ∧ collide cfg (s8 (e.x + 0)) (s8 (e.y + -1)) = false
        then ({ e with x := s8 (e.x + 0), y := s8 (e.y + -1) } : Bala)
        else { e with existe := false }) g.bala i

/-- For a cell with signed 8-bit coordinates in a well at most 127 rows high,
the bounds test of a one-row step is the test on the destination itself, and a
destination within bounds is stored unchanged. -/
theorem step_of_range (cfg : Config) (x y d : Int) (hd : d = 1 ∨ d = -1)
    (hr : -128 ≤ x ∧ x ≤ 127 ∧ -128 ≤ y ∧ y ≤ 127) (hH : cfg.WELL_HEIGHT ≤ 127) :
    (collide cfg (s8 (x + 0)) (s8 (y + d)) = false ↔ in_well cfg x (y + d)) ∧
    (in_well cfg x (y + d) → s8 (x + 0) = x ∧ s8 (y + d) = y + d) := by
  have hx : s8 (x + 0) = x := by
    rw [add_zero]
    exact s8_of_range _ hr.1 hr.2.1
  rw [hx, collide_false_iff]
  by_cases hin : -128 ≤ y + d ∧ y + d ≤ 127
  · rw [s8_of_range _ hin.1 hin.2]
    exact ⟨Iff.rfl, fun _ => ⟨rfl, rfl⟩⟩
  · have hcase : (y = 127 ∧ d = 1) ∨ (y = -128 ∧ d = -1) := by omega
    rcases hcase with ⟨hy, hd1⟩ | ⟨hy, hd1⟩
    · rw [hy, hd1]
      have e : s8 (127 + 1) = -128 := by decide
      rw [e]
      unfold in_well
      refine ⟨⟨fun h => ?_, fun h => ?_⟩, fun h => ?_⟩ <;> omega
    · rw [hy, hd1]
      have e : s8 (-128 + -1) = 127 := by decide
      rw [e]
      unfold in_well
      refine ⟨⟨fun h => ?_, fun h => ?_⟩, fun h => ?_⟩ <;> omega

/-- C23: in the movement phase of `update`, every active enemy moves exactly
one row down and every active projectile exactly one row up, column unchanged,
when the destination satisfies 1 <= x <= WELL_WIDTH-3 and 0 < y < WELL_HEIGHT,
and is otherwise deactivated with its position unchanged (inactive slots stay
as they are); hence before the spawn step every active enemy and projectile
lies within those bounds, and an active projectile is not on row 0.  The state
is one of the C program: enemy and projectile coordinates are signed 8-bit
values and the well is at most 127 rows high. -/
theorem update_moves_spec (cfg : Config) (g : Game)
    (hen : ∀ i : Fin 4, -128 ≤ (g.enemigo.get i).x ∧ (g.enemigo.get i).x ≤ 127 ∧
      -128 ≤ (g.enemigo.get i).y ∧ (g.enemigo.get i).y ≤ 127)
    (hba : ∀ i : Fin 4, -128 ≤ (g.bala.get i).x ∧ (g.bala.get i).x ≤ 127 ∧
      -128 ≤ (g.bala.get i).y ∧ (g.bala.get i).y ≤ 127)
    (hH : cfg.WELL_HEIGHT ≤ 127) :
    update cfg g = spawn cfg (update_moves cfg g) ∧
    (∀ i : Fin 4, (g.enemigo.get i).existe = true →
      (in_well cfg (g.enemigo.get i).x ((g.enemigo.get i).y + 1) →
        (update_moves cfg g).enemigo.get i
          = { g.enemigo.get i with y := (g.enemigo.get i).y + 1 }) ∧
      (¬ in_well cfg (g.enemigo.get i).x ((g.enemigo.get i).y + 1) →
        (update_moves cfg g).enemigo.get i = { g.enemigo.get i with existe := false })) ∧
    (∀ i : Fin 4, (g.bala.get i).existe = true →
      (in_well cfg (g.bala.get i).x ((g.bala.get i).y - 1) →
        (update_moves cfg g).bala.get i = { g.bala.get i with y := (g.bala.get i).y - 1 }) ∧
      (¬ in_well cfg (g.bala.get i).x ((g.bala.get i).y - 1) →
        (update_moves cfg g).bala.get i = { g.bala.get i with existe := false })) ∧
    (∀ i : Fin 4, ((g.enemigo.get i).existe = false →
        (update_moves cfg g).enemigo.get i = g.enemigo.get i) ∧
      ((g.bala.get i).existe = false → (update_moves cfg g).bala.get i = g.bala.get i)) ∧
    (∀ i : Fin 4, ((update_moves cfg g).enemigo.get i).existe = true →
      in_well cfg ((update_moves cfg g).enemigo.get i).x ((update_moves cfg g).enemigo.get i).y) ∧
    (∀ i : Fin 4, ((update_moves cfg g).bala.get i).existe = true →
      in_well cfg ((update_moves cfg g).bala.get i).x ((update_moves cfg g).bala.get i).y ∧
      ((update_moves cfg g).bala.get i).y ≠ 0) := by
  have he : ∀ i : Fin 4,
      ((g.enemigo.get i).existe = true →
        in_well cfg (g.enemigo.get i).x ((g.enemigo.get i).y + 1) →
        (update_moves cfg g).enemigo.get i
          = { g.enemigo.get i with y := (g.enemigo.get i).y + 1 }) ∧
      (¬ ((g.enemigo.get i).existe = true ∧
          in_well cfg (g.enemigo.get i).x ((g.enemigo.get i).y + 1)) →
        (update_moves cfg g).enemigo.get i = { g.enemigo.get i with existe := false }) := by
    intro i
    have hs := step_of_range cfg (g.enemigo.get i).x (g.enemigo.get i).y 1 (Or.inl rfl) (hen i) hH
    rw [(update_moves_get cfg g i).1]
    constructor
    · intro h1 h2
      rw [if_pos ⟨h1, hs.1.2 h2⟩, (hs.2 h2).1, (hs.2 h2).2]
    · intro h
      rw [if_neg (fun hc => h ⟨hc.1, hs.1.1 hc.2⟩)]
  have hb : ∀ i : Fin 4,
      ((g.bala.get i).existe = true →
        in_well cfg (g.bala.get i).x ((g.bala.get i).y - 1) →
        (update_moves cfg g).bala.get i = { g.bala.get i with y := (g.bala.get i).y - 1 }) ∧
      (¬ ((g.bala.get i).existe = true ∧
          in_well cfg (g.bala.get i).x ((g.bala.get i).y - 1)) →
        (update_moves cfg g).bala.get i = { g.bala.get i with existe := false }) := by
    intro i
    have hs := step_of_range cfg (g.bala.get i).x (g.bala.get i).y (-1) (Or.inr rfl) (hba i) hH
    rw [(update_moves_get cfg g i).2]
    have em : (g.bala.get i).y - 1 = (g.bala.get i).y + -1 := by ring
    rw [em]
    constructor
    · intro h1 h2
      rw [if_pos ⟨h1, hs.1.2 h2⟩, (hs.2 h2).1, (hs.2 h2).2]
    · intro h
      rw [if_neg (fun hc => h ⟨hc.1, hs.1.1 hc.2⟩)]
  refine ⟨rfl, ?_, ?_, ?_, ?_, ?_⟩
  · intro i h1
    exact ⟨(he i).1 h1, fun h2 => (he i).2 (fun hc => h2 hc.2)⟩
  · intro i h1
    exact ⟨(hb i).1 h1, fun h2 => (hb i).2 (fun hc => h2 hc.2)⟩
  · intro i
    constructor
    · intro h0
      rw [(he i).2 (fun hc => by rw [h0] at hc; exact Bool.false_ne_true hc.1)]
      cases hq : g.enemigo.get i
      rw [hq] at h0
      cases h0
      rfl
    · intro h0
      rw [(hb i).2 (fun hc => by rw [h0] at hc; exact Bool.false_ne_true hc.1)]
      cases hq : g.bala.get i
      rw [hq] at h0
      cases h0
      rfl
  · intro i hact
    by_cases hc : (g.enemigo.get i).existe = true ∧
        in_well cfg (g.enemigo.get i).x ((g.enemigo.get i).y + 1)
    · rw [(he i).1 hc.1 hc.2]
      exact hc.2
    · rw [(he i).2 hc] at hact
      cases hact
  · intro i hact
    by_cases hc : (g.bala.get i).existe = true ∧
        in_well cfg (g.bala.get i).x ((g.bala.get i).y - 1)
    · rw [(hb i).1 hc.1 hc.2]
      refine ⟨hc.2, ?_⟩
      have h0 := hc.2.2.2.1
      show (g.bala.get i).y - 1 ≠ 0
      omega
    · rw [(hb i).2 hc] at hact
      cases hact

/-- Witness for C23: in `edge_rows` enemy 0 is on the last row (21 of a well
22 high) and is deactivated where it stands, enemy 1 moves from row 4 to row 5;
projectile 0 on row 1 is deactivated where it stands, projectile 1 moves from
row 9 to row 8. -/
theorem update_moves_spec_witness :
    (update_moves cfg0 edge_rows).enemigo.get 0 = { i := 0, x := 1, y := 21, existe := false } ∧
    (update_moves cfg0 edge_rows).enemigo.get 1 = { i := 1, x := 6, y := 5, existe := true } ∧
    (update_moves cfg0 edge_rows).bala.get 0 = { x := 10, y := 1, existe := false } ∧
    (update_moves cfg0 edge_rows).bala.get 1 = { x := 12, y := 8, existe := true } := by
  have h := update_moves_spec cfg0 edge_rows (by decide) (by decide) (by decide)
  refine ⟨?_, ?_, ?_, ?_⟩
  · rw [(h.2.1 0 (by decide)).2 (by decide)]
    decide
  · rw [(h.2.1 1 (by decide)).1 (by decide)]
    decide
  · rw [(h.2.2.1 0 (by decide)).2 (by decide)]
    decide
  · rw [(h.2.2.1 1 (by decide)).1 (by decide)]
    decide

/-! ## Lives in level 1 -/

theorem tps_vidas (sec tf : Nat) (g : Game) : (tps sec tf g).vidas = g.vidas := by
  unfold tps
  split <;> rfl

theorem scan_vidas (port : Nat) (g : Game) : (scan port g).2.vidas = g.vidas := by
  unfold scan
  split <;> rfl

theorem interval_vidas (t : timer) (ms tf : Nat) (g : Game) :
    (interval t ms tf g).2.vidas = g.vidas := by
  unfold interval
  split <;> rfl

theorem move_bichito_vidas (cfg : Config) (dx dy : Int) (g : Game) :
    (move_bichito cfg dx dy g).2.vidas = g.vidas := by
  unfold move_bichito
  split
  · rfl
  · split <;> rfl

theorem move_enemigo_vidas (cfg : Config) (dx dy : Int) (lol : Fin 4) (g : Game) :
    (move_enemigo cfg dx dy lol g).2.vidas = g.vidas := by
  unfold move_enemigo
  split
  · rfl
  · split <;> rfl

theorem move_bala_vidas (cfg : Config) (dx dy : Int) (lol : Fin 4) (g : Game) :
    (move_bala cfg dx dy lol g).2.vidas = g.vidas := by
  unfold move_bala
  split
  · rfl
  · split <;> rfl

theorem disparar_vidas (g : Game) : (disparar g).vidas = g.vidas := by
  unfold disparar
  refine forReturn_inv (fun s : Game => s.vidas = g.vidas) _ ?_ _ _ rfl
  intro i s hs
  dsimp only
  split
  · exact hs
  · exact hs

theorem spawn_vidas (cfg : Config) (g : Game) : (spawn cfg g).vidas = g.vidas := by
  unfold spawn
  dsimp only
  refine forReturn_inv (fun s : Game => s.vidas = g.vidas) _ ?_ _ _ ?_
  · intro i s hs
    dsimp only
    split
    · exact hs
    · exact hs
  · split <;> rfl

theorem update_vidas (cfg : Config) (g : Game) : (update cfg g).vidas = g.vidas := by
  unfold update
  generalize hF : forEach _ slots4 g = F
  have hFp : F.vidas = g.vidas := by
    rw [← hF]
    refine forEach_inv (fun s : Game => s.vidas = g.vidas) _ ?_ _ _ rfl
    intro i s hs
    dsimp only
    have hEp := move_enemigo_vidas cfg 0 1 i s
    generalize move_enemigo cfg 0 1 i s = E at hEp ⊢
    generalize hG1 : (if (!E.1) = true then _ else E.2 : Game) = G1
    have hG1p : G1.vidas = E.2.vidas := by
      rw [← hG1]
      split <;> rfl
    have hBp := move_bala_vidas cfg 0 (-1) i G1
    generalize move_bala cfg 0 (-1) i G1 = B at hBp ⊢
    have hall : B.2.vidas = g.vidas := hBp.trans (hG1p.trans (hEp.trans hs))
    split
    · exact hall
    · exact hall
  exact (spawn_vidas cfg F).trans hFp

theorem advance_pos_vidas (g : Game) : (advance_pos g).vidas = g.vidas := by
  unfold advance_pos
  dsimp only
  split <;> split <;> rfl

theorem inicializar_vidas (cfg : Config) (g : Game) : (inicializar cfg g).vidas = g.vidas := by
  unfold inicializar
  dsimp only
  refine forEach_inv (fun s : Game => s.vidas = g.vidas) _ ?_ _ _ ?_
  · intro i s hs
    exact hs
  · refine forEach_inv (fun s : Game => s.vidas = g.vidas) _ ?_ _ _ rfl
    intro i s hs
    exact hs

theorem loop_input_vidas (cfg : Config) (key : Nat) (g : Game) (u : Bool × Game)
    (h : loop_input cfg key g = some u) : u.2.vidas = g.vidas := by
  unfold loop_input at h
  split at h
  · split at h
    · cases h
    · split at h
      · cases h; exact move_bichito_vidas _ _ _ _
      · split at h
        · cases h; exact move_bichito_vidas _ _ _ _
        · split at h
          · cases h; exact disparar_vidas _
          · split at h
            · split at h <;> cases h <;> rfl
            · cases h; rfl
  · cases h; rfl

theorem loop_cadence_vidas (cfg : Config) (tf : Nat) (b : Bool) (g : Game) :
    (loop_cadence cfg tf b g).2.vidas = g.vidas := by
  unfold loop_cadence
  have hi := interval_vidas TIMER_UPDATE g.speed tf g
  split
  · dsimp only
    split
    · have h1 := advance_pos_vidas (update cfg (interval TIMER_UPDATE g.speed tf g).2)
      have h2 := update_vidas cfg (interval TIMER_UPDATE g.speed tf g).2
      exact h1.trans (h2.trans hi)
    · exact hi
  · rfl

/-- `check_collisions` takes at most one life per call. -/
theorem check_collisions_vidas (g : Game) :
    (check_collisions g).vidas = g.vidas ∨ (check_collisions g).vidas = sub32 g.vidas 1 := by
  have hb : (check_collisions_balas g).state.vidas = g.vidas := by
    unfold check_collisions_balas
    refine forReturn_inv (fun s : Game => s.vidas = g.vidas) _ ?_ _ _ rfl
    intro lyd s hs
    dsimp only
    split
    · refine forReturn_inv (fun t : Game => t.vidas = g.vidas) _ ?_ _ _ hs
      intro xd t ht
      dsimp only
      split
      · split
        · exact ht
        · exact ht
      · exact ht
    · exact hs
  unfold check_collisions
  cases hc : check_collisions_balas g with
  | ret r =>
    rw [hc] at hb
    exact Or.inl hb
  | next g1 =>
    have e1 : g1 = g := check_collisions_balas_next g g1 hc
    rw [e1]
    dsimp only
    by_cases hex : ∃ xd : Fin 4, footprints_overlap g.aliado (g.enemigo.get xd)
    · obtain ⟨xd, hx, hlow⟩ :=
        exists_lowest_fin4 (fun xd => footprints_overlap g.aliado (g.enemigo.get xd)) hex
      rw [check_collisions_aliado_first g xd hx hlow]
      exact Or.inr rfl
    · rw [check_collisions_aliado_none g (fun j hj => hex ⟨j, hj⟩)]
      exact Or.inl rfl

/-- The collision pass of `loop` from a state with the game-over flag clear
and 1 to 3 lives: at most one life is taken, and the pass goes to `loop2`
exactly when no life is left. -/
theorem loop_checks_lives (b : Bool) (g : Game) (hgo : g.game_over = false)
    (hv : 1 ≤ g.vidas ∧ g.vidas ≤ 3) :
    ((loop_checks b g).2.vidas = g.vidas ∨ (loop_checks b g).2.vidas + 1 = g.vidas) ∧
    ((loop_checks b g).1 = Label.loop2 ↔ (loop_checks b g).2.vidas = 0) ∧
    ((loop_checks b g).1 = Label.loop2 ∨ (loop_checks b g).1 = Label.loop
      ∨ (loop_checks b g).1 = Label.loop4) := by
  unfold loop_checks
  cases b with
  | false =>
    rw [if_neg Bool.false_ne_true]
    refine ⟨Or.inl rfl, ⟨fun h => (by cases h), fun h => ?_⟩, Or.inr (Or.inl rfl)⟩
    have h0 : g.vidas = 0 := h
    omega
  | true =>
    rw [if_pos rfl]
    dsimp only
    have hc := check_collisions_vidas g
    have hcf := (check_collisions_flags g).1
    have hsub : sub32 g.vidas 1 + 1 = g.vidas := by
      rw [sub32_one_of_pos g.vidas (by omega) (by unfold U32; omega)]
      omega
    generalize check_collisions g = c at hc hcf
    have hl : (check_level_change c).vidas = c.vidas ∧
        (check_level_change c).game_over = c.game_over := by
      unfold check_level_change
      split <;> exact ⟨rfl, rfl⟩
    generalize check_level_change c = l at hl
    have hg1 : (check_game_over l).vidas = l.vidas := check_game_over_vidas l
    have hg2 : (check_game_over l).game_over = true ↔ l.vidas = 0 := by
      unfold check_game_over
      by_cases h0 : l.vidas = 0
      · rw [if_pos h0]
        exact ⟨fun _ => h0, fun _ => rfl⟩
      · rw [if_neg h0, hl.2, hcf, hgo]
        exact ⟨fun h => (by cases h), fun h => absurd h h0⟩
    generalize check_game_over l = g1 at hg1 hg2
    have hvid : g1.vidas = g.vidas ∨ g1.vidas + 1 = g.vidas := by
      rw [hg1, hl.1]
      rcases hc with h | h
      · exact Or.inl h
      · right
        rw [h]
        exact hsub
    by_cases hover : g1.game_over = true
    · rw [if_pos hover]
      refine ⟨hvid, ⟨fun _ => ?_, fun _ => rfl⟩, Or.inl rfl⟩
      show g1.vidas = 0
      rw [hg1]
      exact hg2.1 hover
    · rw [if_neg hover]
      have hne : g1.vidas ≠ 0 := by
        rw [hg1]
        exact fun h => hover (hg2.2 h)
      by_cases hl2 : g1.level2 = true
      · rw [if_pos hl2]
        exact ⟨hvid, ⟨fun h => (by cases h), fun h => absurd h hne⟩, Or.inr (Or.inr rfl)⟩
      · rw [if_neg hl2]
        exact ⟨hvid, ⟨fun h => (by cases h), fun h => absurd h hne⟩, Or.inr (Or.inl rfl)⟩

/-- One pass of `loop` from a state with the game-over flag clear and 1 to 3
lives: at most one life is taken, the pass goes to `loop2` exactly when no
life is left, and it ends at `loop`, `loop2`, `loop4` or in the restart. -/
theorem loop_iter_lives (cfg : Config) (inp : Inputs) (g : Game) (hgo : g.game_over = false)
    (hv : 1 ≤ g.vidas ∧ g.vidas ≤ 3) :
    ((loop_iter cfg inp g).2.vidas = g.vidas ∨ (loop_iter cfg inp g).2.vidas + 1 = g.vidas) ∧
    ((loop_iter cfg inp g).1 = Label.loop2 ↔ (loop_iter cfg inp g).2.vidas = 0) ∧
    ((loop_iter cfg inp g).1 = Label.loop2 ∨ (loop_iter cfg inp g).1 = Label.loop
      ∨ (loop_iter cfg inp g).1 = Label.loop4 ∨ (loop_iter cfg inp g).1 = Label.reset) := by
  have hk : (scan inp.port (tps inp.sec inp.tsc g)).2.vidas = g.vidas :=
    (scan_vidas _ _).trans (tps_vidas _ _ _)
  have hkf : (scan inp.port (tps inp.sec inp.tsc g)).2.game_over = false :=
    ((scan_flags _ _).1.trans (tps_flags _ _ _).1).trans hgo
  unfold loop_iter
  dsimp only
  cases hu : loop_input cfg (scan inp.port (tps inp.sec inp.tsc g)).1
      (scan inp.port (tps inp.sec inp.tsc g)).2 with
  | none =>
    dsimp only
    refine ⟨Or.inl hk, ⟨fun h => (by cases h), fun h => ?_⟩, Or.inr (Or.inr (Or.inr rfl))⟩
    rw [hk] at h
    omega
  | some u =>
    dsimp only
    have hcv : (loop_cadence cfg inp.tsc2 u.1 u.2).2.vidas = g.vidas :=
      (loop_cadence_vidas _ _ _ _).trans ((loop_input_vidas cfg _ _ u hu).trans hk)
    have hcf : (loop_cadence cfg inp.tsc2 u.1 u.2).2.game_over = false :=
      ((loop_cadence_flags _ _ _ _).1.trans (loop_input_flags cfg _ _ u hu).1).trans hkf
    have hc := loop_checks_lives (loop_cadence cfg inp.tsc2 u.1 u.2).1
      (loop_cadence cfg inp.tsc2 u.1 u.2).2 hcf (by rw [hcv]; exact hv)
    rw [hcv] at hc
    refine ⟨hc.1, hc.2.1, ?_⟩
    rcases hc.2.2 with h | h | h
    · exact Or.inl h
    · exact Or.inr (Or.inl h)
    · exact Or.inr (Or.inr (Or.inl h))

/-- Each step of `kernel_main` keeps `entry_lives`, given `entry_flags`. -/
theorem step_entry_lives (cfg : Config) (inp : Inputs) (l : Label) (g : Game)
    (hf : entry_flags l g = true) (h : entry_lives l g = true) :
    entry_lives (step cfg inp l g).1 (step cfg inp l g).2 = true := by
  cases l with
  | loop0 =>
    simp only [entry_lives, decide_eq_true_eq] at h
    simp [step, loop0_enter, entry_lives, inicializar_vidas, h.1, h.2]
  | title_wait =>
    simp only [entry_lives, decide_eq_true_eq] at h
    unfold step
    dsimp only
    split
    · simp [entry_lives, tps_vidas, scan_vidas, h.1, h.2]
    · simp [entry_lives, scan_vidas, h.1, h.2]
  | calib1 itpms =>
    simp only [entry_lives, decide_eq_true_eq] at h
    unfold step
    dsimp only
    split
    · simp [entry_lives, tps_vidas, h.1, h.2]
    · simp [entry_lives, h.1, h.2]
  | calib2 itpms =>
    simp only [entry_lives, decide_eq_true_eq] at h
    unfold step
    dsimp only
    split
    · simp [entry_lives, tps_vidas, h.1, h.2]
    · simp [entry_lives, spawn_vidas, h.1, h.2]
  | loop =>
    simp only [entry_lives, decide_eq_true_eq] at h
    simp only [entry_flags, Bool.and_eq_true, Bool.not_eq_true_eq_eq_false] at hf
    have hl := loop_iter_lives cfg inp g hf.1 h
    unfold step
    dsimp only
    rcases hl.2.2 with e | e | e | e
    · rw [e]
      rfl
    · have hne : (loop_iter cfg inp g).2.vidas ≠ 0 := by
        intro h0
        have := hl.2.1.2 h0
        rw [e] at this
        cases this
      rw [e]
      simp only [entry_lives, decide_eq_true_eq]
      rcases hl.1 with h1 | h1 <;> omega
    · rw [e]
      rfl
    · rw [e]
      rfl
  | loop2 =>
    unfold step
    dsimp only
    unfold loop2_iter
    dsimp only
    split
    · split
      · rfl
      · rfl
    · rfl
  | loop3 =>
    unfold step
    dsimp only
    unfold loop3_iter
    dsimp only
    cases hu : loop3_input cfg (scan inp.port g).1 (scan inp.port g).2 with
    | none => rfl
    | some u =>
      dsimp only
      unfold loop3_checks
      dsimp only
      split
      · split
        · rfl
        · split
          · rfl
          · rfl
      · rfl
  | loop4 =>
    unfold step
    dsimp only
    unfold loop4_iter
    dsimp only
    split
    · split
      · rfl
      · rfl
    · rfl
  | reset => rfl

theorem run_entry_lives (cfg : Config) (inps : List Inputs) :
    ∀ s : Label × Game, entry_flags s.1 s.2 = true → entry_lives s.1 s.2 = true →
      entry_lives (run cfg inps s).1 (run cfg inps s).2 = true := by
  induction inps with
  | nil => intro s _ hs; exact hs
  | cons inp rest ih =>
    intro s hf hs
    exact ih _ (step_entry_flags cfg inp s.1 s.2 hf) (step_entry_lives cfg inp s.1 s.2 hf hs)

/-- C24: in level 1 lives never underflow.  Every state `g` at the top of
`loop` that a run of `kernel_main` reaches from power-on (3 lives) has
1 <= lives <= 3; every pass of `loop` from it decreases the lives by at most 1
and checks for zero in the same pass: it goes to `loop2` (GameOver) exactly
when it leaves no life, so lives are exactly 0 whenever GameOver is entered
from Playing1. -/
theorem loop_lives_never_underflow (cfg : Config) (inps : List Inputs) (g : Game)
    (h : run cfg inps (Label.loop0, boot) = (Label.loop, g)) :
    boot.vidas = 3 ∧
    (1 ≤ g.vidas ∧ g.vidas ≤ 3) ∧
    ∀ inp : Inputs,
      ((loop_iter cfg inp g).2.vidas = g.vidas ∨ (loop_iter cfg inp g).2.vidas + 1 = g.vidas) ∧
      ((loop_iter cfg inp g).1 = Label.loop2 ↔ (loop_iter cfg inp g).2.vidas = 0) := by
  have hf := run_entry_flags cfg inps (Label.loop0, boot) rfl
  have hl := run_entry_lives cfg inps (Label.loop0, boot) rfl rfl
  rw [h] at hf hl
  simp only [entry_flags, Bool.and_eq_true, Bool.not_eq_true_eq_eq_false] at hf
  simp only [entry_lives, decide_eq_true_eq] at hl
  refine ⟨rfl, hl, fun inp => ?_⟩
  have hi := loop_iter_lives cfg inp g hf.1 hl
  exact ⟨hi.1, hi.2.1⟩

/-- Witness for C24: `last_life_run` ends at the top of `loop` with one life
left and enemy 1 still on the player; the pass with LEFT takes the last life
and goes to `loop2`. -/
theorem loop_lives_never_underflow_witness :
    run cfg0 last_life_run (Label.loop0, boot)
      = (Label.loop, (run cfg0 last_life_run (Label.loop0, boot)).2) ∧
    (run cfg0 last_life_run (Label.loop0, boot)).2.vidas = 1 ∧
    (loop_iter cfg0 left_last_life (run cfg0 last_life_run (Label.loop0, boot)).2).2.vidas = 0 ∧
    (loop_iter cfg0 left_last_life (run cfg0 last_life_run (Label.loop0, boot)).2).1
      = Label.loop2 :=
  ⟨by decide, by decide, by decide,
   ((loop_lives_never_underflow cfg0 last_life_run
      (run cfg0 last_life_run (Label.loop0, boot)).2 (by decide)).2.2 left_last_life).2.2
      (by decide)⟩

/-! ## The columns passed to `collide2` -/

theorem tps_position (sec tf : Nat) (g : Game) : (tps sec tf g).position = g.position := by
  unfold tps
  split <;> rfl

theorem scan_position (port : Nat) (g : Game) : (scan port g).2.position = g.position := by
  unfold scan
  split <;> rfl

theorem interval_position (t : timer) (ms tf : Nat) (g : Game) :
    (interval t ms tf g).2.position = g.position := by
  unfold interval
  split <;> rfl

theorem move_bichito_position (cfg : Config) (dx dy : Int) (g : Game) :
    (move_bichito cfg dx dy g).2.position = g.position := by
  unfold move_bichito
  split
  · rfl
  · split <;> rfl

theorem move_bala_position (cfg : Config) (dx dy : Int) (lol : Fin 4) (g : Game) :
    (move_bala cfg dx dy lol g).2.position = g.position := by
  unfold move_bala
  split
  · rfl
  · split <;> rfl

theorem disparar_position (g : Game) : (disparar g).position = g.position := by
  unfold disparar
  refine forReturn_inv (fun s : Game => s.position = g.position) _ ?_ _ _ rfl
  intro i s hs
  dsimp only
  split
  · exact hs
  · exact hs

theorem spawn_position (cfg : Config) (g : Game) : (spawn cfg g).position = g.position := by
  unfold spawn
  dsimp only
  refine forReturn_inv (fun s : Game => s.position = g.position) _ ?_ _ _ ?_
  · intro i s hs
    dsimp only
    split
    · exact hs
    · exact hs
  · split <;> rfl

theorem update_position (cfg : Config) (g : Game) : (update cfg g).position = g.position := by
  unfold update
  generalize hF : forEach _ slots4 g = F
  have hFp : F.position = g.position := by
    rw [← hF]
    refine forEach_inv (fun s : Game => s.position = g.position) _ ?_ _ _ rfl
    intro i s hs
    dsimp only
    have hEp := move_enemigo_position cfg 0 1 i s
    generalize move_enemigo cfg 0 1 i s = E at hEp ⊢
    generalize hG1 : (if (!E.1) = true then _ else E.2 : Game) = G1
    have hG1p : G1.position = E.2.position := by
      rw [← hG1]
      split <;> rfl
    have hBp := move_bala_position cfg 0 (-1) i G1
    generalize move_bala cfg 0 (-1) i G1 = B at hBp ⊢
    have hall : B.2.position = g.position := hBp.trans (hG1p.trans (hEp.trans hs))
    split
    · exact hall
    · exact hall
  exact (spawn_position cfg F).trans hFp

theorem advance_pos_position (g : Game) : (advance_pos g).position = g.position := by
  unfold advance_pos
  dsimp only
  split <;> split <;> rfl

theorem inicializar_position (cfg : Config) (g : Game) :
    (inicializar cfg g).position = g.position := by
  unfold inicializar
  dsimp only
  refine forEach_inv (fun s : Game => s.position = g.position) _ ?_ _ _ ?_
  · intro i s hs
    exact hs
  · refine forEach_inv (fun s : Game => s.position = g.position) _ ?_ _ _ rfl
    intro i s hs
    exact hs

theorem loop_input_position (cfg : Config) (key : Nat) (g : Game) (u : Bool × Game)
    (h : loop_input cfg key g = some u) : u.2.position = g.position := by
  unfold loop_input at h
  split at h
  · split at h
    · cases h
    · split at h
      · cases h; exact move_bichito_position _ _ _ _
      · split at h
        · cases h; exact move_bichito_position _ _ _ _
        · split at h
          · cases h; exact disparar_position _
          · split at h
            · split at h <;> cases h <;> rfl
            · cases h; rfl
  · cases h; rfl

theorem loop_cadence_position (cfg : Config) (tf : Nat) (b : Bool) (g : Game) :
    (loop_cadence cfg tf b g).2.position = g.position := by
  unfold loop_cadence
  have hi := interval_position TIMER_UPDATE g.speed tf g
  split
  · dsimp only
    split
    · have h1 := advance_pos_position (update cfg (interval TIMER_UPDATE g.speed tf g).2)
      have h2 := update_position cfg (interval TIMER_UPDATE g.speed tf g).2
      exact h1.trans (h2.trans hi)
    · exact hi
  · rfl

theorem check_collisions_position (g : Game) : (check_collisions g).position = g.position := by
  have hb : (check_collisions_balas g).state.position = g.position := by
    unfold check_collisions_balas
    refine forReturn_inv (fun s : Game => s.position = g.position) _ ?_ _ _ rfl
    intro lyd s hs
    dsimp only
    split
    · refine forReturn_inv (fun t : Game => t.position = g.position) _ ?_ _ _ hs
      intro xd t ht
      dsimp only
      split
      · split
        · exact ht
        · exact ht
      · exact ht
    · exact hs
  have ha : ∀ h : Game, (check_collisions_aliado h).state.position = h.position := by
    intro h
    unfold check_collisions_aliado
    refine forReturn_inv (fun s : Game => s.position = h.position) _ ?_ _ _ rfl
    intro xd s hs
    refine forReturn_inv (fun t : Game => t.position = h.position) _ ?_ _ _ hs
    intro w t ht
    dsimp only
    split
    · refine forReturn_inv (fun u : Game => u.position = h.position) _ ?_ _ _ ht
      intro z u hu
      dsimp only
      split
      · exact hu
      · exact hu
    · exact ht
  unfold check_collisions
  cases hc : check_collisions_balas g with
  | ret r =>
    rw [hc] at hb
    exact hb
  | next g1 =>
    rw [hc] at hb
    exact (ha g1).trans hb

/-- A pass of `loop` leaves the track alone and ends at `loop`, `loop2`,
`loop4` or in the restart. -/
theorem loop_checks_position (b : Bool) (g : Game) :
    (loop_checks b g).2.position = g.position ∧ (loop_checks b g).1 ≠ Label.loop3 := by
  unfold loop_checks
  cases b with
  | false =>
    rw [if_neg Bool.false_ne_true]
    exact ⟨rfl, fun h => (by cases h)⟩
  | true =>
    rw [if_pos rfl]
    dsimp only
    have hc := check_collisions_position g
    generalize check_collisions g = c at hc
    have hl : (check_level_change c).position = c.position := by
      unfold check_level_change
      split <;> rfl
    generalize check_level_change c = l at hl
    have hg : (check_game_over l).position = l.position := by
      unfold check_game_over
      split <;> rfl
    generalize check_game_over l = g1 at hg
    have hall : g1.position = g.position := hg.trans (hl.trans hc)
    split
    · exact ⟨hall, fun h => (by cases h)⟩
    · split
      · exact ⟨hall, fun h => (by cases h)⟩
      · exact ⟨hall, fun h => (by cases h)⟩

theorem loop_iter_position (cfg : Config) (inp : Inputs) (g : Game) :
    (loop_iter cfg inp g).2.position = g.position ∧ (loop_iter cfg inp g).1 ≠ Label.loop3 := by
  have hk : (scan inp.port (tps inp.sec inp.tsc g)).2.position = g.position :=
    (scan_position _ _).trans (tps_position _ _ _)
  unfold loop_iter
  dsimp only
  cases hu : loop_input cfg (scan inp.port (tps inp.sec inp.tsc g)).1
      (scan inp.port (tps inp.sec inp.tsc g)).2 with
  | none =>
    dsimp only
    exact ⟨hk, fun h => (by cases h)⟩
  | some u =>
    dsimp only
    have hcv : (loop_cadence cfg inp.tsc2 u.1 u.2).2.position = g.position :=
      (loop_cadence_position _ _ _ _).trans ((loop_input_position cfg _ _ u hu).trans hk)
    have hc := loop_checks_position (loop_cadence cfg inp.tsc2 u.1 u.2).1
      (loop_cadence cfg inp.tsc2 u.1 u.2).2
    exact ⟨hc.1.trans hcv, hc.2⟩

theorem collide2_lane_frame (cfg : Config) (x y : Int) (g : Game) :
    (collide2 cfg x y g).2.position = g.position ∧
    (collide2 cfg x y g).2.aliado.x = g.aliado.x := by
  unfold collide2
  split <;> exact ⟨rfl, rfl⟩

theorem check_collisions_rocas_lane_frame (g : Game) :
    (check_collisions_rocas g).position = g.position ∧
    (check_collisions_rocas g).aliado.x = g.aliado.x := by
  unfold check_collisions_rocas
  refine forReturn_inv (fun s : Game => s.position = g.position ∧ s.aliado.x = g.aliado.x)
    _ ?_ _ _ ⟨rfl, rfl⟩
  intro i s hs
  dsimp only
  split
  · exact hs
  · split
    · exact hs
    · exact hs

theorem loop3_collisions_lane_frame (cfg : Config) (g : Game) :
    (loop3_collisions cfg g).position = g.position ∧
    (loop3_collisions cfg g).aliado.x = g.aliado.x := by
  unfold loop3_collisions
  have h1 := collide2_lane_frame cfg g.aliado.x g.aliado.y g
  have h2 := check_collisions_rocas_lane_frame (collide2 cfg g.aliado.x g.aliado.y g).2
  generalize check_collisions_rocas (collide2 cfg g.aliado.x g.aliado.y g).2 = r at h2
  have h3 : (check_game_over r).position = r.position ∧
      (check_game_over r).aliado.x = r.aliado.x := by
    unfold check_game_over
    split <;> exact ⟨rfl, rfl⟩
  exact ⟨h3.1.trans (h2.1.trans h1.1), h3.2.trans (h2.2.trans h1.2)⟩

/-- A move of the player by one column in level 2 keeps the player's column
between 1 and 18: the column handed to `collide2` is between 0 and 19, and an
accepted column lies in the lane. -/
theorem move_bichito2_lane (cfg : Config) (dx : Int) (g : Game) (hdx : dx = 1 ∨ dx = -1)
    (hp : g.position.get 1 ≤ 10) (hx : 1 ≤ g.aliado.x ∧ g.aliado.x ≤ 18) :
    (0 ≤ s8 (g.aliado.x + dx) ∧ s8 (g.aliado.x + dx) ≤ 19) ∧
    (move_bichito2 cfg dx 0 g).2.position = g.position ∧
    (1 ≤ (move_bichito2 cfg dx 0 g).2.aliado.x ∧ (move_bichito2 cfg dx 0 g).2.aliado.x ≤ 18) := by
  have hs : s8 (g.aliado.x + dx) = g.aliado.x + dx := by
    rcases hdx with e | e <;> rw [e] <;> exact s8_of_range _ (by omega) (by omega)
  have hr : 0 ≤ g.aliado.x + dx ∧ g.aliado.x + dx ≤ 19 := by
    rcases hdx with e | e <;> rw [e] <;> omega
  refine ⟨by rw [hs]; exact hr, ?_⟩
  unfold move_bichito2
  split
  · exact ⟨rfl, hx⟩
  · dsimp only
    have hf := collide2_lane_frame cfg (s8 (g.aliado.x + dx)) (s8 (g.aliado.y + 0)) g
    have heff := collide2_effect cfg (s8 (g.aliado.x + dx)) (s8 (g.aliado.y + 0)) g
    have hiff := collide2_true_iff cfg (s8 (g.aliado.x + dx)) (s8 (g.aliado.y + 0)) g
      (by rw [hs]; omega) (by omega)
    split
    · refine ⟨hf.1, ?_⟩
      show 1 ≤ (collide2 cfg (s8 (g.aliado.x + dx)) (s8 (g.aliado.y + 0)) g).2.aliado.x ∧
        (collide2 cfg (s8 (g.aliado.x + dx)) (s8 (g.aliado.y + 0)) g).2.aliado.x ≤ 18
      rw [hf.2]
      exact hx
    · rename_i hacc
      have hfalse : (collide2 cfg (s8 (g.aliado.x + dx)) (s8 (g.aliado.y + 0)) g).1 = false := by
        simpa using hacc
      have hst := heff.2 hfalse
      have hnot : ¬ ((s8 (g.aliado.x + dx) ≠ -1 ∧
          (s8 (g.aliado.x + dx) < (g.position.get 1 : Int) + 1 ∨
            s8 (g.aliado.x + dx) > (g.position.get 1 : Int) + 8))
          ∨ s8 (g.aliado.y + 0) ≤ 0 ∨ s8 (g.aliado.y + 0) ≥ cfg.WELL_HEIGHT) := by
        intro h
        have := hiff.2 h
        rw [hfalse] at this
        cases this
      rw [hst]
      refine ⟨rfl, ?_⟩
      show 1 ≤ s8 (g.aliado.x + dx) ∧ s8 (g.aliado.x + dx) ≤ 18
      rw [hs] at hnot ⊢
      have hp2 : ((g.position.get 1 : Nat) : Int) ≤ 10 := by exact_mod_cast hp
      constructor
      · by_contra hc
        exact hnot (Or.inl ⟨by omega, Or.inl (by omega)⟩)
      · by_contra hc
        exact hnot (Or.inl ⟨by omega, Or.inr (by omega)⟩)

theorem loop3_input_lane (cfg : Config) (key : Nat) (g : Game) (u : Bool × Game)
    (hp : g.position.get 1 ≤ 10) (hx : 1 ≤ g.aliado.x ∧ g.aliado.x ≤ 18)
    (h : loop3_input cfg key g = some u) :
    u.2.position = g.position ∧ (1 ≤ u.2.aliado.x ∧ u.2.aliado.x ≤ 18) := by
  unfold loop3_input at h
  split at h
  · split at h
    · cases h
    · split at h
      · cases h; exact (move_bichito2_lane cfg (-1) g (Or.inr rfl) hp hx).2
      · split at h
        · cases h; exact (move_bichito2_lane cfg 1 g (Or.inl rfl) hp hx).2
        · split at h
          · split at h <;> cases h <;> exact ⟨rfl, hx⟩
          · cases h; exact ⟨rfl, hx⟩
  · cases h; exact ⟨rfl, hx⟩

theorem interval_lane_frame (t : timer) (ms tf : Nat) (g : Game) :
    (interval t ms tf g).2.position = g.position ∧ (interval t ms tf g).2.aliado = g.aliado := by
  unfold interval
  split <;> exact ⟨rfl, rfl⟩

theorem advance_pos_aliado (g : Game) : (advance_pos g).aliado = g.aliado := by
  unfold advance_pos
  dsimp only
  split <;> split <;> rfl

theorem move_enemigo_aliado (cfg : Config) (dx dy : Int) (lol : Fin 4) (g : Game) :
    (move_enemigo cfg dx dy lol g).2.aliado = g.aliado := by
  unfold move_enemigo
  split
  · rfl
  · split <;> rfl

theorem move_rocas_aliado (cfg : Config) (dx dy : Int) (lol : Fin 3) (g : Game) :
    (move_rocas cfg dx dy lol g).2.aliado = g.aliado := by
  unfold move_rocas
  split
  · rfl
  · split <;> rfl

/-- The player after `spawn2`: left alone when active, put at column
`position[1] + 4` when not. -/
theorem spawn2_aliado (cfg : Config) (g : Game) :
    (spawn2 cfg g).aliado =
      if g.aliado.existe = false then
        { g.aliado with
          y := s8 (cfg.WELL_HEIGHT - 2), x := s8 (((g.position.get 1 + 4) % U32 : Nat) : Int),
          existe := true }
      else g.aliado := by
  unfold spawn2
  dsimp only
  generalize hg1 : (if g.aliado.existe = false then _ else g : Game) = g1
  have he : g1.aliado = if g.aliado.existe = false then
        { g.aliado with
          y := s8 (cfg.WELL_HEIGHT - 2), x := s8 (((g.position.get 1 + 4) % U32 : Nat) : Int),
          existe := true }
      else g.aliado := by
    rw [← hg1]
    split <;> rfl
  rw [← he]
  refine forEach_inv (fun s : Game => s.aliado = g1.aliado) _ ?_ _ _ rfl
  intro i s hs
  dsimp only
  split
  · exact hs
  · exact hs

/-- The column `position[1] + 4` of a track offset of at most 10. -/
theorem lane_spawn_column (p : Nat) (hp : p ≤ 10) :
    4 ≤ s8 (((p + 4) % U32 : Nat) : Int) ∧ s8 (((p + 4) % U32 : Nat) : Int) ≤ 14 := by
  have h1 : (p + 4) % U32 = p + 4 := Nat.mod_eq_of_lt (by unfold U32; omega)
  rw [h1, s8_of_range _ (by omega) (by omega)]
  omega

/-- The state `update2` hands to `spawn2` has the player it was given. -/
theorem update2_aliado (cfg : Config) (g : Game) :
    ∃ g4 : Game, update2 cfg g = spawn2 cfg g4 ∧ g4.aliado = g.aliado := by
  unfold update2
  dsimp only
  refine ⟨_, rfl, ?_⟩
  dsimp only
  refine forEach_inv (fun s : Game => s.aliado = g.aliado) _ ?_ _ _ ?_
  · intro i s hs
    exact hs
  · refine forEach_inv (fun s : Game => s.aliado = g.aliado) _ ?_ _ _ ?_
    · intro i s hs
      dsimp only
      split
      · exact (move_rocas_aliado _ _ _ _ _).trans hs
      · exact (move_rocas_aliado _ _ _ _ _).trans hs
    · refine forEach_inv (fun s : Game => s.aliado = g.aliado) _ ?_ _ _ ?_
      · intro i s hs
        dsimp only
        split
        · exact (move_enemigo_aliado _ _ _ _ _).trans hs
        · exact (move_enemigo_aliado _ _ _ _ _).trans hs
      · rfl

theorem update2_lane (cfg : Config) (g : Game) (hP : ∀ i : Fin 20, g.position.get i ≤ 10)
    (hx : 1 ≤ g.aliado.x ∧ g.aliado.x ≤ 18) :
    (∀ i : Fin 20, (update2 cfg g).position.get i ≤ 10) ∧
    (1 ≤ (update2 cfg g).aliado.x ∧ (update2 cfg g).aliado.x ≤ 18) := by
  have hpos : ∀ i : Fin 20, (update2 cfg g).position.get i ≤ 10 := by
    intro i
    rw [update2_position_get]
    exact hP _
  refine ⟨hpos, ?_⟩
  obtain ⟨g4, hu, ha⟩ := update2_aliado cfg g
  have hp4 : g4.position.get 1 ≤ 10 := by
    have := hpos 1
    rw [hu, spawn2_position] at this
    exact this
  rw [hu, spawn2_aliado]
  split
  · have hc := lane_spawn_column (g4.position.get 1) hp4
    show 1 ≤ s8 (((g4.position.get 1 + 4) % U32 : Nat) : Int) ∧
      s8 (((g4.position.get 1 + 4) % U32 : Nat) : Int) ≤ 18
    omega
  · rw [ha]
    exact hx

theorem loop3_cadence_lane (cfg : Config) (tf : Nat) (b : Bool) (g : Game)
    (hP : ∀ i : Fin 20, g.position.get i ≤ 10) (hx : 1 ≤ g.aliado.x ∧ g.aliado.x ≤ 18) :
    (∀ i : Fin 20, (loop3_cadence cfg tf b g).2.position.get i ≤ 10) ∧
    (1 ≤ (loop3_cadence cfg tf b g).2.aliado.x ∧ (loop3_cadence cfg tf b g).2.aliado.x ≤ 18) := by
  have hi := interval_lane_frame TIMER_UPDATE g.speed tf g
  have hPi : ∀ i : Fin 20, (interval TIMER_UPDATE g.speed tf g).2.position.get i ≤ 10 := by
    rw [hi.1]
    exact hP
  have hxi : 1 ≤ (interval TIMER_UPDATE g.speed tf g).2.aliado.x ∧
      (interval TIMER_UPDATE g.speed tf g).2.aliado.x ≤ 18 := by
    rw [hi.2]
    exact hx
  have hu := update2_lane cfg (interval TIMER_UPDATE g.speed tf g).2 hPi hxi
  unfold loop3_cadence
  dsimp only
  generalize interval TIMER_UPDATE g.speed tf g = r at hPi hxi hu ⊢
  generalize update2 cfg r.2 = U at hu ⊢
  have ha : (advance_pos U).position = U.position ∧ (advance_pos U).aliado = U.aliado :=
    ⟨advance_pos_position U, advance_pos_aliado U⟩
  generalize advance_pos U = A at ha ⊢
  rw [← ha.1, ← ha.2] at hu
  split
  · split
    · exact hu
    · exact ⟨hPi, hxi⟩
  · exact ⟨hP, hx⟩

/-- The player's column after `inicializar2`: the track offset `position[1]`
it found, plus 4. -/
theorem inicializar2_aliado_x (cfg : Config) (g : Game) :
    (inicializar2 cfg g).aliado.x = s8 (((g.position.get 1 + 4) % U32 : Nat) : Int) := by
  have h3 : ∀ (l : List (Fin 20)) (s : Game × Nat),
      (forEach (fun (hola : Fin 20) (s : Game × Nat) =>
        (({ s.1 with position := s.1.position.set hola s.2 } : Game), sub32 s.2 1)) l s).1.aliado
        = s.1.aliado := by
    intro l
    induction l with
    | nil => intro s; rfl
    | cons i rest ih => intro s; simp only [forEach]; rw [ih]
  have h2 : ∀ (l : List (Fin 20)) (s : Game),
      (forEach (fun (hola : Fin 20) (g : Game) =>
        ({ g with position := g.position.set hola hola.val } : Game)) l s).aliado
        = s.aliado := by
    intro l
    induction l with
    | nil => intro s; rfl
    | cons i rest ih => intro s; simp only [forEach]; rw [ih]
  unfold inicializar2
  lift_lets
  intro g1 g2 g3 g4 g5
  have e5 : ∀ (a : Game) (v : Mathlib.Vector Bala 3),
      ({ a with rocas := v } : Game).aliado = a.aliado := fun _ _ => rfl
  rw [e5]
  have e54 : g5.aliado = g4.aliado := e5 _ _
  have e43 : g4.aliado = g3.aliado := e5 _ _
  have e32 : g3.aliado = g2.aliado := h3 _ _
  have e21 : g2.aliado = g1.aliado := h2 _ _
  rw [e54, e43, e32, e21]

theorem loop3_iter_lane (cfg : Config) (inp : Inputs) (g : Game)
    (hP : ∀ i : Fin 20, g.position.get i ≤ 10) (hx : 1 ≤ g.aliado.x ∧ g.aliado.x ≤ 18) :
    lane_inv (loop3_iter cfg inp g).1 (loop3_iter cfg inp g).2 := by
  have hk : (scan inp.port g).2.position = g.position ∧ (scan inp.port g).2.aliado = g.aliado := by
    unfold scan
    split <;> exact ⟨rfl, rfl⟩
  have hPk : ∀ i : Fin 20, (scan inp.port g).2.position.get i ≤ 10 := by
    rw [hk.1]
    exact hP
  have hxk : 1 ≤ (scan inp.port g).2.aliado.x ∧ (scan inp.port g).2.aliado.x ≤ 18 := by
    rw [hk.2]
    exact hx
  unfold loop3_iter
  dsimp only
  cases hu : loop3_input cfg (scan inp.port g).1 (scan inp.port g).2 with
  | none =>
    dsimp only
    exact ⟨hPk, fun h => (by cases h)⟩
  | some u =>
    dsimp only
    have hin := loop3_input_lane cfg _ _ u (hPk 1) hxk hu
    have hPu : ∀ i : Fin 20, u.2.position.get i ≤ 10 := by
      rw [hin.1]
      exact hPk
    have hc := loop3_cadence_lane cfg inp.tsc2 u.1 u.2 hPu hin.2
    generalize loop3_cadence cfg inp.tsc2 u.1 u.2 = c at hc
    have hcol := loop3_collisions_lane_frame cfg c.2
    have hP1 : ∀ i : Fin 20, (loop3_collisions cfg c.2).position.get i ≤ 10 := by
      rw [hcol.1]
      exact hc.1
    have hx1 : 1 ≤ (loop3_collisions cfg c.2).aliado.x ∧ (loop3_collisions cfg c.2).aliado.x ≤ 18 := by
      rw [hcol.2]
      exact hc.2
    unfold loop3_checks
    dsimp only
    split
    · split
      · exact ⟨hP1, fun h => (by cases h)⟩
      · split
        · exact ⟨hP1, fun h => (by cases h)⟩
        · exact ⟨hP1, fun _ => hx1⟩
    · exact ⟨hc.1, fun _ => hc.2⟩

/-- Each step of `kernel_main` keeps `lane_inv`. -/
theorem step_lane_inv (cfg : Config) (inp : Inputs) (l : Label) (g : Game)
    (h : lane_inv l g) : lane_inv (step cfg inp l g).1 (step cfg inp l g).2 := by
  cases l with
  | loop0 =>
    refine ⟨?_, fun e => (by cases e)⟩
    show ∀ i : Fin 20, (inicializar cfg g).position.get i ≤ 10
    rw [inicializar_position]
    exact h.1
  | title_wait =>
    unfold step
    dsimp only
    split
    · refine ⟨?_, fun e => (by cases e)⟩
      show ∀ i : Fin 20, (tps inp.sec inp.tsc (scan inp.port g).2).position.get i ≤ 10
      rw [tps_position, scan_position]
      exact h.1
    · refine ⟨?_, fun e => (by cases e)⟩
      show ∀ i : Fin 20, (scan inp.port g).2.position.get i ≤ 10
      rw [scan_position]
      exact h.1
  | calib1 itpms =>
    unfold step
    dsimp only
    split
    · refine ⟨?_, fun e => (by cases e)⟩
      show ∀ i : Fin 20, (tps inp.sec inp.tsc g).position.get i ≤ 10
      rw [tps_position]
      exact h.1
    · exact ⟨h.1, fun e => (by cases e)⟩
  | calib2 itpms =>
    unfold step
    dsimp only
    split
    · refine ⟨?_, fun e => (by cases e)⟩
      show ∀ i : Fin 20, (tps inp.sec inp.tsc g).position.get i ≤ 10
      rw [tps_position]
      exact h.1
    · refine ⟨?_, fun e => (by cases e)⟩
      show ∀ i : Fin 20, (spawn cfg g).position.get i ≤ 10
      rw [spawn_position]
      exact h.1
  | loop =>
    have hl := loop_iter_position cfg inp g
    refine ⟨?_, fun e => absurd e hl.2⟩
    show ∀ i : Fin 20, (loop_iter cfg inp g).2.position.get i ≤ 10
    rw [hl.1]
    exact h.1
  | loop2 =>
    unfold step
    dsimp only
    unfold loop2_iter
    dsimp only
    have hs := scan_position inp.port g
    split
    · split
      · refine ⟨?_, fun e => (by cases e)⟩
        show ∀ i : Fin 20, (scan inp.port g).2.position.get i ≤ 10
        rw [hs]
        exact h.1
      · refine ⟨?_, fun e => (by cases e)⟩
        show ∀ i : Fin 20, (scan inp.port g).2.position.get i ≤ 10
        rw [hs]
        exact h.1
    · refine ⟨?_, fun e => (by cases e)⟩
      show ∀ i : Fin 20, (scan inp.port g).2.position.get i ≤ 10
      rw [hs]
      exact h.1
  | loop3 => exact loop3_iter_lane cfg inp g h.1 (h.2 rfl)
  | loop4 =>
    unfold step
    dsimp only
    unfold loop4_iter
    dsimp only
    have hs := scan_position inp.port g
    split
    · split
      · refine ⟨?_, fun _ => ?_⟩
        · intro i
          show (inicializar2 cfg (scan inp.port g).2).position.get i ≤ 10
          rw [inicializar2_position]
          revert i
          decide
        · show 1 ≤ (inicializar2 cfg (scan inp.port g).2).aliado.x ∧
            (inicializar2 cfg (scan inp.port g).2).aliado.x ≤ 18
          rw [inicializar2_aliado_x, hs]
          have hc := lane_spawn_column (g.position.get 1) (h.1 1)
          omega
      · refine ⟨?_, fun e => (by cases e)⟩
        show ∀ i : Fin 20, (scan inp.port g).2.position.get i ≤ 10
        rw [hs]
        exact h.1
    · refine ⟨?_, fun e => (by cases e)⟩
      show ∀ i : Fin 20, (scan inp.port g).2.position.get i ≤ 10
      rw [hs]
      exact h.1
  | reset => exact ⟨h.1, fun e => (by cases e)⟩

theorem run_lane_inv (cfg : Config) (inps : List Inputs) :
    ∀ s : Label × Game, lane_inv s.1 s.2 → lane_inv (run cfg inps s).1 (run cfg inps s).2 := by
  induction inps with
  | nil => intro s hs; exact hs
  | cons inp rest ih =>
    intro s hs
    exact ih _ (step_lane_inv cfg inp s.1 s.2 hs)

/-- The program never hands column -1 to `collide2`.  In every state at the
top of `loop3` that a run of `kernel_main` reaches from power-on, the player's
column is between 1 and 18 and the track offset `position[1]` is at most 10;
so the two columns `move_bichito2` can hand over are not negative, and the
column the collision pass hands over, after the key and the cadence update of
the pass, is at least 1. -/
theorem collide2_columns_reached (cfg : Config) (inps : List Inputs) (g : Game)
    (h : run cfg inps (Label.loop0, boot) = (Label.loop3, g)) (inp : Inputs) :
    (1 ≤ g.aliado.x ∧ g.aliado.x ≤ 18) ∧ g.position.get 1 ≤ 10 ∧
    (0 ≤ s8 ((scan inp.port g).2.aliado.x + -1) ∧ 0 ≤ s8 ((scan inp.port g).2.aliado.x + 1)) ∧
    (∀ u : Bool × Game, loop3_input cfg (scan inp.port g).1 (scan inp.port g).2 = some u →
      1 ≤ (loop3_cadence cfg inp.tsc2 u.1 u.2).2.aliado.x ∧
      (loop3_cadence cfg inp.tsc2 u.1 u.2).2.aliado.x ≤ 18) := by
  have hb : lane_inv Label.loop0 boot := by decide
  have hr := run_lane_inv cfg inps (Label.loop0, boot) hb
  rw [h] at hr
  have hx := hr.2 rfl
  have hk : (scan inp.port g).2.position = g.position ∧ (scan inp.port g).2.aliado = g.aliado := by
    unfold scan
    split <;> exact ⟨rfl, rfl⟩
  have hPk : ∀ i : Fin 20, (scan inp.port g).2.position.get i ≤ 10 := by
    rw [hk.1]
    exact hr.1
  have hxk : 1 ≤ (scan inp.port g).2.aliado.x ∧ (scan inp.port g).2.aliado.x ≤ 18 := by
    rw [hk.2]
    exact hx
  refine ⟨hx, hr.1 1, ⟨?_, ?_⟩, fun u hu => ?_⟩
  · exact (move_bichito2_lane cfg (-1) (scan inp.port g).2 (Or.inr rfl) (hPk 1) hxk).1.1
  · exact (move_bichito2_lane cfg 1 (scan inp.port g).2 (Or.inl rfl) (hPk 1) hxk).1.1
  · have hin := loop3_input_lane cfg _ _ u (hPk 1) hxk hu
    have hPu : ∀ i : Fin 20, u.2.position.get i ≤ 10 := by
      rw [hin.1]
      exact hPk
    exact (loop3_cadence_lane cfg inp.tsc2 u.1 u.2 hPu hin.2).2

end Kernel
